import Mathlib

/-! DHCPLite: a shallow embedding of `DHCPLite.cpp`.

The definitions below follow the C++ source function by function.

* Memory is a list of bytes; a pointer into the receive buffer is an offset into
  that list and a `(pointer, size)` pair that is only read is the list of bytes it
  designates.  A read past the end of the list yields `0`.
* `BYTE`, `WORD` and `DWORD` values are natural numbers; `DWORD` arithmetic that can
  wrap is reduced modulo `2 ^ 32`.  Multi-byte fields are read the way the x86
  target reads them (little-endian), so a `DWORD` read from the wire holds an
  address "in network order" exactly as in the source.
* Loops carry a `fuel` argument; the result `none` means that the loop was still
  running when the fuel ran out.
* `ASSERT` and the `OUTPUT` macros have no effect on the results.
-/

namespace DHCPLite

/-! ## Constants -/

def DHCP_SERVER_PORT : Nat := 67
def DHCP_CLIENT_PORT : Nat := 68
def BROADCAST_FLAG : Nat := 0x80

def op_BOOTREQUEST : Nat := 1
def op_BOOTREPLY : Nat := 2

def option_PAD : Nat := 0
def option_SUBNETMASK : Nat := 1
def option_HOSTNAME : Nat := 12
def option_REQUESTEDIPADDRESS : Nat := 50
def option_IPADDRESSLEASETIME : Nat := 51
def option_DHCPMESSAGETYPE : Nat := 53
def option_SERVERIDENTIFIER : Nat := 54
def option_CLIENTIDENTIFIER : Nat := 61
def option_END : Nat := 255

def DHCPMessageType_DISCOVER : Nat := 1
def DHCPMessageType_OFFER : Nat := 2
def DHCPMessageType_REQUEST : Nat := 3
def DHCPMessageType_DECLINE : Nat := 4
def DHCPMessageType_ACK : Nat := 5
def DHCPMessageType_NAK : Nat := 6
def DHCPMessageType_RELEASE : Nat := 7
def DHCPMessageType_INFORM : Nat := 8

def INADDR_BROADCAST : Nat := 0xffffffff
def INADDR_LOOPBACK : Nat := 0x7f000001

/-- The bytes of `pbDHCPMagicCookie`. -/
def pbDHCPMagicCookie : List Nat := [99, 130, 83, 99]

/-- The bytes of `pcsServerName`, the string "DHCPLite DHCP server". -/
def pcsServerName : List Nat :=
  [68, 72, 67, 80, 76, 105, 116, 101, 32, 68, 72, 67, 80, 32, 115, 101, 114, 118, 101, 114]

/-- The value of `sizeof(DHCPMessage)`: the packed header and the magic cookie. -/
def sizeofDHCPMessage : Nat := 240

/-- The value of `sizeof(DHCPOptionsData)`: the tag byte and the length byte. -/
def sizeofDHCPOptionsData : Nat := 2

/-- The value of `sizeof(DHCPServerOptions)`. -/
def sizeofDHCPServerOptions : Nat := 22

/-! ## Byte-order macros -/

def DWIP0 (dw : Nat) : Nat := (dw / 2 ^ 0) % 256
def DWIP1 (dw : Nat) : Nat := (dw / 2 ^ 8) % 256
def DWIP2 (dw : Nat) : Nat := (dw / 2 ^ 16) % 256
def DWIP3 (dw : Nat) : Nat := (dw / 2 ^ 24) % 256

/-- The macro `DWIPtoValue`: the four bytes of `dw` in reverse order.  The bytes
occupy disjoint bit ranges, so the bitwise "or" of the source is a sum. -/
def DWIPtoValue (dw : Nat) : Nat :=
  DWIP0 dw * 2 ^ 24 + DWIP1 dw * 2 ^ 16 + DWIP2 dw * 2 ^ 8 + DWIP3 dw

/-- The macro `DWValuetoIP`, textually the same as `DWIPtoValue`. -/
def DWValuetoIP (dw : Nat) : Nat :=
  DWIP0 dw * 2 ^ 24 + DWIP1 dw * 2 ^ 16 + DWIP2 dw * 2 ^ 8 + DWIP3 dw

/-! ## Memory reads -/

/-- The `BYTE` at offset `i`. -/
def readBYTE (mem : List Nat) (i : Nat) : Nat := mem.getD i 0 % 256

/-- The `WORD` at offset `i`. -/
def readWORD (mem : List Nat) (i : Nat) : Nat :=
  readBYTE mem i + 256 * readBYTE mem (i + 1)

/-- The `DWORD` at offset `i`. -/
def readDWORD (mem : List Nat) (i : Nat) : Nat :=
  readBYTE mem i + 256 * readBYTE mem (i + 1) + 65536 * readBYTE mem (i + 2)
    + 16777216 * readBYTE mem (i + 3)

/-- The `n` bytes that start at offset `i`. -/
def readBytes (mem : List Nat) (i n : Nat) : List Nat :=
  (List.range n).map (fun k => readBYTE mem (i + k))

/-- The four bytes a `DWORD` occupies in memory. -/
def bytesOfDWORD (dw : Nat) : List Nat := [DWIP0 dw, DWIP1 dw, DWIP2 dw, DWIP3 dw]

/-! ## The table of addresses in use -/

/-- The struct `AddressInUseInformation`; `pbClientIdentifier` with
`dwClientIdentifierSize` is the list of identifier bytes (the server entry, whose
pointer is null and whose size is 0, has the empty list). -/
structure AddressInUseInformation where
  dwAddrValue : Nat
  pbClientIdentifier : List Nat
deriving DecidableEq, Repr

/-- The function `FindIndexOf`: the index of the first entry the filter accepts;
`none` stands for the result `-1`. -/
def FindIndexOf (pvAddressesInUse : List AddressInUseInformation)
    (pFilter : AddressInUseInformation → Bool) : Option Nat :=
  match pvAddressesInUse with
  | [] => none
  | a :: rest =>
    if pFilter a then some 0
    else (FindIndexOf rest pFilter).map (fun i => i + 1)

/-- The filter `AddressInUseInformationAddrValueFilter`. -/
def AddressInUseInformationAddrValueFilter (dwAddrValue : Nat)
    (raiui : AddressInUseInformation) : Bool :=
  dwAddrValue == raiui.dwAddrValue

/-- The filter `AddressInUseInformationClientIdentifierFilter`; `cid` is the
`ClientIdentifierData` of the request as a list of bytes. -/
def AddressInUseInformationClientIdentifierFilter (cid : List Nat)
    (raiui : AddressInUseInformation) : Bool :=
  (raiui.pbClientIdentifier.length != 0)
    && (cid.length == raiui.pbClientIdentifier.length)
    && (cid == raiui.pbClientIdentifier)

/-! ## Option lookup -/

/-- What one pass through the body of the `while` loop of `FindOptionData` does. -/
inductive OptionStep where
  | next (pbCurrentOption : Nat)
  | done (found : Option (Nat × Nat))
deriving DecidableEq, Repr

/-- The body of the `while` loop of `FindOptionData` at offset `pbCurrentOption`
(relative to `pbOptions`).  A hit is reported as the offset of the option data and
the value of the length byte. -/
def FindOptionData_body (bOption : Nat) (pbOptions : List Nat) (iOptionsSize : Nat)
    (pbCurrentOption : Nat) : OptionStep :=
  let messageType := readBYTE pbOptions pbCurrentOption
  if messageType = option_PAD then .next (pbCurrentOption + 1)
  else if messageType = option_END then .done none
  else if pbCurrentOption ≥ iOptionsSize then .next pbCurrentOption
  else if bOption = messageType then
    .done (some (pbCurrentOption + sizeofDHCPOptionsData, readBYTE pbOptions (pbCurrentOption + 1)))
  else .next pbCurrentOption

/-- The `while` loop of `FindOptionData`, started at offset `pbCurrentOption`. -/
def FindOptionData_loop (bOption : Nat) (pbOptions : List Nat) (iOptionsSize : Nat) :
    Nat → Nat → Option (Option (Nat × Nat))
  | 0, _ => none
  | fuel + 1, pbCurrentOption =>
    if pbCurrentOption < iOptionsSize then
      match FindOptionData_body bOption pbOptions iOptionsSize pbCurrentOption with
      | .next p => FindOptionData_loop bOption pbOptions iOptionsSize fuel p
      | .done r => some r
    else some none

/-- The function `FindOptionData`.  `some (some (off, size))` is the result `true`
with `*ppbOptionData = pbOptions + off` and `*piOptionDataSize = size`,
`some none` is the result `false`. -/
def FindOptionData (fuel : Nat) (bOption : Nat) (pbOptions : List Nat) (iOptionsSize : Nat) :
    Option (Option (Nat × Nat)) :=
  FindOptionData_loop bOption pbOptions iOptionsSize fuel 0

/-- The function `GetDHCPMessageType`; `some (some t)` is the result `true` with
`*pdhcpmtMessageType = t`, `some none` is the result `false`. -/
def GetDHCPMessageType (fuel : Nat) (pbOptions : List Nat) (iOptionsSize : Nat) :
    Option (Option Nat) :=
  match FindOptionData fuel option_DHCPMESSAGETYPE pbOptions iOptionsSize with
  | none => none
  | some none => some none
  | some (some (pbDHCPMessageTypeData, iDHCPMessageTypeDataSize)) =>
    if iDHCPMessageTypeDataSize ≠ 1 then some none
    else if readBYTE pbOptions pbDHCPMessageTypeData ≤ 1 then some none
    else if readBYTE pbOptions pbDHCPMessageTypeData > 8 then some none
    else some (some (readBYTE pbOptions pbDHCPMessageTypeData))

/-! ## The reply buffer -/

/-- The struct `DHCPServerOptions` that overlays the options of the reply. -/
structure DHCPServerOptions where
  pbMessageType : List Nat
  pbLeaseTime : List Nat
  pbSubnetMask : List Nat
  pbServerID : List Nat
  bEND : Nat
deriving DecidableEq, Repr

/-- The struct `DHCPMessage` as it overlays `bDHCPMessageBuffer`; `options` is the
`DHCPServerOptions` placed at its flexible array member. -/
structure DHCPMessage where
  op : Nat
  htype : Nat
  hlen : Nat
  hops : Nat
  xid : Nat
  secs : Nat
  flags : Nat
  ciaddr : Nat
  yiaddr : Nat
  siaddr : Nat
  giaddr : Nat
  chaddr : List Nat
  sname : List Nat
  file : List Nat
  magicCookie : List Nat
  options : DHCPServerOptions
deriving DecidableEq, Repr

/-- The two bytes a `WORD` occupies in memory. -/
def bytesOfWORD (w : Nat) : List Nat := [w % 256, (w / 256) % 256]

/-- The bytes of a `DHCPServerOptions` in declaration order (the struct is packed). -/
def DHCPServerOptions.bytes (o : DHCPServerOptions) : List Nat :=
  o.pbMessageType ++ o.pbLeaseTime ++ o.pbSubnetMask ++ o.pbServerID ++ [o.bEND]

/-- The contents of `bDHCPMessageBuffer`, the bytes handed to `sendto`. -/
def DHCPMessage.bytes (m : DHCPMessage) : List Nat :=
  [m.op, m.htype, m.hlen, m.hops] ++ bytesOfDWORD m.xid ++ bytesOfWORD m.secs
    ++ bytesOfWORD m.flags ++ bytesOfDWORD m.ciaddr ++ bytesOfDWORD m.yiaddr
    ++ bytesOfDWORD m.siaddr ++ bytesOfDWORD m.giaddr ++ m.chaddr ++ m.sname ++ m.file
    ++ m.magicCookie ++ m.options.bytes

/-- The value of `pbMessageType[2]` in the reply. -/
def DHCPMessage.messageType (m : DHCPMessage) : Nat := m.options.pbMessageType.getD 2 0

/-- The assignment `pbMessageType[2] = t` on the reply. -/
def DHCPMessage.setMessageType (m : DHCPMessage) (t : Nat) : DHCPMessage :=
  { m with options := { m.options with pbMessageType := m.options.pbMessageType.set 2 t } }

/-! ## Server configuration and state -/

/-- The arguments of `ProcessDHCPClientRequest` that `main` fixes once: the server
address, mask and range bounds (`DWORD`s in network order) and the characters of
the server host name (without the terminating NUL). -/
structure ServerConfig where
  dwServerAddr : Nat
  dwMask : Nat
  dwMinAddr : Nat
  dwMaxAddr : Nat
  pcsServerHostName : List Nat
deriving DecidableEq, Repr

/-- The state that survives a call of `ProcessDHCPClientRequest`: the vector
`vAddressesInUse` and the function-local static `dwServerLastOfferAddrValue`, which
is `none` until the DISCOVER case has run its initialiser. -/
structure ServerState where
  vAddressesInUse : List AddressInUseInformation
  dwServerLastOfferAddrValue : Option Nat
deriving DecidableEq, Repr

/-- The state `main` sets up: the vector holds the entry of the server, which has
no client identifier. -/
def initialState (cfg : ServerConfig) : ServerState :=
  { vAddressesInUse := [{ dwAddrValue := DWIPtoValue cfg.dwServerAddr, pbClientIdentifier := [] }]
    dwServerLastOfferAddrValue := none }

/-- A call of `sendto`: the message and the `sin_addr.s_addr` and port of the
destination. -/
structure SentDatagram where
  msg : DHCPMessage
  s_addr : Nat
  sin_port : Nat
deriving DecidableEq, Repr

/-! ## `ProcessDHCPClientRequest` -/

/-- The three tests at the head of `ProcessDHCPClientRequest`; `false` is the jump
to `errMsg`.  `memcmp` yields 0 on equal bytes, and the jump is taken on
`!memcmp(...)`. -/
def passesInitialChecks (pbData : List Nat) (iDataSize : Nat) : Bool :=
  if sizeofDHCPMessage > iDataSize then false
  else if readBYTE pbData 0 ≠ op_BOOTREQUEST then false
  else if pbDHCPMagicCookie = readBytes pbData 236 4 then false
  else true

/-- The reply as it stands in front of `switch (dhcpmtMessageType)`. -/
def initialReply (cfg : ServerConfig) (pbData : List Nat) : DHCPMessage :=
  { op := op_BOOTREPLY
    htype := readBYTE pbData 1
    hlen := readBYTE pbData 2
    hops := 0
    xid := readDWORD pbData 4
    secs := 0
    flags := readWORD pbData 10
    ciaddr := 0
    yiaddr := 0
    siaddr := 0
    giaddr := readDWORD pbData 24
    chaddr := readBytes pbData 28 16
    sname := pcsServerName ++ List.replicate 44 0
    file := List.replicate 128 0
    magicCookie := pbDHCPMagicCookie
    options :=
      { pbMessageType := [option_DHCPMESSAGETYPE, 1, 0]
        pbLeaseTime := [option_IPADDRESSLEASETIME, 4] ++ bytesOfDWORD (DWIPtoValue (1 * 60 * 60))
        pbSubnetMask := [option_SUBNETMASK, 4] ++ bytesOfDWORD cfg.dwMask
        pbServerID := [option_SERVERIDENTIFIER, 4] ++ bytesOfDWORD cfg.dwServerAddr
        bEND := option_END } }

/-- The address-search loop of the DISCOVER case.  The arguments after the fuel are
`dwOfferAddrValue`, `bOfferedInitialValue` and `bOfferAddrValueValid`; the result is
the final `dwOfferAddrValue` and `bOfferAddrValueValid`. -/
def DISCOVER_loop (pvAddressesInUse : List AddressInUseInformation)
    (dwMinAddrValue dwMaxAddrValue dwInitialOfferAddrValue : Nat) :
    Nat → Nat → Bool → Bool → Option (Nat × Bool)
  | 0, _, _, _ => none
  | fuel + 1, dwOfferAddrValue, bOfferedInitialValue, bOfferAddrValueValid =>
    if !(bOfferedInitialValue && (dwInitialOfferAddrValue == dwOfferAddrValue)) then
      let dwOfferAddrValue1 :=
        if dwMaxAddrValue < dwOfferAddrValue then dwMinAddrValue else dwOfferAddrValue
      let bValid :=
        (FindIndexOf pvAddressesInUse (AddressInUseInformationAddrValueFilter dwOfferAddrValue1)).isNone
      if !bValid then
        DISCOVER_loop pvAddressesInUse dwMinAddrValue dwMaxAddrValue dwInitialOfferAddrValue
          fuel ((dwOfferAddrValue1 + 1) % 2 ^ 32) true bValid
      else some (dwOfferAddrValue1, bValid)
    else some (dwOfferAddrValue, bOfferAddrValueValid)

/-- The body of `case DHCPMessageType_DISCOVER`.  `cid` is the client identifier of
the request, `bLocalAlloc` and `bPushBack` tell whether `LocalAlloc` and `PushBack`
succeed.  The result is the new state, the reply buffer and `bSendDHCPMessage`. -/
def caseDISCOVER (fuel : Nat) (cfg : ServerConfig) (st : ServerState)
    (bSeenClientBefore : Bool) (dwClientPreviousOfferAddr : Nat) (cid : List Nat)
    (pdhcpmReply : DHCPMessage) (bLocalAlloc bPushBack : Bool) :
    Option (ServerState × DHCPMessage × Bool) :=
  let dwServerLastOfferAddrValue :=
    st.dwServerLastOfferAddrValue.getD (DWIPtoValue cfg.dwMaxAddr)
  let dwMinAddrValue := DWIPtoValue cfg.dwMinAddr
  let dwMaxAddrValue := DWIPtoValue cfg.dwMaxAddr
  let dwInitialOfferAddrValue :=
    if bSeenClientBefore then DWIPtoValue dwClientPreviousOfferAddr
    else (dwServerLastOfferAddrValue + 1) % 2 ^ 32
  match DISCOVER_loop st.vAddressesInUse dwMinAddrValue dwMaxAddrValue dwInitialOfferAddrValue
      fuel dwInitialOfferAddrValue false bSeenClientBefore with
  | none => none
  | some (dwOfferAddrValue, bOfferAddrValueValid) =>
    if bOfferAddrValueValid then
      let dwOfferAddr := DWValuetoIP dwOfferAddrValue
      if bLocalAlloc then
        if bSeenClientBefore then
          some ({ st with dwServerLastOfferAddrValue := some dwOfferAddrValue },
            (DHCPMessage.setMessageType { pdhcpmReply with yiaddr := dwOfferAddr }
              DHCPMessageType_OFFER), true)
        else if bPushBack then
          some ({ vAddressesInUse := st.vAddressesInUse ++
                    [{ dwAddrValue := dwOfferAddrValue, pbClientIdentifier := cid }]
                  dwServerLastOfferAddrValue := some dwOfferAddrValue },
            (DHCPMessage.setMessageType { pdhcpmReply with yiaddr := dwOfferAddr }
              DHCPMessageType_OFFER), true)
        else some ({ st with dwServerLastOfferAddrValue := some dwOfferAddrValue },
            pdhcpmReply, false)
      else some ({ st with dwServerLastOfferAddrValue := some dwOfferAddrValue },
          pdhcpmReply, false)
    else some ({ st with dwServerLastOfferAddrValue := some dwServerLastOfferAddrValue },
        pdhcpmReply, false)

/-- The value of `dwRequestedIPAddress` after the lookup of the requested-address
option, given the result of that lookup. -/
def REQUEST_requestedIPAddress (pbOptions : List Nat) (found : Option (Nat × Nat)) : Nat :=
  match found with
  | some (pbRequestRequestedIPAddressData, iRequestRequestedIPAddressDataSize) =>
    if 4 == iRequestRequestedIPAddressDataSize then
      readDWORD pbOptions pbRequestRequestedIPAddressData
    else INADDR_BROADCAST
  | none => INADDR_BROADCAST

/-- The condition that selects the "response to OFFER" branch of the REQUEST case,
given the result of the lookup of the server-identifier option. -/
def REQUEST_isResponseToOffer (cfg : ServerConfig) (pbOptions : List Nat)
    (found : Option (Nat × Nat)) : Bool :=
  match found with
  | some (pbRequestServerIdentifierData, iRequestServerIdentifierDataSize) =>
    (4 == iRequestServerIdentifierDataSize)
      && (cfg.dwServerAddr == readDWORD pbOptions pbRequestServerIdentifierData)
  | none => false

/-- The `if`/`else` of the REQUEST case that chooses `pbMessageType[2]`. -/
def REQUEST_decide (bResponseToOffer : Bool) (dwRequestedIPAddress ciaddr : Nat)
    (bSeenClientBefore : Bool) (dwClientPreviousOfferAddr : Nat)
    (pdhcpmReply : DHCPMessage) : DHCPMessage :=
  if bResponseToOffer then
    if bSeenClientBefore then pdhcpmReply.setMessageType DHCPMessageType_ACK
    else pdhcpmReply.setMessageType DHCPMessageType_NAK
  else if (dwRequestedIPAddress != INADDR_BROADCAST)
      || ((dwRequestedIPAddress == INADDR_BROADCAST) && (ciaddr != 0)) then
    if bSeenClientBefore && ((dwClientPreviousOfferAddr == dwRequestedIPAddress)
        || (dwClientPreviousOfferAddr == ciaddr)) then
      pdhcpmReply.setMessageType DHCPMessageType_ACK
    else pdhcpmReply.setMessageType DHCPMessageType_NAK
  else pdhcpmReply

/-- The inner `switch (pbMessageType[2])` of the REQUEST case; the result is the
reply buffer and `bSendDHCPMessage`. -/
def REQUEST_finish (dwClientPreviousOfferAddr : Nat) (pdhcpmReply : DHCPMessage) :
    DHCPMessage × Bool :=
  if pdhcpmReply.messageType = DHCPMessageType_ACK then
    ({ pdhcpmReply with ciaddr := dwClientPreviousOfferAddr, yiaddr := dwClientPreviousOfferAddr },
      true)
  else if pdhcpmReply.messageType = DHCPMessageType_NAK then
    ({ pdhcpmReply with
        options := { pdhcpmReply.options with
          pbLeaseTime := List.replicate 6 0, pbSubnetMask := List.replicate 6 0 } }, true)
  else (pdhcpmReply, false)

/-- The part of the REQUEST case that follows the two option lookups. -/
def REQUEST_reply (cfg : ServerConfig) (pbOptions : List Nat)
    (foundRequestedIP foundServerID : Option (Nat × Nat)) (ciaddr : Nat)
    (bSeenClientBefore : Bool) (dwClientPreviousOfferAddr : Nat)
    (pdhcpmReply : DHCPMessage) : DHCPMessage × Bool :=
  REQUEST_finish dwClientPreviousOfferAddr
    (REQUEST_decide (REQUEST_isResponseToOffer cfg pbOptions foundServerID)
      (REQUEST_requestedIPAddress pbOptions foundRequestedIP) ciaddr
      bSeenClientBefore dwClientPreviousOfferAddr pdhcpmReply)

/-- The body of `case DHCPMessageType_REQUEST`; `ciaddr` is `pdhcpmRequest->ciaddr`.
The result is the reply buffer and `bSendDHCPMessage`. -/
def caseREQUEST (fuel : Nat) (cfg : ServerConfig) (pbOptions : List Nat) (iOptionsSize : Nat)
    (ciaddr : Nat) (bSeenClientBefore : Bool) (dwClientPreviousOfferAddr : Nat)
    (pdhcpmReply : DHCPMessage) : Option (DHCPMessage × Bool) :=
  match FindOptionData fuel option_REQUESTEDIPADDRESS pbOptions iOptionsSize with
  | none => none
  | some foundRequestedIP =>
    match FindOptionData fuel option_SERVERIDENTIFIER pbOptions iOptionsSize with
    | none => none
    | some foundServerID =>
      some (REQUEST_reply cfg pbOptions foundRequestedIP foundServerID ciaddr
        bSeenClientBefore dwClientPreviousOfferAddr pdhcpmReply)

/-- The block under `if (bSendDHCPMessage)`: the destination is chosen from the
fields of the request and the message type of the reply, and the reply is sent to
it on `DHCP_CLIENT_PORT`. -/
def sendReply (giaddr ciaddr yiaddr flags : Nat) (pdhcpmReply : DHCPMessage) : SentDatagram :=
  if 0 == giaddr then
    let ulAddr :=
      if pdhcpmReply.messageType = DHCPMessageType_OFFER
          ∨ pdhcpmReply.messageType = DHCPMessageType_ACK then
        if 0 == ciaddr then
          if 0 != (BROADCAST_FLAG &&& flags) then INADDR_BROADCAST
          else if 0 == yiaddr then INADDR_BROADCAST
          else yiaddr
        else ciaddr
      else if pdhcpmReply.messageType = DHCPMessageType_NAK then INADDR_BROADCAST
      else INADDR_LOOPBACK
    { msg := pdhcpmReply, s_addr := ulAddr, sin_port := DHCP_CLIENT_PORT }
  else
    { msg := { pdhcpmReply with flags := pdhcpmReply.flags ||| BROADCAST_FLAG }
      s_addr := giaddr, sin_port := DHCP_CLIENT_PORT }

/-- The client identifier of a request: the data of the client-identifier option
when the lookup found it, the 16 bytes of `chaddr` otherwise. -/
def clientIdentifier (pbData pbOptions : List Nat) (found : Option (Nat × Nat)) : List Nat :=
  match found with
  | some (pbRequestClientIdentifierData, iRequestClientIdentifierDataSize) =>
    readBytes pbOptions pbRequestClientIdentifierData iRequestClientIdentifierDataSize
  | none => readBytes pbData 28 16

/-- The flag `bSeenClientBefore`: whether `FindIndexOf` with the client-identifier
filter finds an entry. -/
def seenClientBefore (st : ServerState) (cid : List Nat) : Bool :=
  (FindIndexOf st.vAddressesInUse (AddressInUseInformationClientIdentifierFilter cid)).isSome

/-- The variable `dwClientPreviousOfferAddr`: the address of the entry found for the
client identifier, in network order, or `INADDR_BROADCAST` when there is none. -/
def clientPreviousOfferAddr (st : ServerState) (cid : List Nat) : Nat :=
  match FindIndexOf st.vAddressesInUse (AddressInUseInformationClientIdentifierFilter cid) with
  | some iIndex => DWValuetoIP ((st.vAddressesInUse.map (fun a => a.dwAddrValue)).getD iIndex 0)
  | none => INADDR_BROADCAST

/-- The `switch (dhcpmtMessageType)` and the send that follows it. -/
def dispatch (fuel : Nat) (cfg : ServerConfig) (st : ServerState) (pbData : List Nat)
    (iOptionsSize : Nat) (dhcpmtMessageType : Nat) (cid : List Nat)
    (bLocalAlloc bPushBack : Bool) : Option (ServerState × Option SentDatagram) :=
  let pbOptions := pbData.drop sizeofDHCPMessage
  let bSeenClientBefore := seenClientBefore st cid
  let dwClientPreviousOfferAddr := clientPreviousOfferAddr st cid
  let pdhcpmReply := initialReply cfg pbData
  let send (r : DHCPMessage) : SentDatagram :=
    sendReply (readDWORD pbData 24) (readDWORD pbData 12) (readDWORD pbData 16)
      (readWORD pbData 10) r
  if dhcpmtMessageType = DHCPMessageType_DISCOVER then
    match caseDISCOVER fuel cfg st bSeenClientBefore dwClientPreviousOfferAddr cid pdhcpmReply
        bLocalAlloc bPushBack with
    | none => none
    | some (st1, r, bSendDHCPMessage) =>
      some (st1, if bSendDHCPMessage then some (send r) else none)
  else if dhcpmtMessageType = DHCPMessageType_REQUEST then
    match caseREQUEST fuel cfg pbOptions iOptionsSize (readDWORD pbData 12) bSeenClientBefore
        dwClientPreviousOfferAddr pdhcpmReply with
    | none => none
    | some (r, bSendDHCPMessage) =>
      some (st, if bSendDHCPMessage then some (send r) else none)
  else some (st, none)

/-- The part of `ProcessDHCPClientRequest` that follows the lookup of the host-name
option, given the result `foundHostName` of that lookup: the two `return`s on an
empty client host name and on the server's own host name, then the lookup of the
client identifier and the `switch`. -/
def afterHostNameLookup (fuel : Nat) (cfg : ServerConfig) (st : ServerState)
    (pbData : List Nat) (iDataSize : Nat) (dhcpmtMessageType : Nat)
    (foundHostName : Option (Nat × Nat)) (bLocalAlloc bPushBack : Bool) :
    Option (ServerState × Option SentDatagram) :=
  let pbOptions := pbData.drop sizeofDHCPMessage
  let iOptionsSize := iDataSize - sizeofDHCPMessage
  let pcsClientHostName :=
    match foundHostName with
    | some (pbRequestHostNameData, iRequestHostNameDataSize) =>
      readBytes pbOptions pbRequestHostNameData iRequestHostNameDataSize
    | none => []
  if pcsClientHostName.isEmpty then some (st, none)
  else if pcsClientHostName = cfg.pcsServerHostName then some (st, none)
  else
    match FindOptionData fuel option_CLIENTIDENTIFIER pbOptions iOptionsSize with
    | none => none
    | some foundClientIdentifier =>
      dispatch fuel cfg st pbData iOptionsSize dhcpmtMessageType
        (clientIdentifier pbData pbOptions foundClientIdentifier) bLocalAlloc bPushBack

/-- The function `ProcessDHCPClientRequest`.  The result is the new state and the
datagram passed to `sendto`, if any; `none` means it did not return within the
fuel. -/
def ProcessDHCPClientRequest (fuel : Nat) (cfg : ServerConfig) (st : ServerState)
    (pbData : List Nat) (iDataSize : Nat) (bLocalAlloc bPushBack : Bool) :
    Option (ServerState × Option SentDatagram) :=
  if passesInitialChecks pbData iDataSize then
    let pbOptions := pbData.drop sizeofDHCPMessage
    let iOptionsSize := iDataSize - sizeofDHCPMessage
    match GetDHCPMessageType fuel pbOptions iOptionsSize with
    | none => none
    | some none => some (st, none)
    | some (some dhcpmtMessageType) =>
      match FindOptionData fuel option_HOSTNAME pbOptions iOptionsSize with
      | none => none
      | some foundHostName =>
        afterHostNameLookup fuel cfg st pbData iDataSize dhcpmtMessageType foundHostName
          bLocalAlloc bPushBack
  else some (st, none)

/-- A datagram handed over by `recvfrom`: the receive buffer and the number of
bytes received, together with the outcome of the allocations made while it is
handled. -/
structure Received where
  pbData : List Nat
  iDataSize : Nat
  bLocalAlloc : Bool
  bPushBack : Bool
deriving DecidableEq, Repr

/-- The loop of `ReadDHCPClientRequests` over the datagrams received in turn; the
result is the final state and the datagrams sent, in order. -/
def ReadDHCPClientRequests (fuel : Nat) (cfg : ServerConfig) :
    ServerState → List Received → Option (ServerState × List SentDatagram)
  | st, [] => some (st, [])
  | st, r :: rest =>
    match ProcessDHCPClientRequest fuel cfg st r.pbData r.iDataSize r.bLocalAlloc r.bPushBack with
    | none => none
    | some (st1, sent) =>
      match ReadDHCPClientRequests fuel cfg st1 rest with
      | none => none
      | some (st2, sents) => some (st2, sent.toList ++ sents)

/-! ## Properties of the table -/

/-- No two entries of the table hold the same address value. -/
def addressesDistinct (v : List AddressInUseInformation) : Prop :=
  v.Pairwise (fun a b => a.dwAddrValue ≠ b.dwAddrValue)

instance (v : List AddressInUseInformation) : Decidable (addressesDistinct v) :=
  (inferInstance : Decidable (List.Pairwise
    (fun a b : AddressInUseInformation => a.dwAddrValue ≠ b.dwAddrValue) v))

/-- No two entries of the table hold the same non-empty client identifier. -/
def clientIdentifiersDistinct (v : List AddressInUseInformation) : Prop :=
  v.Pairwise (fun a b =>
    ¬ (a.pbClientIdentifier ≠ [] ∧ a.pbClientIdentifier = b.pbClientIdentifier))

instance (v : List AddressInUseInformation) : Decidable (clientIdentifiersDistinct v) :=
  (inferInstance : Decidable (List.Pairwise (fun a b : AddressInUseInformation =>
    ¬ (a.pbClientIdentifier ≠ [] ∧ a.pbClientIdentifier = b.pbClientIdentifier)) v))

/-- What the REQUEST case makes of the request `pbData` of the client `cid` in the
state `st` once its two option lookups have returned `foundRequestedIP` and
`foundServerID`; the arguments of `REQUEST_reply` are those `dispatch` hands to
`caseREQUEST`. -/
def REQUEST_outcome (cfg : ServerConfig) (st : ServerState) (cid : List Nat) (pbData : List Nat)
    (foundRequestedIP foundServerID : Option (Nat × Nat)) : DHCPMessage × Bool :=
  REQUEST_reply cfg (pbData.drop sizeofDHCPMessage) foundRequestedIP foundServerID
    (readDWORD pbData 12) (seenClientBefore st cid) (clientPreviousOfferAddr st cid)
    (initialReply cfg pbData)

/-- The outcome of the REQUEST case is an ACK for the address `addr`: the reply is
sent, its message type is ACK and its `yiaddr` and `ciaddr` are `addr`. -/
def isACK (out : DHCPMessage × Bool) (addr : Nat) : Prop :=
  out.2 = true ∧ out.1.messageType = DHCPMessageType_ACK ∧ out.1.yiaddr = addr
    ∧ out.1.ciaddr = addr

instance (out : DHCPMessage × Bool) (addr : Nat) : Decidable (isACK out addr) :=
  (inferInstance : Decidable (out.2 = true ∧ out.1.messageType = DHCPMessageType_ACK
    ∧ out.1.yiaddr = addr ∧ out.1.ciaddr = addr))

/-- The outcome of the REQUEST case is a NAK: the reply is sent and its message
type is NAK. -/
def isNAK (out : DHCPMessage × Bool) : Prop :=
  out.2 = true ∧ out.1.messageType = DHCPMessageType_NAK

instance (out : DHCPMessage × Bool) : Decidable (isNAK out) :=
  (inferInstance : Decidable (out.2 = true ∧ out.1.messageType = DHCPMessageType_NAK))

/-! ## The replies that are sent -/

/-- The reply buffer at the send of an OFFER of the address `dwOfferAddr`. -/
def replyOFFER (cfg : ServerConfig) (pbData : List Nat) (dwOfferAddr : Nat) : DHCPMessage :=
  DHCPMessage.setMessageType { initialReply cfg pbData with yiaddr := dwOfferAddr }
    DHCPMessageType_OFFER

/-- The reply buffer at the send of an ACK for the address `dwClientPreviousOfferAddr`. -/
def replyACK (cfg : ServerConfig) (pbData : List Nat) (dwClientPreviousOfferAddr : Nat) :
    DHCPMessage :=
  { (initialReply cfg pbData).setMessageType DHCPMessageType_ACK with
    ciaddr := dwClientPreviousOfferAddr, yiaddr := dwClientPreviousOfferAddr }

/-- The reply buffer at the send of a NAK. -/
def replyNAK (cfg : ServerConfig) (pbData : List Nat) : DHCPMessage :=
  { (initialReply cfg pbData).setMessageType DHCPMessageType_NAK with
    options := { ((initialReply cfg pbData).setMessageType DHCPMessageType_NAK).options with
      pbLeaseTime := List.replicate 6 0, pbSubnetMask := List.replicate 6 0 } }

/-- The call of `sendReply` that `dispatch` makes for the request `pbData`. -/
def sendReplyTo (pbData : List Nat) (pdhcpmReply : DHCPMessage) : SentDatagram :=
  sendReply (readDWORD pbData 24) (readDWORD pbData 12) (readDWORD pbData 16)
    (readWORD pbData 10) pdhcpmReply

/-- What the `switch` of `ProcessDHCPClientRequest` is entered with for one datagram:
the request and the size of its options, its message type and client identifier,
and the outcome of the allocations made while it is handled. -/
structure Dispatched where
  pbData : List Nat
  iOptionsSize : Nat
  dhcpmtMessageType : Nat
  cid : List Nat
  bLocalAlloc : Bool
  bPushBack : Bool
deriving DecidableEq, Repr

/-- The `switch` and send run for a sequence of datagrams in turn, each on the state
the previous one left; the result is the final state and, for each datagram, what
was sent for it. -/
def dispatchAll (fuel : Nat) (cfg : ServerConfig) :
    ServerState → List Dispatched → Option (ServerState × List (Dispatched × Option SentDatagram))
  | st, [] => some (st, [])
  | st, e :: rest =>
    match dispatch fuel cfg st e.pbData e.iOptionsSize e.dhcpmtMessageType e.cid
        e.bLocalAlloc e.bPushBack with
    | none => none
    | some (st1, sent) =>
      match dispatchAll fuel cfg st1 rest with
      | none => none
      | some (st2, log) => some (st2, (e, sent) :: log)

/-- Among the datagrams of `log` there is a DISCOVER of the client `cid` that was
answered with an OFFER. -/
def offeredIn (cid : List Nat) (log : List (Dispatched × Option SentDatagram)) : Prop :=
  ∃ p ∈ log, p.1.dhcpmtMessageType = DHCPMessageType_DISCOVER ∧ p.1.cid = cid
    ∧ ∃ d : SentDatagram, p.2 = some d ∧ d.msg.messageType = DHCPMessageType_OFFER

/-! ## The address range -/

/-- The operator `~` on a `DWORD`. -/
def DWORD_not (dw : Nat) : Nat := 2 ^ 32 - 1 - dw % 2 ^ 32

/-- The value `dwMinAddrValue` of `GetIPAddressInformation`. -/
def GetIPAddressInformation_dwMinAddrValue (dwAddrValue dwMaskValue : Nat) : Nat :=
  (dwAddrValue &&& dwMaskValue) ||| 2

/-- The value `dwMaxAddrValue` of `GetIPAddressInformation`. -/
def GetIPAddressInformation_dwMaxAddrValue (dwAddrValue dwMaskValue : Nat) : Nat :=
  (dwAddrValue &&& dwMaskValue) ||| DWORD_not (dwMaskValue ||| 1)

/-- The part of `GetIPAddressInformation` that follows the choice of the entry of
the address table: `dwAddr` and `dwMask` are the address and mask of that entry, in
network order.  The result is `*pdwAddr`, `*pdwMask`, `*pdwMinAddr` and
`*pdwMaxAddr` when the function succeeds, `none` when it reports an error. -/
def GetIPAddressInformation (dwAddr dwMask : Nat) : Option (Nat × Nat × Nat × Nat) :=
  if 0 ≠ dwAddr then
    let dwAddrValue := DWIPtoValue dwAddr
    let dwMaskValue := DWIPtoValue dwMask
    let dwMinAddrValue := GetIPAddressInformation_dwMinAddrValue dwAddrValue dwMaskValue
    let dwMaxAddrValue := GetIPAddressInformation_dwMaxAddrValue dwAddrValue dwMaskValue
    let dwMinAddr := DWValuetoIP dwMinAddrValue
    let dwMaxAddr := DWValuetoIP dwMaxAddrValue
    if dwMinAddrValue ≤ dwMaxAddrValue then some (dwAddr, dwMask, dwMinAddr, dwMaxAddr)
    else none
  else none

/-! ## Concrete inputs -/

/-- A request frame as the code receives it: `op = 1`, `htype = 1`, `hlen = 6`,
`xid = 0xABCDEF01` on the wire, the given `ciaddr` and `chaddr` bytes, all other
header bytes zero, then the four cookie bytes and the options. -/
def exampleFrame (ciaddr chaddr cookie options : List Nat) : List Nat :=
  [1, 1, 6, 0] ++ [0xAB, 0xCD, 0xEF, 0x01] ++ [0, 0, 0, 0] ++ ciaddr ++ List.replicate 12 0
    ++ chaddr ++ List.replicate 192 0 ++ cookie ++ options

/-- The hardware address AA:BB:CC:DD:EE:FF padded to the 16 bytes of `chaddr`. -/
def exampleChaddr : List Nat :=
  [0xAA, 0xBB, 0xCC, 0xDD, 0xEE, 0xFF, 0, 0, 0, 0, 0, 0, 0, 0, 0, 0]

/-- The server 192.168.1.3 on the subnet 255.255.255.248, with the range
192.168.1.2 .. 192.168.1.6 that `GetIPAddressInformation` derives for it, and the
host name "srv". -/
def exampleConfig : ServerConfig :=
  { dwServerAddr := readDWORD [192, 168, 1, 3] 0
    dwMask := readDWORD [255, 255, 255, 248] 0
    dwMinAddr := readDWORD [192, 168, 1, 2] 0
    dwMaxAddr := readDWORD [192, 168, 1, 6] 0
    pcsServerHostName := [115, 114, 118] }

/-- A DISCOVER from the client AA:BB:CC:DD:EE:FF with host name "a" and no
client-identifier option, with the given cookie bytes (247 bytes). -/
def exampleDISCOVER (cookie : List Nat) : List Nat :=
  exampleFrame [0, 0, 0, 0] exampleChaddr cookie [53, 1, 1, 12, 1, 97, 255]

/-- The state of `exampleConfig` in which the client AA:BB:CC:DD:EE:FF is bound to
192.168.1.2, the address last offered. -/
def exampleBoundState : ServerState :=
  { vAddressesInUse :=
      [{ dwAddrValue := DWIPtoValue (readDWORD [192, 168, 1, 3] 0), pbClientIdentifier := [] },
       { dwAddrValue := DWIPtoValue (readDWORD [192, 168, 1, 2] 0),
         pbClientIdentifier := exampleChaddr }]
    dwServerLastOfferAddrValue := some (DWIPtoValue (readDWORD [192, 168, 1, 2] 0)) }

/-- A REQUEST from the client AA:BB:CC:DD:EE:FF with host name "a" that names the
server 192.168.1.3 in its server-identifier option, with the given cookie bytes
(253 bytes). -/
def exampleREQUEST (cookie : List Nat) : List Nat :=
  exampleFrame [0, 0, 0, 0] exampleChaddr cookie
    [53, 1, 3, 12, 1, 97, 54, 4, 192, 168, 1, 3, 255]

/-- The OFFER of 192.168.1.2 in reply to `exampleDISCOVER`. -/
def exampleOFFER : DHCPMessage :=
  DHCPMessage.setMessageType
    { initialReply exampleConfig (exampleDISCOVER [99, 130, 83, 99]) with
      yiaddr := readDWORD [192, 168, 1, 2] 0 }
    DHCPMessageType_OFFER

/-- A request frame like `exampleFrame` with the given `flags`, `ciaddr`, `yiaddr`
and `giaddr` bytes as well. -/
def exampleFrameFull (flags ciaddr yiaddr giaddr chaddr cookie options : List Nat) : List Nat :=
  [1, 1, 6, 0] ++ [0xAB, 0xCD, 0xEF, 0x01] ++ [0, 0] ++ flags ++ ciaddr ++ yiaddr ++ [0, 0, 0, 0]
    ++ giaddr ++ chaddr ++ List.replicate 192 0 ++ cookie ++ options

/-- A DISCOVER from the client AA:BB:CC:DD:EE:FF with host name "a" that arrived
through the relay 10.0.0.1 (`giaddr`), broadcast flag clear (247 bytes). -/
def exampleRelayDISCOVER : List Nat :=
  exampleFrameFull [0, 0] [0, 0, 0, 0] [0, 0, 0, 0] [10, 0, 0, 1] exampleChaddr
    [99, 130, 83, 99] [53, 1, 1, 12, 1, 97, 255]

/-- A DISCOVER from the client AA:BB:CC:DD:EE:FF with host name "a", with `giaddr`
zero and `ciaddr` 192.168.1.5 (247 bytes). -/
def exampleCiaddrDISCOVER : List Nat :=
  exampleFrameFull [0, 0] [192, 168, 1, 5] [0, 0, 0, 0] [0, 0, 0, 0] exampleChaddr
    [99, 130, 83, 99] [53, 1, 1, 12, 1, 97, 255]

/-- A REQUEST from the client AA:BB:CC:DD:EE:FF with host name "a", without
requested-address and server-identifier options, with `ciaddr` 192.168.1.2 and the
given cookie bytes (247 bytes). -/
def exampleRenewREQUEST (cookie : List Nat) : List Nat :=
  exampleFrame [192, 168, 1, 2] exampleChaddr cookie [53, 1, 3, 12, 1, 97, 255]

/-- A REQUEST from the client AA:BB:CC:DD:EE:FF whose options area holds END only,
with `ciaddr` 192.168.1.2 (241 bytes). -/
def exampleBareREQUEST : List Nat :=
  exampleFrame [192, 168, 1, 2] exampleChaddr [99, 130, 83, 99] [255]

/-- The `switch` entered for `exampleDISCOVER` as a DISCOVER of the client
AA:BB:CC:DD:EE:FF. -/
def exampleDispatchedDISCOVER : Dispatched :=
  { pbData := exampleDISCOVER [99, 130, 83, 99], iOptionsSize := 7,
    dhcpmtMessageType := DHCPMessageType_DISCOVER, cid := exampleChaddr,
    bLocalAlloc := true, bPushBack := true }

/-- The `switch` entered for `exampleBareREQUEST` as a REQUEST of the client
AA:BB:CC:DD:EE:FF. -/
def exampleDispatchedREQUEST : Dispatched :=
  { pbData := exampleBareREQUEST, iOptionsSize := 1,
    dhcpmtMessageType := DHCPMessageType_REQUEST, cid := exampleChaddr,
    bLocalAlloc := true, bPushBack := true }

/-- What is sent for `exampleDispatchedDISCOVER` and then `exampleDispatchedREQUEST`
from the initial state of `exampleConfig`: an OFFER and an ACK of 192.168.1.2. -/
def exampleLog : List (Dispatched × Option SentDatagram) :=
  [(exampleDispatchedDISCOVER,
      some (sendReplyTo (exampleDISCOVER [99, 130, 83, 99]) exampleOFFER)),
   (exampleDispatchedREQUEST,
      some (sendReplyTo exampleBareREQUEST
        (replyACK exampleConfig exampleBareREQUEST (readDWORD [192, 168, 1, 2] 0))))]

/-- A state of `exampleConfig` with the cursor at 192.168.1.3, in which 192.168.1.4
is bound to another client (11:22:33:44:55:66) and the client AA:BB:CC:DD:EE:FF is
not in the table. -/
def exampleScanState : ServerState :=
  { vAddressesInUse :=
      [{ dwAddrValue := DWIPtoValue (readDWORD [192, 168, 1, 3] 0), pbClientIdentifier := [] },
       { dwAddrValue := DWIPtoValue (readDWORD [192, 168, 1, 4] 0),
         pbClientIdentifier := [0x11, 0x22, 0x33, 0x44, 0x55, 0x66, 0, 0, 0, 0, 0, 0, 0, 0, 0, 0] }]
    dwServerLastOfferAddrValue := some (DWIPtoValue (readDWORD [192, 168, 1, 3] 0)) }

/-- A REQUEST from the client AA:BB:CC:DD:EE:FF whose host-name option (data at
offset 5, length 3) carries "srv", the host name of `exampleConfig` (249 bytes). -/
def exampleOwnNameREQUEST : List Nat :=
  exampleFrame [0, 0, 0, 0] exampleChaddr [99, 130, 83, 98]
    [53, 1, 3, 12, 3, 115, 114, 118, 255]

/-- The hardware address 11:22:33:44:55:66 padded to the 16 bytes of `chaddr`. -/
def exampleChaddr2 : List Nat :=
  [0x11, 0x22, 0x33, 0x44, 0x55, 0x66, 0, 0, 0, 0, 0, 0, 0, 0, 0, 0]

/-- A DISCOVER from the client 11:22:33:44:55:66 with host name "b" and no
client-identifier option (247 bytes). -/
def exampleDISCOVER2 : List Nat :=
  exampleFrame [0, 0, 0, 0] exampleChaddr2 [99, 130, 83, 99] [53, 1, 1, 12, 1, 98, 255]

/-- The `switch` entered for `exampleDISCOVER2` as a DISCOVER of the client
11:22:33:44:55:66. -/
def exampleDispatchedDISCOVER2 : Dispatched :=
  { pbData := exampleDISCOVER2, iOptionsSize := 7,
    dhcpmtMessageType := DHCPMessageType_DISCOVER, cid := exampleChaddr2,
    bLocalAlloc := true, bPushBack := true }

/-- The state of `exampleConfig` after the DISCOVERs of the clients
AA:BB:CC:DD:EE:FF and 11:22:33:44:55:66 have gone through the `switch` in turn: the
first is bound to 192.168.1.2, the second to 192.168.1.4, the address after the
server's. -/
def exampleTwoClientsState : ServerState :=
  { vAddressesInUse :=
      [{ dwAddrValue := DWIPtoValue (readDWORD [192, 168, 1, 3] 0), pbClientIdentifier := [] },
       { dwAddrValue := DWIPtoValue (readDWORD [192, 168, 1, 2] 0),
         pbClientIdentifier := exampleChaddr },
       { dwAddrValue := DWIPtoValue (readDWORD [192, 168, 1, 4] 0),
         pbClientIdentifier := exampleChaddr2 }]
    dwServerLastOfferAddrValue := some (DWIPtoValue (readDWORD [192, 168, 1, 4] 0)) }

/-- What is sent for `exampleDispatchedDISCOVER` and then
`exampleDispatchedDISCOVER2` from the initial state of `exampleConfig`: the OFFERs
of 192.168.1.2 and of 192.168.1.4. -/
def exampleTwoClientsLog : List (Dispatched × Option SentDatagram) :=
  [(exampleDispatchedDISCOVER,
      some (sendReplyTo (exampleDISCOVER [99, 130, 83, 99]) exampleOFFER)),
   (exampleDispatchedDISCOVER2,
      some (sendReplyTo exampleDISCOVER2
        (replyOFFER exampleConfig exampleDISCOVER2 (readDWORD [192, 168, 1, 4] 0))))]

/-- The state of `exampleConfig` after a second DISCOVER of the client
AA:BB:CC:DD:EE:FF has gone through the `switch` in `exampleTwoClientsState`: the
table is the same, the cursor is at 192.168.1.5. -/
def exampleRepeatedState : ServerState :=
  { exampleTwoClientsState with
    dwServerLastOfferAddrValue := some (DWIPtoValue (readDWORD [192, 168, 1, 5] 0)) }

/-- What is sent for `exampleDispatchedDISCOVER`, `exampleDispatchedDISCOVER2` and
then `exampleDispatchedDISCOVER` again from the initial state of `exampleConfig`:
the OFFERs of 192.168.1.2, of 192.168.1.4 and of 192.168.1.5. -/
def exampleRepeatedLog : List (Dispatched × Option SentDatagram) :=
  exampleTwoClientsLog ++
    [(exampleDispatchedDISCOVER,
      some (sendReplyTo (exampleDISCOVER [99, 130, 83, 99])
        (replyOFFER exampleConfig (exampleDISCOVER [99, 130, 83, 99])
          (readDWORD [192, 168, 1, 5] 0))))]

/-- A REQUEST from the client AA:BB:CC:DD:EE:FF with host name "a" that requests
192.168.1.`d` in a 4-byte requested-address option and names the server 192.168.1.3
in a 4-byte server-identifier option, with `ciaddr` 0 and the given cookie bytes
(259 bytes). -/
def exampleRequestingREQUEST (cookie : List Nat) (d : Nat) : List Nat :=
  exampleFrame [0, 0, 0, 0] exampleChaddr cookie
    [53, 1, 3, 12, 1, 97, 50, 4, 192, 168, 1, d, 54, 4, 192, 168, 1, 3, 255]

/-- A REQUEST from the client AA:BB:CC:DD:EE:FF with host name "a" that requests
192.168.1.`d` in a 4-byte requested-address option and has no server identifier,
with `ciaddr` 0 and the given cookie bytes (253 bytes). -/
def exampleInitRebootREQUEST (cookie : List Nat) (d : Nat) : List Nat :=
  exampleFrame [0, 0, 0, 0] exampleChaddr cookie
    [53, 1, 3, 12, 1, 97, 50, 4, 192, 168, 1, d, 255]

end DHCPLite

namespace DHCPLite

/-! ## Facts about the option lookup -/

/-- When the loop body leaves the position where it is, inside the options area,
the loop started there is still running after any number of iterations. -/
theorem FindOptionData_loop_stuck (bOption : Nat) (pbOptions : List Nat) (iOptionsSize p : Nat)
    (hp : p < iOptionsSize)
    (hb : FindOptionData_body bOption pbOptions iOptionsSize p = OptionStep.next p) :
    ∀ fuel : Nat, FindOptionData_loop bOption pbOptions iOptionsSize fuel p = none := by
  intro fuel
  induction fuel with
  | zero => rfl
  | succ n ih => rw [FindOptionData_loop, if_pos hp, hb]; exact ih

/-- When the lookup of one tag returns a hit, the lookup of any other tag in the
same options area does not return. -/
theorem FindOptionData_loop_other_tag (b1 b2 : Nat) (pbOptions : List Nat) (iOptionsSize : Nat)
    (hne : b2 ≠ b1) :
    ∀ (fuel p : Nat) (r : Nat × Nat),
      FindOptionData_loop b1 pbOptions iOptionsSize fuel p = some (some r) →
      ∀ fuel2 : Nat, FindOptionData_loop b2 pbOptions iOptionsSize fuel2 p = none := by
  intro fuel
  induction fuel with
  | zero => intro p r h; simp [FindOptionData_loop] at h
  | succ n ih =>
    intro p r h fuel2
    rw [FindOptionData_loop] at h
    by_cases hp : p < iOptionsSize
    · rw [if_pos hp] at h
      by_cases h0 : readBYTE pbOptions p = option_PAD
      · have e1 : FindOptionData_body b1 pbOptions iOptionsSize p = OptionStep.next (p + 1) := by
          simp only [FindOptionData_body, if_pos h0]
        have e2 : FindOptionData_body b2 pbOptions iOptionsSize p = OptionStep.next (p + 1) := by
          simp only [FindOptionData_body, if_pos h0]
        simp only [e1] at h
        cases fuel2 with
        | zero => rfl
        | succ m =>
          rw [FindOptionData_loop, if_pos hp, e2]
          exact ih (p + 1) r h m
      · by_cases h255 : readBYTE pbOptions p = option_END
        · have e1 : FindOptionData_body b1 pbOptions iOptionsSize p = OptionStep.done none := by
            simp only [FindOptionData_body, if_neg h0, if_pos h255]
          simp [e1] at h
        · have hge : ¬ p ≥ iOptionsSize := Nat.not_le.mpr hp
          by_cases hb : b1 = readBYTE pbOptions p
          · have e2 : FindOptionData_body b2 pbOptions iOptionsSize p = OptionStep.next p := by
              have h2 : ¬ b2 = readBYTE pbOptions p := fun h2 => hne (h2.trans hb.symm)
              simp only [FindOptionData_body, if_neg h0, if_neg h255, if_neg hge, if_neg h2]
            exact FindOptionData_loop_stuck b2 pbOptions iOptionsSize p hp e2 fuel2
          · have e1 : FindOptionData_body b1 pbOptions iOptionsSize p = OptionStep.next p := by
              simp only [FindOptionData_body, if_neg h0, if_neg h255, if_neg hge, if_neg hb]
            simp only [e1] at h
            rw [FindOptionData_loop_stuck b1 pbOptions iOptionsSize p hp e1 n] at h
            simp at h
    · rw [if_neg hp] at h
      simp at h

/-- The message type of an options area that starts with a one-byte message-type
option of value `b`. -/
theorem GetDHCPMessageType_head (fuel b : Nat) (rest : List Nat) (iOptionsSize : Nat) :
    GetDHCPMessageType (fuel + 1) (53 :: 1 :: b :: rest) (iOptionsSize + 1)
      = if 2 ≤ b % 256 ∧ b % 256 ≤ 8 then some (some (b % 256)) else some none := by
  simp only [GetDHCPMessageType, FindOptionData, FindOptionData_loop, FindOptionData_body,
    readBYTE, option_DHCPMESSAGETYPE, option_PAD, option_END, sizeofDHCPOptionsData]
  simp
  split_ifs <;> first | rfl | omega

/-- Whenever `GetDHCPMessageType` returns a message type, the lookup of any option
other than the message type in the same options area does not return. -/
theorem FindOptionData_after_message_type (fuel : Nat) (pbOptions : List Nat)
    (iOptionsSize t bOption : Nat) (hne : bOption ≠ option_DHCPMESSAGETYPE)
    (h : GetDHCPMessageType fuel pbOptions iOptionsSize = some (some t)) :
    ∀ fuel2 : Nat, FindOptionData fuel2 bOption pbOptions iOptionsSize = none := by
  unfold GetDHCPMessageType at h
  cases hf : FindOptionData fuel option_DHCPMESSAGETYPE pbOptions iOptionsSize with
  | none => rw [hf] at h; simp at h
  | some r =>
    cases r with
    | none => rw [hf] at h; simp at h
    | some r =>
      intro fuel2
      exact FindOptionData_loop_other_tag option_DHCPMESSAGETYPE bOption pbOptions iOptionsSize hne
        fuel 0 r hf fuel2

/-- A call of `ProcessDHCPClientRequest` either does not return or returns without
having sent a reply and without having changed the state. -/
theorem ProcessDHCPClientRequest_outcome (fuel : Nat) (cfg : ServerConfig) (st : ServerState)
    (pbData : List Nat) (iDataSize : Nat) (bLocalAlloc bPushBack : Bool) :
    ProcessDHCPClientRequest fuel cfg st pbData iDataSize bLocalAlloc bPushBack = none
      ∨ ProcessDHCPClientRequest fuel cfg st pbData iDataSize bLocalAlloc bPushBack
          = some (st, none) := by
  unfold ProcessDHCPClientRequest
  by_cases hc : passesInitialChecks pbData iDataSize = true
  · rw [if_pos hc]
    cases hg : GetDHCPMessageType fuel (List.drop sizeofDHCPMessage pbData)
        (iDataSize - sizeofDHCPMessage) with
    | none => left; simp only [hg]
    | some r =>
      cases r with
      | none => right; simp only [hg]
      | some t =>
        left
        have := FindOptionData_after_message_type fuel _ _ t option_HOSTNAME (by decide) hg fuel
        simp only [hg, this]
  · rw [if_neg hc]; right; rfl

/-- A run of `ReadDHCPClientRequests` either does not return or returns without
having sent anything and without having changed the state. -/
theorem ReadDHCPClientRequests_outcome (fuel : Nat) (cfg : ServerConfig) (st : ServerState) :
    ∀ rs : List Received,
      ReadDHCPClientRequests fuel cfg st rs = none
        ∨ ReadDHCPClientRequests fuel cfg st rs = some (st, []) := by
  intro rs
  induction rs with
  | nil => right; rfl
  | cons r rest ih =>
    rw [ReadDHCPClientRequests]
    rcases ProcessDHCPClientRequest_outcome fuel cfg st r.pbData r.iDataSize r.bLocalAlloc
      r.bPushBack with h | h
    · left; simp only [h]
    · rcases ih with h2 | h2
      · left; simp only [h, h2]
      · right; simp only [h, h2]; rfl

/-! ## Initial checks and option lookup -/

/-- Claim C1.  The initial checks of `ProcessDHCPClientRequest` reject a 247-byte
request with `op = 1` that carries the magic cookie 99,130,83,99 and accept the
same request once a cookie byte is changed; in general they pass exactly when the
size is at least 240, `op` is 1 and the four cookie bytes DIFFER from the magic
cookie. -/
theorem C1_correct_cookie_is_rejected :
    passesInitialChecks
        (exampleFrame [0, 0, 0, 0] exampleChaddr [99, 130, 83, 99] [53, 1, 3, 12, 1, 97, 255]) 247
      = false
    ∧ passesInitialChecks
        (exampleFrame [0, 0, 0, 0] exampleChaddr [99, 130, 83, 98] [53, 1, 3, 12, 1, 97, 255]) 247
      = true
    ∧ ∀ (pbData : List Nat) (iDataSize : Nat),
        passesInitialChecks pbData iDataSize = true ↔
          (240 ≤ iDataSize ∧ readBYTE pbData 0 = 1 ∧ readBytes pbData 236 4 ≠ [99, 130, 83, 99]) := by
  refine ⟨by decide, by decide, ?_⟩
  intro pbData iDataSize
  unfold passesInitialChecks sizeofDHCPMessage op_BOOTREQUEST pbDHCPMagicCookie
  constructor
  · intro h
    split_ifs at h with h1 h2 h3
    exact ⟨by omega, by simpa using h2, fun h4 => h3 h4.symm⟩
  · rintro ⟨h1, h2, h3⟩
    rw [if_neg (by omega), if_neg (by simpa using h2), if_neg (fun h4 => h3 h4.symm)]

/-- Claim C2.  `GetDHCPMessageType` returns `false` on the options 53,1,1,255 (a
DISCOVER), and on an options area that starts with a one-byte message-type option
of value `b` it returns `true` exactly when `b` is in 2..8. -/
theorem C2_discover_type_is_rejected :
    GetDHCPMessageType 1 [53, 1, 1, 255] 4 = some none
    ∧ ∀ (fuel b : Nat) (rest : List Nat) (iOptionsSize : Nat),
        GetDHCPMessageType (fuel + 1) (53 :: 1 :: b :: rest) (iOptionsSize + 1)
          = if 2 ≤ b % 256 ∧ b % 256 ≤ 8 then some (some (b % 256)) else some none :=
  ⟨by decide, GetDHCPMessageType_head⟩

/-- Claim C3.  On the well-formed options HOSTNAME "a", MSG_TYPE 3, END the lookup
of tag 53 never returns: the loop body leaves the position at the HOSTNAME option
unchanged, and the lookup is still running after any number of iterations. -/
theorem C3_other_tag_is_not_skipped :
    FindOptionData_body 53 [12, 1, 97, 53, 1, 3, 255] 7 0 = OptionStep.next 0
    ∧ ∀ fuel : Nat, FindOptionData fuel 53 [12, 1, 97, 53, 1, 3, 255] 7 = none := by
  refine ⟨by decide, ?_⟩
  intro fuel
  unfold FindOptionData
  induction fuel with
  | zero => rfl
  | succ n ih =>
    rw [FindOptionData_loop]
    rw [if_pos (by decide)]
    rw [show FindOptionData_body 53 [12, 1, 97, 53, 1, 3, 255] 7 0 = OptionStep.next 0 by decide]
    exact ih

/-! ## DISCOVER -/

/-- The example DISCOVER with the magic cookie fails the initial checks. -/
theorem exampleDISCOVER_magic (fuel : Nat) (cfg : ServerConfig) (st : ServerState)
    (bLocalAlloc bPushBack : Bool) :
    ProcessDHCPClientRequest fuel cfg st (exampleDISCOVER [99, 130, 83, 99]) 247
      bLocalAlloc bPushBack = some (st, none) := by
  have hc : passesInitialChecks (exampleDISCOVER [99, 130, 83, 99]) 247 = false := by decide
  simp [ProcessDHCPClientRequest, hc]

/-- The example DISCOVER with another cookie passes the initial checks and is then
refused by `GetDHCPMessageType`. -/
theorem exampleDISCOVER_other (fuel : Nat) (cfg : ServerConfig) (st : ServerState)
    (bLocalAlloc bPushBack : Bool) :
    ProcessDHCPClientRequest (fuel + 1) cfg st (exampleDISCOVER [99, 130, 83, 98]) 247
      bLocalAlloc bPushBack = some (st, none) := by
  have hc : passesInitialChecks (exampleDISCOVER [99, 130, 83, 98]) 247 = true := by decide
  have hd : List.drop sizeofDHCPMessage (exampleDISCOVER [99, 130, 83, 98])
      = 53 :: 1 :: 1 :: [12, 1, 97, 255] := by decide
  have hn : 247 - sizeofDHCPMessage = 6 + 1 := by decide
  unfold ProcessDHCPClientRequest
  rw [if_pos hc]
  simp only [hd, hn, GetDHCPMessageType_head]
  rfl

/-- Claim C4.  With the client AA:BB:CC:DD:EE:FF bound to 192.168.1.2, a DISCOVER
from that client gets no reply from `ProcessDHCPClientRequest` (whether or not it
carries the magic cookie), and the DISCOVER case itself, entered for that bound
client, offers 192.168.1.4 instead of the bound 192.168.1.2; run twice from the
initial state for one client, the DISCOVER case offers 192.168.1.2 and then
192.168.1.4. -/
theorem C4_bound_client_is_offered_another_address :
    (∀ (fuel : Nat) (bLocalAlloc bPushBack : Bool),
      ProcessDHCPClientRequest fuel exampleConfig exampleBoundState
        (exampleDISCOVER [99, 130, 83, 99]) 247 bLocalAlloc bPushBack
        = some (exampleBoundState, none))
    ∧ (∀ (fuel : Nat) (bLocalAlloc bPushBack : Bool),
      ProcessDHCPClientRequest (fuel + 1) exampleConfig exampleBoundState
        (exampleDISCOVER [99, 130, 83, 98]) 247 bLocalAlloc bPushBack
        = some (exampleBoundState, none))
    ∧ seenClientBefore exampleBoundState exampleChaddr = true
    ∧ clientPreviousOfferAddr exampleBoundState exampleChaddr = readDWORD [192, 168, 1, 2] 0
    ∧ (caseDISCOVER 4 exampleConfig exampleBoundState true (readDWORD [192, 168, 1, 2] 0)
          exampleChaddr (initialReply exampleConfig (exampleDISCOVER [99, 130, 83, 98]))
          true true).map (fun x => (x.1.vAddressesInUse, x.2.1.messageType, x.2.1.yiaddr, x.2.2))
        = some (exampleBoundState.vAddressesInUse, DHCPMessageType_OFFER,
            readDWORD [192, 168, 1, 4] 0, true)
    ∧ ((caseDISCOVER 4 exampleConfig (initialState exampleConfig) false INADDR_BROADCAST
          exampleChaddr (initialReply exampleConfig (exampleDISCOVER [99, 130, 83, 98]))
          true true).bind (fun x =>
        (caseDISCOVER 4 exampleConfig x.1 (seenClientBefore x.1 exampleChaddr)
          (clientPreviousOfferAddr x.1 exampleChaddr) exampleChaddr
          (initialReply exampleConfig (exampleDISCOVER [99, 130, 83, 98])) true true).map
            (fun y => (x.2.1.yiaddr, y.2.1.yiaddr))))
        = some (readDWORD [192, 168, 1, 2] 0, readDWORD [192, 168, 1, 4] 0) := by
  refine ⟨fun fuel b1 b2 => exampleDISCOVER_magic fuel _ _ b1 b2,
    fun fuel b1 b2 => exampleDISCOVER_other fuel _ _ b1 b2, by decide, by decide, ?_, ?_⟩
  · decide
  · decide

/-- Claim C5.  From the initial state of `exampleConfig`, whose range holds four
addresses besides the server's, a single DISCOVER with a non-empty client
identifier is not answered: `ReadDHCPClientRequests` returns with the state
unchanged and nothing sent, whether or not the frame carries the magic cookie.
For every configuration and every sequence of datagrams, `ReadDHCPClientRequests`
started in the initial state either does not return or returns with nothing sent
and the state unchanged. -/
theorem C5_first_discover_gets_no_offer :
    (∀ fuel : Nat,
      ReadDHCPClientRequests fuel exampleConfig (initialState exampleConfig)
        [{ pbData := exampleDISCOVER [99, 130, 83, 99], iDataSize := 247,
           bLocalAlloc := true, bPushBack := true }]
        = some (initialState exampleConfig, []))
    ∧ (∀ fuel : Nat,
      ReadDHCPClientRequests (fuel + 1) exampleConfig (initialState exampleConfig)
        [{ pbData := exampleDISCOVER [99, 130, 83, 98], iDataSize := 247,
           bLocalAlloc := true, bPushBack := true }]
        = some (initialState exampleConfig, []))
    ∧ (∀ (fuel : Nat) (cfg : ServerConfig) (rs : List Received),
      ReadDHCPClientRequests fuel cfg (initialState cfg) rs = none
        ∨ ReadDHCPClientRequests fuel cfg (initialState cfg) rs = some (initialState cfg, [])) := by
  refine ⟨?_, ?_, fun fuel cfg rs => ReadDHCPClientRequests_outcome fuel cfg _ rs⟩
  · intro fuel
    simp [ReadDHCPClientRequests, exampleDISCOVER_magic]
  · intro fuel
    simp [ReadDHCPClientRequests, exampleDISCOVER_other]

/-! ## The table of addresses in use never holds an address or a client twice -/

/-- `FindIndexOf` yields `-1` exactly when the filter rejects every entry. -/
theorem FindIndexOf_eq_none (v : List AddressInUseInformation)
    (pFilter : AddressInUseInformation → Bool) :
    FindIndexOf v pFilter = none ↔ ∀ a ∈ v, pFilter a = false := by
  induction v with
  | nil => simp [FindIndexOf]
  | cons a rest ih =>
    rw [FindIndexOf]
    by_cases h : pFilter a = true
    · simp [h]
    · simp [h, ih]

/-- When the address-search loop ends with `bOfferAddrValueValid` set, the address
it ends on is not in the table. -/
theorem DISCOVER_loop_valid (v : List AddressInUseInformation) (mn mx init : Nat) :
    ∀ (fuel offer : Nat) (bOffered bValid : Bool) (o : Nat),
      DISCOVER_loop v mn mx init fuel offer bOffered bValid = some (o, true) →
      (bOffered = true → bValid = false) →
      FindIndexOf v (AddressInUseInformationAddrValueFilter o) = none := by
  intro fuel
  induction fuel with
  | zero => intro offer bOffered bValid o h; simp [DISCOVER_loop] at h
  | succ n ih =>
    intro offer bOffered bValid o h hbv
    rw [DISCOVER_loop] at h
    simp only [] at h
    split_ifs at h with h1 h2 h3 h3
    · exact ih _ _ _ _ h (fun _ => by simpa using h3)
    · simp only [Option.some.injEq, Prod.mk.injEq] at h
      rw [← h.1]
      simpa using h.2
    · exact ih _ _ _ _ h (fun _ => by simpa using h3)
    · simp only [Option.some.injEq, Prod.mk.injEq] at h
      rw [← h.1]
      simpa using h.2
    · simp only [Option.some.injEq, Prod.mk.injEq] at h
      have hb : bOffered = true := by
        cases bOffered
        · simp at h1
        · rfl
      rw [hbv hb] at h
      simp at h

/-- The table after the DISCOVER case is the table before it, or that table with
one entry appended whose address was not in the table; the latter only for a
client that was not seen before, and the entry carries its identifier. -/
theorem caseDISCOVER_table (fuel : Nat) (cfg : ServerConfig) (st : ServerState)
    (bSeenClientBefore : Bool) (dwClientPreviousOfferAddr : Nat) (cid : List Nat)
    (pdhcpmReply : DHCPMessage) (bLocalAlloc bPushBack : Bool)
    (st1 : ServerState) (r : DHCPMessage) (bSend : Bool)
    (h : caseDISCOVER fuel cfg st bSeenClientBefore dwClientPreviousOfferAddr cid pdhcpmReply
      bLocalAlloc bPushBack = some (st1, r, bSend)) :
    st1.vAddressesInUse = st.vAddressesInUse
      ∨ (bSeenClientBefore = false ∧ ∃ dwOfferAddrValue : Nat,
          FindIndexOf st.vAddressesInUse (AddressInUseInformationAddrValueFilter dwOfferAddrValue)
            = none
          ∧ st1.vAddressesInUse = st.vAddressesInUse ++
              [{ dwAddrValue := dwOfferAddrValue, pbClientIdentifier := cid }]) := by
  unfold caseDISCOVER at h
  simp only [] at h
  split at h
  · simp at h
  · rename_i o valid hl
    split_ifs at h with h1 h2 h3 h4
    all_goals simp only [Option.some.injEq, Prod.mk.injEq] at h
    all_goals obtain ⟨hs, -, -⟩ := h
    all_goals subst hs
    · left; rfl
    · right
      refine ⟨by simpa using h3, o, ?_, rfl⟩
      rw [h1] at hl
      exact DISCOVER_loop_valid _ _ _ _ _ _ _ _ _ hl (by simp)
    · left; rfl
    · left; rfl
    · left; rfl

/-- The table after the `switch` is the table before it, or that table with one
entry appended for a client that was not seen before, at an address that was not
in the table. -/
theorem dispatch_table (fuel : Nat) (cfg : ServerConfig) (st : ServerState) (pbData : List Nat)
    (iOptionsSize dhcpmtMessageType : Nat) (cid : List Nat) (bLocalAlloc bPushBack : Bool)
    (st1 : ServerState) (sent : Option SentDatagram)
    (h : dispatch fuel cfg st pbData iOptionsSize dhcpmtMessageType cid bLocalAlloc bPushBack
      = some (st1, sent)) :
    st1.vAddressesInUse = st.vAddressesInUse
      ∨ (seenClientBefore st cid = false ∧ ∃ dwOfferAddrValue : Nat,
          FindIndexOf st.vAddressesInUse (AddressInUseInformationAddrValueFilter dwOfferAddrValue)
            = none
          ∧ st1.vAddressesInUse = st.vAddressesInUse ++
              [{ dwAddrValue := dwOfferAddrValue, pbClientIdentifier := cid }]) := by
  unfold dispatch at h
  simp only [] at h
  split_ifs at h with h1 h2
  · cases hd : caseDISCOVER fuel cfg st (seenClientBefore st cid) (clientPreviousOfferAddr st cid)
        cid (initialReply cfg pbData) bLocalAlloc bPushBack with
    | none => rw [hd] at h; simp at h
    | some x =>
      obtain ⟨s2, r, b⟩ := x
      rw [hd] at h
      simp only [Option.some.injEq, Prod.mk.injEq] at h
      rw [← h.1]
      exact caseDISCOVER_table _ _ _ _ _ _ _ _ _ _ _ _ hd
  · left
    split at h
    · simp at h
    · simp only [Option.some.injEq, Prod.mk.injEq] at h
      rw [← h.1]
  · left
    simp only [Option.some.injEq, Prod.mk.injEq] at h
    rw [← h.1]

/-- The table after a call of `ProcessDHCPClientRequest` is the table before it, or
that table with one entry appended for a client identifier that no entry matched,
at an address that was not in the table. -/
theorem ProcessDHCPClientRequest_table (fuel : Nat) (cfg : ServerConfig) (st : ServerState)
    (pbData : List Nat) (iDataSize : Nat) (bLocalAlloc bPushBack : Bool)
    (st1 : ServerState) (sent : Option SentDatagram)
    (h : ProcessDHCPClientRequest fuel cfg st pbData iDataSize bLocalAlloc bPushBack
      = some (st1, sent)) :
    st1.vAddressesInUse = st.vAddressesInUse
      ∨ ∃ (cid : List Nat) (dwOfferAddrValue : Nat),
          seenClientBefore st cid = false
          ∧ FindIndexOf st.vAddressesInUse (AddressInUseInformationAddrValueFilter dwOfferAddrValue)
            = none
          ∧ st1.vAddressesInUse = st.vAddressesInUse ++
              [{ dwAddrValue := dwOfferAddrValue, pbClientIdentifier := cid }] := by
  unfold ProcessDHCPClientRequest at h
  simp only [] at h
  split_ifs at h with h1
  · split at h
    · simp at h
    · simp only [Option.some.injEq, Prod.mk.injEq] at h
      left; rw [← h.1]
    · split at h
      · simp at h
      · unfold afterHostNameLookup at h
        simp only [] at h
        split_ifs at h with h2 h3
        · simp only [Option.some.injEq, Prod.mk.injEq] at h
          left; rw [← h.1]
        · simp only [Option.some.injEq, Prod.mk.injEq] at h
          left; rw [← h.1]
        · split at h
          · simp at h
          · rcases dispatch_table _ _ _ _ _ _ _ _ _ _ _ h with h4 | ⟨h4, o, h5, h6⟩
            · left; exact h4
            · right; exact ⟨_, o, h4, h5, h6⟩
  · simp only [Option.some.injEq, Prod.mk.injEq] at h
    left; rw [← h.1]

/-- Appending an entry whose address is not in the table keeps the addresses
pairwise distinct. -/
theorem addressesDistinct_append (v : List AddressInUseInformation) (o : Nat) (cid : List Nat)
    (hv : addressesDistinct v)
    (ho : FindIndexOf v (AddressInUseInformationAddrValueFilter o) = none) :
    addressesDistinct (v ++ [{ dwAddrValue := o, pbClientIdentifier := cid }]) := by
  unfold addressesDistinct at *
  rw [List.pairwise_append]
  refine ⟨hv, List.pairwise_singleton _ _, ?_⟩
  intro a ha b hb
  rw [List.mem_singleton] at hb
  subst hb
  have := (FindIndexOf_eq_none v _).mp ho a ha
  simp only [AddressInUseInformationAddrValueFilter, beq_eq_false_iff_ne, ne_eq] at this
  exact fun e => this e.symm

/-- Appending an entry for a client identifier that no entry matched keeps the
non-empty client identifiers pairwise distinct. -/
theorem clientIdentifiersDistinct_append (st : ServerState) (o : Nat) (cid : List Nat)
    (hv : clientIdentifiersDistinct st.vAddressesInUse)
    (hc : seenClientBefore st cid = false) :
    clientIdentifiersDistinct
      (st.vAddressesInUse ++ [{ dwAddrValue := o, pbClientIdentifier := cid }]) := by
  unfold clientIdentifiersDistinct at *
  rw [List.pairwise_append]
  refine ⟨hv, List.pairwise_singleton _ _, ?_⟩
  intro a ha b hb
  rw [List.mem_singleton] at hb
  subst hb
  unfold seenClientBefore at hc
  have hn : FindIndexOf st.vAddressesInUse (AddressInUseInformationClientIdentifierFilter cid)
      = none := by
    cases hf : FindIndexOf st.vAddressesInUse (AddressInUseInformationClientIdentifierFilter cid)
    · rfl
    · rw [hf] at hc; simp at hc
  have := (FindIndexOf_eq_none _ _).mp hn a ha
  rintro ⟨h1, h2⟩
  simp only [AddressInUseInformationClientIdentifierFilter] at this
  simp only at h2
  rw [← h2] at this
  simp [h1] at this

/-- Both table properties hold after `ReadDHCPClientRequests` whenever they hold
before it. -/
theorem ReadDHCPClientRequests_table (fuel : Nat) (cfg : ServerConfig) :
    ∀ (rs : List Received) (st st1 : ServerState) (sent : List SentDatagram),
      ReadDHCPClientRequests fuel cfg st rs = some (st1, sent) →
      addressesDistinct st.vAddressesInUse ∧ clientIdentifiersDistinct st.vAddressesInUse →
      addressesDistinct st1.vAddressesInUse ∧ clientIdentifiersDistinct st1.vAddressesInUse := by
  intro rs
  induction rs with
  | nil =>
    intro st st1 sent h hv
    simp only [ReadDHCPClientRequests, Option.some.injEq, Prod.mk.injEq] at h
    rw [← h.1]; exact hv
  | cons r rest ih =>
    intro st st1 sent h hv
    rw [ReadDHCPClientRequests] at h
    cases hp : ProcessDHCPClientRequest fuel cfg st r.pbData r.iDataSize r.bLocalAlloc r.bPushBack with
    | none => rw [hp] at h; simp at h
    | some x =>
      obtain ⟨s2, sd⟩ := x
      rw [hp] at h
      simp only [] at h
      cases hr : ReadDHCPClientRequests fuel cfg s2 rest with
      | none => rw [hr] at h; simp at h
      | some y =>
        obtain ⟨s3, sds⟩ := y
        rw [hr] at h
        simp only [Option.some.injEq, Prod.mk.injEq] at h
        rw [← h.1]
        refine ih s2 s3 sds hr ?_
        rcases ProcessDHCPClientRequest_table _ _ _ _ _ _ _ _ _ hp with h4 | ⟨cid, o, h4, h5, h6⟩
        · rw [h4]; exact hv
        · rw [h6]
          exact ⟨addressesDistinct_append _ _ _ hv.1 h5, clientIdentifiersDistinct_append _ _ _ hv.2 h4⟩

/-- Both table properties hold after a run of the `switch` over a sequence of
datagrams whenever they hold before it. -/
theorem dispatchAll_table (fuel : Nat) (cfg : ServerConfig) :
    ∀ (evs : List Dispatched) (st st1 : ServerState)
      (log : List (Dispatched × Option SentDatagram)),
      dispatchAll fuel cfg st evs = some (st1, log) →
      addressesDistinct st.vAddressesInUse ∧ clientIdentifiersDistinct st.vAddressesInUse →
      addressesDistinct st1.vAddressesInUse ∧ clientIdentifiersDistinct st1.vAddressesInUse := by
  intro evs
  induction evs with
  | nil =>
    intro st st1 log h hv
    simp only [dispatchAll, Option.some.injEq, Prod.mk.injEq] at h
    rw [← h.1]; exact hv
  | cons e rest ih =>
    intro st st1 log h hv
    rw [dispatchAll] at h
    cases hp : dispatch fuel cfg st e.pbData e.iOptionsSize e.dhcpmtMessageType e.cid
        e.bLocalAlloc e.bPushBack with
    | none => rw [hp] at h; simp at h
    | some x =>
      obtain ⟨s2, sd⟩ := x
      rw [hp] at h
      simp only [] at h
      cases hr : dispatchAll fuel cfg s2 rest with
      | none => rw [hr] at h; simp at h
      | some y =>
        obtain ⟨s3, l3⟩ := y
        rw [hr] at h
        simp only [Option.some.injEq, Prod.mk.injEq] at h
        rw [← h.1]
        refine ih s2 s3 l3 hr ?_
        rcases dispatch_table _ _ _ _ _ _ _ _ _ _ _ hp with h4 | ⟨h4, o, h5, h6⟩
        · rw [h4]; exact hv
        · rw [h6]
          exact ⟨addressesDistinct_append _ _ _ hv.1 h5,
            clientIdentifiersDistinct_append _ _ _ hv.2 h4⟩

/-- Claim C6.  In the table of the initial state and in the table after the `switch`
of `ProcessDHCPClientRequest` has run for any sequence of datagrams from the initial
state, whatever their message types, client identifiers and allocation outcomes, no
two entries hold the same address value: the search loop of the DISCOVER case ends
on an address that `FindIndexOf` does not find in the table, and only such an
address is pushed.  The same holds of the table after `ReadDHCPClientRequests` has
handled any sequence of datagrams. -/
theorem C6_no_two_entries_share_an_address (fuel : Nat) (cfg : ServerConfig)
    (evs : List Dispatched) (st : ServerState) (log : List (Dispatched × Option SentDatagram))
    (h : dispatchAll fuel cfg (initialState cfg) evs = some (st, log)) :
    addressesDistinct (initialState cfg).vAddressesInUse
      ∧ addressesDistinct st.vAddressesInUse
      ∧ (∀ (rs : List Received) (st1 : ServerState) (sent : List SentDatagram),
          ReadDHCPClientRequests fuel cfg (initialState cfg) rs = some (st1, sent) →
          addressesDistinct st1.vAddressesInUse) := by
  have h0 : addressesDistinct (initialState cfg).vAddressesInUse
      ∧ clientIdentifiersDistinct (initialState cfg).vAddressesInUse := by
    simp [initialState, addressesDistinct, clientIdentifiersDistinct]
  exact ⟨h0.1, (dispatchAll_table fuel cfg evs _ _ _ h h0).1,
    fun rs st1 sent hr => (ReadDHCPClientRequests_table fuel cfg rs _ _ _ hr h0).1⟩

/-- The hypothesis of C6 holds for the DISCOVERs of two clients in turn: the table
grows to three entries with the addresses 192.168.1.3, 192.168.1.2 and
192.168.1.4. -/
theorem C6_witness :
    exampleTwoClientsState.vAddressesInUse.map (fun a => a.dwAddrValue)
      = [DWIPtoValue (readDWORD [192, 168, 1, 3] 0), DWIPtoValue (readDWORD [192, 168, 1, 2] 0),
          DWIPtoValue (readDWORD [192, 168, 1, 4] 0)]
    ∧ addressesDistinct exampleTwoClientsState.vAddressesInUse :=
  ⟨by decide, (C6_no_two_entries_share_an_address 3 exampleConfig
    [exampleDispatchedDISCOVER, exampleDispatchedDISCOVER2] exampleTwoClientsState
    exampleTwoClientsLog (by rfl)).2.1⟩

/-- Claim C7.  In the table of the initial state and in the table after the `switch`
of `ProcessDHCPClientRequest` has run for any sequence of datagrams from the initial
state, whatever their message types, client identifiers and allocation outcomes, no
two entries hold the same non-empty client identifier: an entry is pushed only for
a client identifier that the client-identifier filter matched with no entry.  The
same holds of the table after `ReadDHCPClientRequests` has handled any sequence of
datagrams. -/
theorem C7_no_two_entries_share_a_client_identifier (fuel : Nat) (cfg : ServerConfig)
    (evs : List Dispatched) (st : ServerState) (log : List (Dispatched × Option SentDatagram))
    (h : dispatchAll fuel cfg (initialState cfg) evs = some (st, log)) :
    clientIdentifiersDistinct (initialState cfg).vAddressesInUse
      ∧ clientIdentifiersDistinct st.vAddressesInUse
      ∧ (∀ (rs : List Received) (st1 : ServerState) (sent : List SentDatagram),
          ReadDHCPClientRequests fuel cfg (initialState cfg) rs = some (st1, sent) →
          clientIdentifiersDistinct st1.vAddressesInUse) := by
  have h0 : addressesDistinct (initialState cfg).vAddressesInUse
      ∧ clientIdentifiersDistinct (initialState cfg).vAddressesInUse := by
    simp [initialState, addressesDistinct, clientIdentifiersDistinct]
  exact ⟨h0.2, (dispatchAll_table fuel cfg evs _ _ _ h h0).2,
    fun rs st1 sent hr => (ReadDHCPClientRequests_table fuel cfg rs _ _ _ hr h0).2⟩

/-- The hypothesis of C7 holds for a DISCOVER of the client AA:BB:CC:DD:EE:FF, a
DISCOVER of the client 11:22:33:44:55:66 and a second DISCOVER of the first client:
the table holds one entry for each of the two clients. -/
theorem C7_witness :
    exampleRepeatedState.vAddressesInUse.map (fun a => a.pbClientIdentifier)
      = [[], exampleChaddr, exampleChaddr2]
    ∧ clientIdentifiersDistinct exampleRepeatedState.vAddressesInUse :=
  ⟨by decide, (C7_no_two_entries_share_a_client_identifier 5 exampleConfig
    [exampleDispatchedDISCOVER, exampleDispatchedDISCOVER2, exampleDispatchedDISCOVER]
    exampleRepeatedState exampleRepeatedLog (by rfl)).2.1⟩

/-! ## REQUEST -/

/-- Reading back `pbMessageType[2]` of the reply after it has been assigned. -/
theorem messageType_setMessageType (cfg : ServerConfig) (pbData : List Nat) (t : Nat) :
    ((initialReply cfg pbData).setMessageType t).messageType = t := by
  simp [DHCPMessage.messageType, DHCPMessage.setMessageType, initialReply]

/-- The message type of the reply in front of the `switch` is 0. -/
theorem messageType_initialReply (cfg : ServerConfig) (pbData : List Nat) :
    (initialReply cfg pbData).messageType = 0 := by
  simp [DHCPMessage.messageType, initialReply]

/-- The reply of the REQUEST case in its "response to OFFER" branch: ACK with
`ciaddr = yiaddr =` the bound address for a client seen before, NAK otherwise. -/
theorem REQUEST_reply_response_to_offer (cfg : ServerConfig) (pbData pbOptions : List Nat)
    (foundRequestedIP foundServerID : Option (Nat × Nat)) (ciaddr : Nat)
    (bSeenClientBefore : Bool) (dwClientPreviousOfferAddr : Nat)
    (h : REQUEST_isResponseToOffer cfg pbOptions foundServerID = true) :
    (bSeenClientBefore = true →
      isACK (REQUEST_reply cfg pbOptions foundRequestedIP foundServerID ciaddr bSeenClientBefore
        dwClientPreviousOfferAddr (initialReply cfg pbData)) dwClientPreviousOfferAddr)
    ∧ (bSeenClientBefore = false →
      isNAK (REQUEST_reply cfg pbOptions foundRequestedIP foundServerID ciaddr bSeenClientBefore
        dwClientPreviousOfferAddr (initialReply cfg pbData))) := by
  constructor
  · intro hs
    simp [isACK, REQUEST_reply, REQUEST_decide, REQUEST_finish, h, hs, messageType_setMessageType,
      DHCPMessage.messageType, DHCPMessage.setMessageType, initialReply]
  · intro hs
    simp [isNAK, REQUEST_reply, REQUEST_decide, REQUEST_finish, h, hs, messageType_setMessageType,
      DHCPMessage.messageType, DHCPMessage.setMessageType, initialReply, DHCPMessageType_NAK,
      DHCPMessageType_ACK]

/-- The reply of the REQUEST case outside its "response to OFFER" branch, when the
request names an address (`dwRequestedIPAddress` is not `INADDR_BROADCAST`, or
`ciaddr` is not 0): ACK with `ciaddr = yiaddr =` the bound address for a client
seen before whose bound address is the requested address or `ciaddr`, NAK
otherwise. -/
theorem REQUEST_reply_verify_or_extend (cfg : ServerConfig) (pbData pbOptions : List Nat)
    (foundRequestedIP foundServerID : Option (Nat × Nat)) (ciaddr : Nat)
    (bSeenClientBefore : Bool) (dwClientPreviousOfferAddr : Nat)
    (h : REQUEST_isResponseToOffer cfg pbOptions foundServerID = false)
    (hreq : REQUEST_requestedIPAddress pbOptions foundRequestedIP ≠ INADDR_BROADCAST
      ∨ ciaddr ≠ 0) :
    ((bSeenClientBefore = true
        ∧ (dwClientPreviousOfferAddr = REQUEST_requestedIPAddress pbOptions foundRequestedIP
            ∨ dwClientPreviousOfferAddr = ciaddr)) →
      isACK (REQUEST_reply cfg pbOptions foundRequestedIP foundServerID ciaddr bSeenClientBefore
        dwClientPreviousOfferAddr (initialReply cfg pbData)) dwClientPreviousOfferAddr)
    ∧ (¬ (bSeenClientBefore = true
        ∧ (dwClientPreviousOfferAddr = REQUEST_requestedIPAddress pbOptions foundRequestedIP
            ∨ dwClientPreviousOfferAddr = ciaddr)) →
      isNAK (REQUEST_reply cfg pbOptions foundRequestedIP foundServerID ciaddr bSeenClientBefore
        dwClientPreviousOfferAddr (initialReply cfg pbData))) := by
  have hcond : ((REQUEST_requestedIPAddress pbOptions foundRequestedIP != INADDR_BROADCAST)
      || ((REQUEST_requestedIPAddress pbOptions foundRequestedIP == INADDR_BROADCAST)
          && (ciaddr != 0))) = true := by
    rcases hreq with h1 | h1
    · simp [h1]
    · by_cases h2 : REQUEST_requestedIPAddress pbOptions foundRequestedIP = INADDR_BROADCAST
      · simp [h1, h2]
      · simp [h2]
  constructor
  · rintro ⟨hs, ha⟩
    have hc2 : (bSeenClientBefore && ((dwClientPreviousOfferAddr
        == REQUEST_requestedIPAddress pbOptions foundRequestedIP)
        || (dwClientPreviousOfferAddr == ciaddr))) = true := by
      rcases ha with ha | ha
      · simp [hs, ← ha]
      · simp [hs, ← ha]
    unfold REQUEST_reply REQUEST_decide
    rw [h, if_neg (by simp), if_pos hcond, if_pos hc2]
    simp [isACK, REQUEST_finish, messageType_setMessageType,
      DHCPMessage.messageType, DHCPMessage.setMessageType, initialReply]
  · intro hn
    have hc2 : ¬ (bSeenClientBefore && ((dwClientPreviousOfferAddr
        == REQUEST_requestedIPAddress pbOptions foundRequestedIP)
        || (dwClientPreviousOfferAddr == ciaddr))) = true := by
      intro hc
      apply hn
      simpa using hc
    unfold REQUEST_reply REQUEST_decide
    rw [h, if_neg (by simp), if_pos hcond, if_neg hc2]
    simp [isNAK, REQUEST_finish, messageType_setMessageType,
      DHCPMessage.messageType, DHCPMessage.setMessageType, initialReply, DHCPMessageType_NAK,
      DHCPMessageType_ACK]

/-- `REQUEST_outcome` is what the `switch` makes of a REQUEST whose two option
lookups return: the state is unchanged and the reply is sent when
`bSendDHCPMessage` is set. -/
theorem dispatch_REQUEST (fuel : Nat) (cfg : ServerConfig) (st : ServerState)
    (pbData : List Nat) (iOptionsSize : Nat) (cid : List Nat) (bLocalAlloc bPushBack : Bool)
    (foundRequestedIP foundServerID : Option (Nat × Nat))
    (h50 : FindOptionData fuel option_REQUESTEDIPADDRESS (pbData.drop sizeofDHCPMessage)
      iOptionsSize = some foundRequestedIP)
    (h54 : FindOptionData fuel option_SERVERIDENTIFIER (pbData.drop sizeofDHCPMessage)
      iOptionsSize = some foundServerID) :
    dispatch fuel cfg st pbData iOptionsSize DHCPMessageType_REQUEST cid bLocalAlloc bPushBack
      = some (st,
          if (REQUEST_outcome cfg st cid pbData foundRequestedIP foundServerID).2 then
            some (sendReply (readDWORD pbData 24) (readDWORD pbData 12) (readDWORD pbData 16)
              (readWORD pbData 10)
              (REQUEST_outcome cfg st cid pbData foundRequestedIP foundServerID).1)
          else none) := by
  unfold dispatch
  simp only [caseREQUEST, h50, h54, REQUEST_outcome]
  rw [if_neg (show ¬ DHCPMessageType_REQUEST = DHCPMessageType_DISCOVER by decide)]
  simp

/-- An entry that the filter accepts, appended to a table in which the filter
accepts nothing, is found at the end. -/
theorem FindIndexOf_append_new (v : List AddressInUseInformation)
    (pFilter : AddressInUseInformation → Bool) (x : AddressInUseInformation)
    (hv : FindIndexOf v pFilter = none) (hx : pFilter x = true) :
    FindIndexOf (v ++ [x]) pFilter = some v.length := by
  induction v with
  | nil => simp [FindIndexOf, hx]
  | cons a rest ih =>
    rw [FindIndexOf] at hv
    by_cases ha : pFilter a = true
    · simp [ha] at hv
    · simp only [ha, Bool.false_eq_true, if_false, Option.map_eq_none'] at hv
      rw [List.cons_append, FindIndexOf, if_neg ha, ih hv]
      rfl

/-- When the DISCOVER case, entered for a client not seen before, sends its reply,
the reply is an OFFER of an address that has been appended to the table together
with the client identifier. -/
theorem caseDISCOVER_offer_new (fuel : Nat) (cfg : ServerConfig) (st : ServerState)
    (dwClientPreviousOfferAddr : Nat) (cid : List Nat) (pbData : List Nat)
    (bLocalAlloc bPushBack : Bool) (st1 : ServerState) (r : DHCPMessage)
    (h : caseDISCOVER fuel cfg st false dwClientPreviousOfferAddr cid (initialReply cfg pbData)
      bLocalAlloc bPushBack = some (st1, r, true)) :
    ∃ dwOfferAddrValue : Nat,
      st1.vAddressesInUse = st.vAddressesInUse ++
        [{ dwAddrValue := dwOfferAddrValue, pbClientIdentifier := cid }]
      ∧ r.yiaddr = DWValuetoIP dwOfferAddrValue
      ∧ r.messageType = DHCPMessageType_OFFER := by
  unfold caseDISCOVER at h
  simp only [] at h
  split at h
  · simp at h
  · rename_i o valid hl
    simp only [Bool.false_eq_true, if_false] at h
    split_ifs at h with h1 h2 h4
    all_goals simp only [Option.some.injEq, Prod.mk.injEq, Bool.false_eq_true, and_false] at h
    obtain ⟨hs, hr, -⟩ := h
    subst hs hr
    exact ⟨o, rfl, by simp [DHCPMessage.setMessageType],
      by simp [DHCPMessage.messageType, DHCPMessage.setMessageType, initialReply]⟩

/-- After an OFFER to a client with a non-empty identifier that was not seen before,
the client is seen and its previous offer address is the `yiaddr` of the OFFER. -/
theorem bound_after_offer (fuel : Nat) (cfg : ServerConfig) (st : ServerState)
    (cid : List Nat) (pbData : List Nat) (bLocalAlloc bPushBack : Bool)
    (st1 : ServerState) (r : DHCPMessage) (hcid : cid ≠ [])
    (hnew : seenClientBefore st cid = false)
    (h : caseDISCOVER fuel cfg st (seenClientBefore st cid) (clientPreviousOfferAddr st cid) cid
      (initialReply cfg pbData) bLocalAlloc bPushBack = some (st1, r, true)) :
    r.messageType = DHCPMessageType_OFFER ∧ seenClientBefore st1 cid = true
      ∧ clientPreviousOfferAddr st1 cid = r.yiaddr := by
  rw [hnew] at h
  obtain ⟨o, ht, hy, hm⟩ := caseDISCOVER_offer_new _ _ _ _ _ _ _ _ _ _ h
  have hn : FindIndexOf st.vAddressesInUse (AddressInUseInformationClientIdentifierFilter cid)
      = none := by
    unfold seenClientBefore at hnew
    cases hf : FindIndexOf st.vAddressesInUse (AddressInUseInformationClientIdentifierFilter cid)
    · rfl
    · rw [hf] at hnew; simp at hnew
  have hx : AddressInUseInformationClientIdentifierFilter cid
      { dwAddrValue := o, pbClientIdentifier := cid } = true := by
    simp [AddressInUseInformationClientIdentifierFilter, hcid]
  have hi := FindIndexOf_append_new _ _ _ hn hx
  refine ⟨hm, ?_, ?_⟩
  · simp [seenClientBefore, ht, hi]
  · simp [clientPreviousOfferAddr, ht, hi, hy, List.getD_eq_getElem?_getD]

/-- The example REQUEST that names this server, with a cookie that passes the
initial checks, keeps `ProcessDHCPClientRequest` from returning. -/
theorem exampleREQUEST_other (fuel : Nat) (cfg : ServerConfig) (st : ServerState)
    (bLocalAlloc bPushBack : Bool) :
    ProcessDHCPClientRequest fuel cfg st (exampleREQUEST [99, 130, 83, 98]) 253
      bLocalAlloc bPushBack = none := by
  have hc : passesInitialChecks (exampleREQUEST [99, 130, 83, 98]) 253 = true := by decide
  have hd : List.drop sizeofDHCPMessage (exampleREQUEST [99, 130, 83, 98])
      = 53 :: 1 :: 3 :: [12, 1, 97, 54, 4, 192, 168, 1, 3, 255] := by decide
  have hn : 253 - sizeofDHCPMessage = 12 + 1 := by decide
  unfold ProcessDHCPClientRequest
  rw [if_pos hc]
  simp only [hd, hn]
  cases fuel with
  | zero => rfl
  | succ n =>
    have hg : GetDHCPMessageType (n + 1) (53 :: 1 :: 3 :: [12, 1, 97, 54, 4, 192, 168, 1, 3, 255])
        (12 + 1) = some (some 3) := by
      rw [GetDHCPMessageType_head]; rfl
    have hh := FindOptionData_after_message_type (n + 1) _ _ 3 option_HOSTNAME (by decide) hg (n + 1)
    simp only [hg, hh]

/-- The example REQUEST with the magic cookie fails the initial checks. -/
theorem exampleREQUEST_magic (fuel : Nat) (cfg : ServerConfig) (st : ServerState)
    (bLocalAlloc bPushBack : Bool) :
    ProcessDHCPClientRequest fuel cfg st (exampleREQUEST [99, 130, 83, 99]) 253
      bLocalAlloc bPushBack = some (st, none) := by
  have hc : passesInitialChecks (exampleREQUEST [99, 130, 83, 99]) 253 = false := by decide
  simp [ProcessDHCPClientRequest, hc]

/-- Claim C9.  With the client AA:BB:CC:DD:EE:FF bound to 192.168.1.2, its REQUEST
that names the server 192.168.1.3 in a 4-byte server identifier is not answered:
with the magic cookie `ProcessDHCPClientRequest` returns without a reply, with
another cookie it does not return, the lookup of the host name being stuck at the
message-type option.  The REQUEST case itself, handed the results the lookups
should give, decides on ACK with `ciaddr = yiaddr = 192.168.1.2`. -/
theorem C9_selecting_request_is_not_answered :
    seenClientBefore exampleBoundState exampleChaddr = true
    ∧ (∀ (fuel : Nat) (bLocalAlloc bPushBack : Bool),
        ProcessDHCPClientRequest fuel exampleConfig exampleBoundState
          (exampleREQUEST [99, 130, 83, 99]) 253 bLocalAlloc bPushBack
          = some (exampleBoundState, none))
    ∧ (∀ (fuel : Nat) (bLocalAlloc bPushBack : Bool),
        ProcessDHCPClientRequest fuel exampleConfig exampleBoundState
          (exampleREQUEST [99, 130, 83, 98]) 253 bLocalAlloc bPushBack = none)
    ∧ (∀ fuel : Nat,
        FindOptionData fuel option_HOSTNAME
          ((exampleREQUEST [99, 130, 83, 98]).drop sizeofDHCPMessage) 13 = none)
    ∧ isACK (REQUEST_outcome exampleConfig exampleBoundState exampleChaddr
        (exampleREQUEST [99, 130, 83, 99]) none (some (8, 4))) (readDWORD [192, 168, 1, 2] 0) := by
  refine ⟨by decide, fun fuel b1 b2 => exampleREQUEST_magic fuel _ _ b1 b2,
    fun fuel b1 b2 => exampleREQUEST_other fuel _ _ b1 b2, ?_, by decide⟩
  intro fuel
  have hd : List.drop sizeofDHCPMessage (exampleREQUEST [99, 130, 83, 98])
      = [53, 1, 3, 12, 1, 97, 54, 4, 192, 168, 1, 3, 255] := by decide
  rw [hd]
  exact FindOptionData_loop_stuck _ _ _ 0 (by decide) (by decide) fuel

/-! ## The replies that are sent -/

/-- Every datagram the `switch` sends is the result of `sendReplyTo` on an OFFER, an
ACK or a NAK built from `initialReply`. -/
theorem dispatch_sent (fuel : Nat) (cfg : ServerConfig) (st : ServerState) (pbData : List Nat)
    (iOptionsSize dhcpmtMessageType : Nat) (cid : List Nat) (bLocalAlloc bPushBack : Bool)
    (st1 : ServerState) (d : SentDatagram)
    (h : dispatch fuel cfg st pbData iOptionsSize dhcpmtMessageType cid bLocalAlloc bPushBack
      = some (st1, some d)) :
    ∃ r : DHCPMessage, d = sendReplyTo pbData r
      ∧ ((∃ a : Nat, r = replyOFFER cfg pbData a) ∨ (∃ a : Nat, r = replyACK cfg pbData a)
          ∨ r = replyNAK cfg pbData) := by
  unfold dispatch at h
  simp only [] at h
  split_ifs at h with h1 h2
  · cases hd : caseDISCOVER fuel cfg st (seenClientBefore st cid) (clientPreviousOfferAddr st cid)
        cid (initialReply cfg pbData) bLocalAlloc bPushBack with
    | none => rw [hd] at h; simp at h
    | some x =>
      obtain ⟨s2, r, b⟩ := x
      rw [hd] at h
      simp only [Option.some.injEq, Prod.mk.injEq] at h
      cases b with
      | false => simp at h
      | true =>
        simp only [if_true, Option.some.injEq] at h
        refine ⟨r, h.2.symm, Or.inl ?_⟩
        unfold caseDISCOVER at hd
        simp only [] at hd
        split at hd
        · simp at hd
        · rename_i o valid hl
          split_ifs at hd with c1 c2 c3 c4
          all_goals simp only [Option.some.injEq, Prod.mk.injEq, Bool.false_eq_true,
            and_false] at hd
          · exact ⟨_, hd.2.1.symm⟩
          · exact ⟨_, hd.2.1.symm⟩
  · cases hd : caseREQUEST fuel cfg (List.drop sizeofDHCPMessage pbData) iOptionsSize
        (readDWORD pbData 12) (seenClientBefore st cid) (clientPreviousOfferAddr st cid)
        (initialReply cfg pbData) with
    | none => rw [hd] at h; simp at h
    | some x =>
      obtain ⟨r, b⟩ := x
      rw [hd] at h
      simp only [Option.some.injEq, Prod.mk.injEq] at h
      cases b with
      | false => simp at h
      | true =>
        simp only [if_true, Option.some.injEq] at h
        refine ⟨r, h.2.symm, Or.inr ?_⟩
        unfold caseREQUEST at hd
        split at hd
        · simp at hd
        · split at hd
          · simp at hd
          · simp only [Option.some.injEq] at hd
            unfold REQUEST_reply REQUEST_decide at hd
            split_ifs at hd with c1 c2 c3 c4
            all_goals simp only [REQUEST_finish, messageType_setMessageType,
              messageType_initialReply] at hd
            all_goals simp [DHCPMessageType_ACK, DHCPMessageType_NAK] at hd
            all_goals first
              | exact Or.inl ⟨_, hd.symm⟩
              | exact Or.inr hd.symm
  · simp at h

/-- The message types of the three replies. -/
theorem messageType_replies (cfg : ServerConfig) (pbData : List Nat) (a : Nat) :
    (replyOFFER cfg pbData a).messageType = DHCPMessageType_OFFER
      ∧ (replyACK cfg pbData a).messageType = DHCPMessageType_ACK
      ∧ (replyNAK cfg pbData).messageType = DHCPMessageType_NAK := by
  simp [replyOFFER, replyACK, replyNAK, DHCPMessage.messageType, DHCPMessage.setMessageType,
    initialReply]

/-- The flags of the three replies are the flags of the request. -/
theorem flags_replies (cfg : ServerConfig) (pbData : List Nat) (a : Nat) :
    (replyOFFER cfg pbData a).flags = readWORD pbData 10
      ∧ (replyACK cfg pbData a).flags = readWORD pbData 10
      ∧ (replyNAK cfg pbData).flags = readWORD pbData 10 := by
  simp [replyOFFER, replyACK, replyNAK, DHCPMessage.setMessageType, initialReply]

/-- Setting the broadcast flag in a flags word sets its bit 7, the bit the code
tests with `BROADCAST_FLAG`. -/
theorem broadcast_flag_set (flags : Nat) :
    (flags ||| BROADCAST_FLAG).testBit 7 = true
      ∧ BROADCAST_FLAG &&& (flags ||| BROADCAST_FLAG) ≠ 0 := by
  have h7 : (flags ||| BROADCAST_FLAG).testBit 7 = true := by
    simp [BROADCAST_FLAG, Nat.testBit_or]
    right
    decide
  refine ⟨h7, fun h0 => ?_⟩
  have h8 : (BROADCAST_FLAG &&& (flags ||| BROADCAST_FLAG)).testBit 7 = true := by
    rw [Nat.testBit_and, h7]
    decide
  rw [h0] at h8
  simp at h8

/-- Every reply the `switch` sends for a request whose `giaddr` is not 0 goes to the
address `giaddr` on port 68 (`DHCP_CLIENT_PORT`), and its flags are the flags of the
request with the broadcast flag set. -/
theorem dispatch_relay_reply (fuel : Nat) (cfg : ServerConfig) (st : ServerState)
    (pbData : List Nat) (iOptionsSize dhcpmtMessageType : Nat) (cid : List Nat)
    (bLocalAlloc bPushBack : Bool) (st1 : ServerState) (d : SentDatagram)
    (h : dispatch fuel cfg st pbData iOptionsSize dhcpmtMessageType cid bLocalAlloc bPushBack
      = some (st1, some d))
    (hg : readDWORD pbData 24 ≠ 0) :
    d.s_addr = readDWORD pbData 24 ∧ d.sin_port = 68
      ∧ d.msg.flags = readWORD pbData 10 ||| BROADCAST_FLAG
      ∧ d.msg.flags.testBit 7 = true
      ∧ BROADCAST_FLAG &&& d.msg.flags ≠ 0 := by
  obtain ⟨r, hd, hr⟩ := dispatch_sent _ _ _ _ _ _ _ _ _ _ _ h
  have hf : r.flags = readWORD pbData 10 := by
    rcases hr with ⟨a, rfl⟩ | ⟨a, rfl⟩ | rfl
    · exact (flags_replies cfg pbData a).1
    · exact (flags_replies cfg pbData a).2.1
    · exact (flags_replies cfg pbData 0).2.2
  have hg2 : (0 == readDWORD pbData 24) = false := by
    simp only [beq_eq_false_iff_ne, ne_eq]
    exact fun e => hg e.symm
  subst hd
  simp only [sendReplyTo, sendReply, hg2, Bool.false_eq_true, if_false, hf]
  exact ⟨trivial, rfl, trivial, (broadcast_flag_set _).1, (broadcast_flag_set _).2⟩

/-- Every OFFER or ACK the `switch` sends for a request with `giaddr` 0 and
`ciaddr` 0 goes to port 68; its destination is 255.255.255.255 when
the broadcast flag of the request is set, and also when that flag is clear and the
`yiaddr` field of the request is 0; when the flag is clear and the `yiaddr` field of
the request is not 0, the destination is that `yiaddr`. -/
theorem dispatch_broadcast_reply (fuel : Nat) (cfg : ServerConfig) (st : ServerState)
    (pbData : List Nat) (iOptionsSize dhcpmtMessageType : Nat) (cid : List Nat)
    (bLocalAlloc bPushBack : Bool) (st1 : ServerState) (d : SentDatagram)
    (h : dispatch fuel cfg st pbData iOptionsSize dhcpmtMessageType cid bLocalAlloc bPushBack
      = some (st1, some d))
    (hg : readDWORD pbData 24 = 0) (hc : readDWORD pbData 12 = 0)
    (ht : d.msg.messageType = DHCPMessageType_OFFER ∨ d.msg.messageType = DHCPMessageType_ACK) :
    d.sin_port = 68
      ∧ (BROADCAST_FLAG &&& readWORD pbData 10 ≠ 0 → d.s_addr = INADDR_BROADCAST)
      ∧ (BROADCAST_FLAG &&& readWORD pbData 10 = 0 → readDWORD pbData 16 = 0 →
          d.s_addr = INADDR_BROADCAST)
      ∧ (BROADCAST_FLAG &&& readWORD pbData 10 = 0 → readDWORD pbData 16 ≠ 0 →
          d.s_addr = readDWORD pbData 16) := by
  obtain ⟨r, hd, -⟩ := dispatch_sent _ _ _ _ _ _ _ _ _ _ _ h
  subst hd
  have ht2 : r.messageType = DHCPMessageType_OFFER ∨ r.messageType = DHCPMessageType_ACK := by
    simpa [sendReplyTo, sendReply, hg] using ht
  simp only [sendReplyTo, sendReply, hg, hc, beq_self_eq_true, if_true, ht2]
  refine ⟨rfl, ?_, ?_, ?_⟩
  · intro hb
    have : (0 != BROADCAST_FLAG &&& readWORD pbData 10) = true := by
      simp only [bne_iff_ne, ne_eq]
      exact fun e => hb e.symm
    simp only [this, if_true]
  · intro hb hy
    simp [hb, hy]
  · intro hb hy
    have : (0 == readDWORD pbData 16) = false := by
      simp only [beq_eq_false_iff_ne, ne_eq]
      exact fun e => hy e.symm
    simp [hb, this]

/-- Claim C15.  Of the replies the `switch` sends for a request with `giaddr` 0, an
OFFER or ACK goes to the `ciaddr` of the request on port 68 when that `ciaddr` is
not 0, and a NAK goes to 255.255.255.255 on port 68 whatever `ciaddr` and the flags
of the request are. -/
theorem C15_unicast_and_nak_routing (fuel : Nat) (cfg : ServerConfig) (st : ServerState)
    (pbData : List Nat) (iOptionsSize dhcpmtMessageType : Nat) (cid : List Nat)
    (bLocalAlloc bPushBack : Bool) (st1 : ServerState) (d : SentDatagram)
    (h : dispatch fuel cfg st pbData iOptionsSize dhcpmtMessageType cid bLocalAlloc bPushBack
      = some (st1, some d))
    (hg : readDWORD pbData 24 = 0) :
    ((d.msg.messageType = DHCPMessageType_OFFER ∨ d.msg.messageType = DHCPMessageType_ACK) →
        readDWORD pbData 12 ≠ 0 → d.s_addr = readDWORD pbData 12 ∧ d.sin_port = 68)
      ∧ (d.msg.messageType = DHCPMessageType_NAK →
        d.s_addr = INADDR_BROADCAST ∧ d.sin_port = 68) := by
  obtain ⟨r, hd, -⟩ := dispatch_sent _ _ _ _ _ _ _ _ _ _ _ h
  subst hd
  constructor
  · intro ht hc
    have ht2 : r.messageType = DHCPMessageType_OFFER ∨ r.messageType = DHCPMessageType_ACK := by
      simpa [sendReplyTo, sendReply, hg] using ht
    have : (0 == readDWORD pbData 12) = false := by
      simp only [beq_eq_false_iff_ne, ne_eq]
      exact fun e => hc e.symm
    simp [sendReplyTo, sendReply, hg, ht2, this, DHCP_CLIENT_PORT]
  · intro ht
    have ht2 : r.messageType = DHCPMessageType_NAK := by
      simpa [sendReplyTo, sendReply, hg] using ht
    simp [sendReplyTo, sendReply, hg, ht2, DHCP_CLIENT_PORT, DHCPMessageType_NAK,
      DHCPMessageType_OFFER, DHCPMessageType_ACK]

/-- The hypotheses of C15 hold for `exampleCiaddrDISCOVER` handled in the initial
state of `exampleConfig`: its OFFER goes to the `ciaddr` 192.168.1.5 on port 68. -/
theorem C15_witness :
    (sendReplyTo exampleCiaddrDISCOVER
        (replyOFFER exampleConfig exampleCiaddrDISCOVER (readDWORD [192, 168, 1, 2] 0))).s_addr
      = readDWORD exampleCiaddrDISCOVER 12
    ∧ (sendReplyTo exampleCiaddrDISCOVER
        (replyOFFER exampleConfig exampleCiaddrDISCOVER (readDWORD [192, 168, 1, 2] 0))).sin_port
      = 68 :=
  (C15_unicast_and_nak_routing 2 exampleConfig (initialState exampleConfig)
    exampleCiaddrDISCOVER 7 DHCPMessageType_DISCOVER exampleChaddr true true exampleBoundState
    (sendReplyTo exampleCiaddrDISCOVER
      (replyOFFER exampleConfig exampleCiaddrDISCOVER (readDWORD [192, 168, 1, 2] 0)))
    (by decide) (by decide)).1 (Or.inl (by decide)) (by decide)

/-- The fixed part of each of the three replies: `op`, the fields copied from the
request, the fields left zero, the cookie, and the lengths of the byte arrays. -/
theorem header_replies (cfg : ServerConfig) (pbData : List Nat) (r : DHCPMessage)
    (hr : (∃ a : Nat, r = replyOFFER cfg pbData a) ∨ (∃ a : Nat, r = replyACK cfg pbData a)
      ∨ r = replyNAK cfg pbData) :
    r.op = 2 ∧ r.htype = readBYTE pbData 1 ∧ r.hlen = readBYTE pbData 2 ∧ r.hops = 0
      ∧ r.xid = readDWORD pbData 4 ∧ r.secs = 0 ∧ r.flags = readWORD pbData 10
      ∧ r.giaddr = readDWORD pbData 24 ∧ r.chaddr = readBytes pbData 28 16
      ∧ r.chaddr.length = 16 ∧ r.sname.length = 64 ∧ r.file.length = 128
      ∧ r.magicCookie = [99, 130, 83, 99] := by
  rcases hr with ⟨a, rfl⟩ | ⟨a, rfl⟩ | rfl <;>
    simp [replyOFFER, replyACK, replyNAK, DHCPMessage.setMessageType, initialReply, readBytes,
      op_BOOTREPLY, pcsServerName, pbDHCPMagicCookie]

/-- The options of each of the three replies. -/
theorem options_replies (cfg : ServerConfig) (pbData : List Nat) (a : Nat) :
    (replyOFFER cfg pbData a).options.bytes
        = [53, 1, 2, 51, 4, 0, 0, 14, 16, 1, 4] ++ bytesOfDWORD cfg.dwMask ++ [54, 4]
            ++ bytesOfDWORD cfg.dwServerAddr ++ [255]
      ∧ (replyACK cfg pbData a).options.bytes
        = [53, 1, 5, 51, 4, 0, 0, 14, 16, 1, 4] ++ bytesOfDWORD cfg.dwMask ++ [54, 4]
            ++ bytesOfDWORD cfg.dwServerAddr ++ [255]
      ∧ (replyNAK cfg pbData).options.bytes
        = [53, 1, 6, 0, 0, 0, 0, 0, 0, 0, 0, 0, 0, 0, 0, 54, 4]
            ++ bytesOfDWORD cfg.dwServerAddr ++ [255] := by
  have hl : bytesOfDWORD (DWIPtoValue (1 * 60 * 60)) = [0, 0, 14, 16] := by decide
  refine ⟨?_, ?_, ?_⟩ <;>
    simp [replyOFFER, replyACK, replyNAK, DHCPMessage.setMessageType, initialReply,
      DHCPServerOptions.bytes, hl, option_DHCPMESSAGETYPE, option_IPADDRESSLEASETIME,
      option_SUBNETMASK, option_SERVERIDENTIFIER, option_END, DHCPMessageType_OFFER,
      DHCPMessageType_ACK, DHCPMessageType_NAK]

/-- Claim C16.  Every reply the `switch` sends is 262 bytes long: 236 header bytes,
the cookie 99,130,83,99 and 22 option bytes.  For an OFFER or ACK the option bytes
are 53,1,type, 51,4,0,0,14,16, 1,4,mask, 54,4,server address, 255; for a NAK they
are 53,1,6, twelve zero bytes, 54,4,server address, 255.  No other message type is
sent. -/
theorem C16_reply_layout (fuel : Nat) (cfg : ServerConfig) (st : ServerState)
    (pbData : List Nat) (iOptionsSize dhcpmtMessageType : Nat) (cid : List Nat)
    (bLocalAlloc bPushBack : Bool) (st1 : ServerState) (d : SentDatagram)
    (h : dispatch fuel cfg st pbData iOptionsSize dhcpmtMessageType cid bLocalAlloc bPushBack
      = some (st1, some d)) :
    d.msg.bytes.length = 262
      ∧ (∃ header : List Nat, header.length = 236
          ∧ d.msg.bytes = header ++ [99, 130, 83, 99] ++ d.msg.options.bytes)
      ∧ d.msg.options.bytes.length = 22
      ∧ (d.msg.messageType = DHCPMessageType_OFFER ∨ d.msg.messageType = DHCPMessageType_ACK
          ∨ d.msg.messageType = DHCPMessageType_NAK)
      ∧ (d.msg.messageType = DHCPMessageType_OFFER ∨ d.msg.messageType = DHCPMessageType_ACK →
          d.msg.options.bytes
            = [53, 1, d.msg.messageType] ++ [51, 4, 0, 0, 14, 16]
                ++ ([1, 4] ++ bytesOfDWORD cfg.dwMask)
                ++ ([54, 4] ++ bytesOfDWORD cfg.dwServerAddr) ++ [255])
      ∧ (d.msg.messageType = DHCPMessageType_NAK →
          d.msg.options.bytes
            = [53, 1, 6] ++ List.replicate 12 0
                ++ ([54, 4] ++ bytesOfDWORD cfg.dwServerAddr) ++ [255]) := by
  obtain ⟨r, hd, hr⟩ := dispatch_sent _ _ _ _ _ _ _ _ _ _ _ h
  obtain ⟨-, -, -, -, -, -, -, -, -, hch, hsn, hfi, hmc⟩ := header_replies cfg pbData r hr
  have hmsg : d.msg.chaddr = r.chaddr ∧ d.msg.sname = r.sname ∧ d.msg.file = r.file
      ∧ d.msg.magicCookie = r.magicCookie ∧ d.msg.options = r.options := by
    subst hd
    unfold sendReplyTo sendReply
    split_ifs <;> simp
  obtain ⟨e1, e2, e3, e4, e5⟩ := hmsg
  have hmt : d.msg.messageType = r.messageType := by
    simp [DHCPMessage.messageType, e5]
  have hopt : r.options.bytes.length = 22
      ∧ (r.messageType = DHCPMessageType_OFFER ∨ r.messageType = DHCPMessageType_ACK
          ∨ r.messageType = DHCPMessageType_NAK)
      ∧ (r.messageType = DHCPMessageType_OFFER ∨ r.messageType = DHCPMessageType_ACK →
          r.options.bytes
            = [53, 1, r.messageType] ++ [51, 4, 0, 0, 14, 16]
                ++ ([1, 4] ++ bytesOfDWORD cfg.dwMask)
                ++ ([54, 4] ++ bytesOfDWORD cfg.dwServerAddr) ++ [255])
      ∧ (r.messageType = DHCPMessageType_NAK →
          r.options.bytes
            = [53, 1, 6] ++ List.replicate 12 0
                ++ ([54, 4] ++ bytesOfDWORD cfg.dwServerAddr) ++ [255]) := by
    rcases hr with ⟨a, rfl⟩ | ⟨a, rfl⟩ | rfl
    · rw [(messageType_replies cfg pbData a).1, (options_replies cfg pbData a).1]
      simp [bytesOfDWORD, DHCPMessageType_OFFER, DHCPMessageType_NAK]
    · rw [(messageType_replies cfg pbData a).2.1, (options_replies cfg pbData a).2.1]
      simp [bytesOfDWORD, DHCPMessageType_ACK, DHCPMessageType_NAK]
    · rw [(messageType_replies cfg pbData 0).2.2, (options_replies cfg pbData 0).2.2]
      simp [bytesOfDWORD, DHCPMessageType_OFFER, DHCPMessageType_ACK, DHCPMessageType_NAK]
  rw [hmt, e5]
  refine ⟨?_, ⟨[d.msg.op, d.msg.htype, d.msg.hlen, d.msg.hops] ++ bytesOfDWORD d.msg.xid
      ++ bytesOfWORD d.msg.secs ++ bytesOfWORD d.msg.flags ++ bytesOfDWORD d.msg.ciaddr
      ++ bytesOfDWORD d.msg.yiaddr ++ bytesOfDWORD d.msg.siaddr ++ bytesOfDWORD d.msg.giaddr
      ++ d.msg.chaddr ++ d.msg.sname ++ d.msg.file, ?_, ?_⟩,
    hopt.1, hopt.2.1, hopt.2.2.1, hopt.2.2.2⟩
  · simp only [DHCPMessage.bytes, List.length_append, e1, e2, e3, e4, e5, hch, hsn, hfi, hmc,
      hopt.1, bytesOfDWORD, bytesOfWORD, List.length_cons, List.length_nil]
  · simp only [List.length_append, e1, e2, e3, hch, hsn, hfi, bytesOfDWORD, bytesOfWORD,
      List.length_cons, List.length_nil]
  · simp only [DHCPMessage.bytes, e4, e5, hmc]

/-- The hypothesis of C16 holds for `exampleDISCOVER` handled in the initial state
of `exampleConfig`: the OFFER sent is 262 bytes long. -/
theorem C16_witness :
    (sendReplyTo (exampleDISCOVER [99, 130, 83, 99]) exampleOFFER).msg.bytes.length = 262 :=
  (C16_reply_layout 2 exampleConfig (initialState exampleConfig)
    (exampleDISCOVER [99, 130, 83, 99]) 7 DHCPMessageType_DISCOVER exampleChaddr true true
    exampleBoundState (sendReplyTo (exampleDISCOVER [99, 130, 83, 99]) exampleOFFER)
    (by decide)).1

/-- Claim C17.  Every reply the `switch` sends has `op` 2 and the `xid`, `htype`,
`hlen`, `giaddr` and the 16 `chaddr` bytes of the request; its flags are the flags of
the request when `giaddr` is 0 and those flags with the broadcast flag set when
`giaddr` is not 0; its `hops` and `secs` are 0. -/
theorem C17_reply_header (fuel : Nat) (cfg : ServerConfig) (st : ServerState)
    (pbData : List Nat) (iOptionsSize dhcpmtMessageType : Nat) (cid : List Nat)
    (bLocalAlloc bPushBack : Bool) (st1 : ServerState) (d : SentDatagram)
    (h : dispatch fuel cfg st pbData iOptionsSize dhcpmtMessageType cid bLocalAlloc bPushBack
      = some (st1, some d)) :
    d.msg.op = 2
      ∧ d.msg.xid = readDWORD pbData 4
      ∧ d.msg.htype = readBYTE pbData 1
      ∧ d.msg.hlen = readBYTE pbData 2
      ∧ d.msg.giaddr = readDWORD pbData 24
      ∧ d.msg.chaddr = readBytes pbData 28 16
      ∧ d.msg.flags
          = (if readDWORD pbData 24 = 0 then readWORD pbData 10
              else readWORD pbData 10 ||| BROADCAST_FLAG)
      ∧ d.msg.hops = 0
      ∧ d.msg.secs = 0 := by
  obtain ⟨r, hd, hr⟩ := dispatch_sent _ _ _ _ _ _ _ _ _ _ _ h
  obtain ⟨h1, h2, h3, h4, h5, h6, h7, h8, h9, -⟩ := header_replies cfg pbData r hr
  subst hd
  unfold sendReplyTo sendReply
  by_cases hg : readDWORD pbData 24 = 0
  · simp [hg, h1, h2, h3, h4, h5, h6, h7, h9]
    rw [← hg]; exact h8
  · have hg2 : (0 == readDWORD pbData 24) = false := by
      simp only [beq_eq_false_iff_ne, ne_eq]
      exact fun e => hg e.symm
    simp [hg, hg2, h1, h2, h3, h4, h5, h6, h7, h8, h9]

/-- The hypothesis of C17 holds for `exampleRelayDISCOVER` handled in the initial
state of `exampleConfig`: the OFFER sent carries the `xid` of the request. -/
theorem C17_witness :
    (sendReplyTo exampleRelayDISCOVER
        (replyOFFER exampleConfig exampleRelayDISCOVER (readDWORD [192, 168, 1, 2] 0))).msg.xid
      = readDWORD exampleRelayDISCOVER 4 :=
  (C17_reply_header 2 exampleConfig (initialState exampleConfig) exampleRelayDISCOVER 7
    DHCPMessageType_DISCOVER exampleChaddr true true exampleBoundState
    (sendReplyTo exampleRelayDISCOVER
      (replyOFFER exampleConfig exampleRelayDISCOVER (readDWORD [192, 168, 1, 2] 0)))
    (by decide)).2.1

/-! ## Requests that are not answered -/

/-- A datagram that passes the initial checks and whose options start with a
one-byte message-type option of a value in 2..8 keeps `ProcessDHCPClientRequest`
from returning: the lookup of the host name is stuck at the message-type option. -/
theorem ProcessDHCPClientRequest_hangs (cfg : ServerConfig) (st : ServerState)
    (pbData : List Nat) (iDataSize : Nat) (bLocalAlloc bPushBack : Bool)
    (b : Nat) (rest : List Nat) (n : Nat)
    (hc : passesInitialChecks pbData iDataSize = true)
    (hd : List.drop sizeofDHCPMessage pbData = 53 :: 1 :: b :: rest)
    (hn : iDataSize - sizeofDHCPMessage = n + 1)
    (hb : 2 ≤ b % 256 ∧ b % 256 ≤ 8) :
    ∀ fuel : Nat,
      ProcessDHCPClientRequest fuel cfg st pbData iDataSize bLocalAlloc bPushBack = none := by
  intro fuel
  unfold ProcessDHCPClientRequest
  rw [if_pos hc]
  simp only [hd, hn]
  cases fuel with
  | zero => rfl
  | succ k =>
    have hg : GetDHCPMessageType (k + 1) (53 :: 1 :: b :: rest) (n + 1) = some (some (b % 256)) := by
      rw [GetDHCPMessageType_head, if_pos hb]
    have hh := FindOptionData_after_message_type (k + 1) _ _ (b % 256) option_HOSTNAME
      (by decide) hg (k + 1)
    simp only [hg, hh]

/-- A datagram that fails the initial checks is dropped. -/
theorem ProcessDHCPClientRequest_rejects (fuel : Nat) (cfg : ServerConfig) (st : ServerState)
    (pbData : List Nat) (iDataSize : Nat) (bLocalAlloc bPushBack : Bool)
    (hc : passesInitialChecks pbData iDataSize = false) :
    ProcessDHCPClientRequest fuel cfg st pbData iDataSize bLocalAlloc bPushBack
      = some (st, none) := by
  simp [ProcessDHCPClientRequest, hc]

/-- Claim C11.  With the client AA:BB:CC:DD:EE:FF bound to 192.168.1.2, its REQUEST
without server identifier and without requested address, with `ciaddr`
192.168.1.2, is not answered: with the magic cookie `ProcessDHCPClientRequest`
returns without a reply, with another cookie it does not return.  The REQUEST case
itself, handed the results the lookups should give, decides on ACK for
192.168.1.2. -/
theorem C11_renewing_request_is_not_answered :
    seenClientBefore exampleBoundState exampleChaddr = true
    ∧ clientPreviousOfferAddr exampleBoundState exampleChaddr
        = readDWORD (exampleRenewREQUEST [99, 130, 83, 99]) 12
    ∧ readDWORD (exampleRenewREQUEST [99, 130, 83, 99]) 12 ≠ 0
    ∧ (∀ (fuel : Nat) (bLocalAlloc bPushBack : Bool),
        ProcessDHCPClientRequest fuel exampleConfig exampleBoundState
          (exampleRenewREQUEST [99, 130, 83, 99]) 247 bLocalAlloc bPushBack
          = some (exampleBoundState, none))
    ∧ (∀ (fuel : Nat) (bLocalAlloc bPushBack : Bool),
        ProcessDHCPClientRequest fuel exampleConfig exampleBoundState
          (exampleRenewREQUEST [99, 130, 83, 98]) 247 bLocalAlloc bPushBack = none)
    ∧ isACK (REQUEST_outcome exampleConfig exampleBoundState exampleChaddr
        (exampleRenewREQUEST [99, 130, 83, 99]) none none) (readDWORD [192, 168, 1, 2] 0) := by
  refine ⟨by decide, by decide, by decide, ?_, ?_, by decide⟩
  · intro fuel b1 b2
    exact ProcessDHCPClientRequest_rejects fuel _ _ _ _ b1 b2 (by decide)
  · intro fuel b1 b2
    exact ProcessDHCPClientRequest_hangs _ _ _ _ b1 b2 3 [12, 1, 97, 255] 6 (by decide)
      (by decide) (by decide) (by decide) fuel

/-- Claim C8.  With the client AA:BB:CC:DD:EE:FF bound to 192.168.1.2, the address
offered to it, its REQUEST that names the server and requests 192.168.1.2 gets no
ACK, and its REQUEST that names the server and requests 192.168.1.5 gets no NAK:
with the magic cookie `ProcessDHCPClientRequest` returns without a reply and with
the state unchanged, with another cookie it does not return, the lookup of the host
name being stuck at the message-type option. -/
theorem C8_request_after_offer_is_not_answered :
    seenClientBefore exampleBoundState exampleChaddr = true
    ∧ clientPreviousOfferAddr exampleBoundState exampleChaddr = readDWORD [192, 168, 1, 2] 0
    ∧ (∀ (fuel : Nat) (bLocalAlloc bPushBack : Bool),
        ProcessDHCPClientRequest fuel exampleConfig exampleBoundState
          (exampleRequestingREQUEST [99, 130, 83, 99] 2) 259 bLocalAlloc bPushBack
          = some (exampleBoundState, none))
    ∧ (∀ (fuel : Nat) (bLocalAlloc bPushBack : Bool),
        ProcessDHCPClientRequest fuel exampleConfig exampleBoundState
          (exampleRequestingREQUEST [99, 130, 83, 98] 2) 259 bLocalAlloc bPushBack = none)
    ∧ (∀ (fuel : Nat) (bLocalAlloc bPushBack : Bool),
        ProcessDHCPClientRequest fuel exampleConfig exampleBoundState
          (exampleRequestingREQUEST [99, 130, 83, 99] 5) 259 bLocalAlloc bPushBack
          = some (exampleBoundState, none))
    ∧ (∀ (fuel : Nat) (bLocalAlloc bPushBack : Bool),
        ProcessDHCPClientRequest fuel exampleConfig exampleBoundState
          (exampleRequestingREQUEST [99, 130, 83, 98] 5) 259 bLocalAlloc bPushBack = none)
    ∧ (∀ fuel : Nat,
        FindOptionData fuel option_HOSTNAME
          ((exampleRequestingREQUEST [99, 130, 83, 98] 2).drop sizeofDHCPMessage) 19 = none) := by
  refine ⟨by decide, by decide, ?_, ?_, ?_, ?_, ?_⟩
  · intro fuel b1 b2
    exact ProcessDHCPClientRequest_rejects fuel _ _ _ _ b1 b2 (by decide)
  · intro fuel b1 b2
    exact ProcessDHCPClientRequest_hangs _ _ _ _ b1 b2 3
      [12, 1, 97, 50, 4, 192, 168, 1, 2, 54, 4, 192, 168, 1, 3, 255] 18 (by decide)
      (by decide) (by decide) (by decide) fuel
  · intro fuel b1 b2
    exact ProcessDHCPClientRequest_rejects fuel _ _ _ _ b1 b2 (by decide)
  · intro fuel b1 b2
    exact ProcessDHCPClientRequest_hangs _ _ _ _ b1 b2 3
      [12, 1, 97, 50, 4, 192, 168, 1, 5, 54, 4, 192, 168, 1, 3, 255] 18 (by decide)
      (by decide) (by decide) (by decide) fuel
  · intro fuel
    have hd : List.drop sizeofDHCPMessage (exampleRequestingREQUEST [99, 130, 83, 98] 2)
        = [53, 1, 3, 12, 1, 97, 50, 4, 192, 168, 1, 2, 54, 4, 192, 168, 1, 3, 255] := by decide
    rw [hd]
    exact FindOptionData_loop_stuck _ _ _ 0 (by decide) (by decide) fuel

/-- Claim C10.  A REQUEST without server identifier that carries a 4-byte requested
address is not answered, whatever the table holds: with the magic cookie
`ProcessDHCPClientRequest` returns without a reply and with the state unchanged,
with another cookie it does not return.  This is so for the client
AA:BB:CC:DD:EE:FF bound to 192.168.1.2 that requests 192.168.1.2, for which no ACK
is sent, and for the same client requesting 192.168.1.5, for which no NAK is
sent. -/
theorem C10_init_reboot_request_is_not_answered :
    seenClientBefore exampleBoundState exampleChaddr = true
    ∧ clientPreviousOfferAddr exampleBoundState exampleChaddr = readDWORD [192, 168, 1, 2] 0
    ∧ readDWORD ((exampleInitRebootREQUEST [99, 130, 83, 99] 2).drop sizeofDHCPMessage) 8
        = readDWORD [192, 168, 1, 2] 0
    ∧ (∀ (fuel : Nat) (st : ServerState) (bLocalAlloc bPushBack : Bool),
        ProcessDHCPClientRequest fuel exampleConfig st
          (exampleInitRebootREQUEST [99, 130, 83, 99] 2) 253 bLocalAlloc bPushBack
          = some (st, none))
    ∧ (∀ (fuel : Nat) (st : ServerState) (bLocalAlloc bPushBack : Bool),
        ProcessDHCPClientRequest fuel exampleConfig st
          (exampleInitRebootREQUEST [99, 130, 83, 98] 2) 253 bLocalAlloc bPushBack = none)
    ∧ (∀ (fuel : Nat) (st : ServerState) (bLocalAlloc bPushBack : Bool),
        ProcessDHCPClientRequest fuel exampleConfig st
          (exampleInitRebootREQUEST [99, 130, 83, 99] 5) 253 bLocalAlloc bPushBack
          = some (st, none))
    ∧ (∀ (fuel : Nat) (st : ServerState) (bLocalAlloc bPushBack : Bool),
        ProcessDHCPClientRequest fuel exampleConfig st
          (exampleInitRebootREQUEST [99, 130, 83, 98] 5) 253 bLocalAlloc bPushBack = none)
    ∧ (∀ fuel : Nat,
        FindOptionData fuel option_REQUESTEDIPADDRESS
          ((exampleInitRebootREQUEST [99, 130, 83, 98] 2).drop sizeofDHCPMessage) 13 = none) := by
  refine ⟨by decide, by decide, by decide, ?_, ?_, ?_, ?_, ?_⟩
  · intro fuel st b1 b2
    exact ProcessDHCPClientRequest_rejects fuel _ _ _ _ b1 b2 (by decide)
  · intro fuel st b1 b2
    exact ProcessDHCPClientRequest_hangs _ _ _ _ b1 b2 3
      [12, 1, 97, 50, 4, 192, 168, 1, 2, 255] 12 (by decide) (by decide) (by decide)
      (by decide) fuel
  · intro fuel st b1 b2
    exact ProcessDHCPClientRequest_rejects fuel _ _ _ _ b1 b2 (by decide)
  · intro fuel st b1 b2
    exact ProcessDHCPClientRequest_hangs _ _ _ _ b1 b2 3
      [12, 1, 97, 50, 4, 192, 168, 1, 5, 255] 12 (by decide) (by decide) (by decide)
      (by decide) fuel
  · intro fuel
    have hd : List.drop sizeofDHCPMessage (exampleInitRebootREQUEST [99, 130, 83, 98] 2)
        = [53, 1, 3, 12, 1, 97, 50, 4, 192, 168, 1, 2, 255] := by decide
    rw [hd]
    exact FindOptionData_loop_stuck _ _ _ 0 (by decide) (by decide) fuel

/-! ## No ACK without a binding -/

/-- The message type of the datagram sent is that of the reply buffer. -/
theorem messageType_sendReplyTo (pbData : List Nat) (r : DHCPMessage) :
    (sendReplyTo pbData r).msg.messageType = r.messageType := by
  unfold sendReplyTo sendReply
  split_ifs <;> simp [DHCPMessage.messageType]

/-- The server entry of the initial table matches no client identifier, the empty
one included. -/
theorem seenClientBefore_initialState (cfg : ServerConfig) (cid : List Nat) :
    seenClientBefore (initialState cfg) cid = false := by
  simp [seenClientBefore, initialState, FindIndexOf, AddressInUseInformationClientIdentifierFilter]

/-- The outcomes of the DISCOVER case: when it sends, the reply is an OFFER and the
table is unchanged (client seen before) or extended by the offered address with the
client identifier (client not seen before); when it does not send, the table is
unchanged. -/
theorem caseDISCOVER_outcome (fuel : Nat) (cfg : ServerConfig) (st : ServerState)
    (bSeenClientBefore : Bool) (dwClientPreviousOfferAddr : Nat) (cid pbData : List Nat)
    (bLocalAlloc bPushBack : Bool) (st1 : ServerState) (r : DHCPMessage) (bSend : Bool)
    (h : caseDISCOVER fuel cfg st bSeenClientBefore dwClientPreviousOfferAddr cid
      (initialReply cfg pbData) bLocalAlloc bPushBack = some (st1, r, bSend)) :
    (bSend = false ∧ st1.vAddressesInUse = st.vAddressesInUse)
      ∨ (bSend = true ∧ ∃ o : Nat, r = replyOFFER cfg pbData (DWValuetoIP o)
          ∧ st1.dwServerLastOfferAddrValue = some o
          ∧ ((bSeenClientBefore = true ∧ st1.vAddressesInUse = st.vAddressesInUse)
            ∨ (bSeenClientBefore = false ∧ st1.vAddressesInUse = st.vAddressesInUse ++
                [{ dwAddrValue := o, pbClientIdentifier := cid }]))) := by
  unfold caseDISCOVER at h
  simp only [] at h
  split at h
  · simp at h
  · rename_i o valid hl
    split_ifs at h with c1 c2 c3 c4
    all_goals simp only [Option.some.injEq, Prod.mk.injEq] at h
    all_goals obtain ⟨hs, hr, hb⟩ := h
    all_goals subst hs hr hb
    · right; exact ⟨rfl, o, rfl, rfl, Or.inl ⟨c3, rfl⟩⟩
    · right; exact ⟨rfl, o, rfl, rfl, Or.inr ⟨by simpa using c3, rfl⟩⟩
    · left; exact ⟨rfl, rfl⟩
    · left; exact ⟨rfl, rfl⟩
    · left; exact ⟨rfl, rfl⟩

/-- The REQUEST case decides on ACK only for a client seen before. -/
theorem REQUEST_reply_ack_seen (cfg : ServerConfig) (pbData pbOptions : List Nat)
    (foundRequestedIP foundServerID : Option (Nat × Nat)) (ciaddr : Nat)
    (bSeenClientBefore : Bool) (dwClientPreviousOfferAddr : Nat)
    (h : (REQUEST_reply cfg pbOptions foundRequestedIP foundServerID ciaddr bSeenClientBefore
      dwClientPreviousOfferAddr (initialReply cfg pbData)).1.messageType = DHCPMessageType_ACK) :
    bSeenClientBefore = true := by
  unfold REQUEST_reply REQUEST_decide at h
  split_ifs at h with c1 c2 c3 c4
  · exact c2
  · simp [REQUEST_finish, messageType_setMessageType, DHCPMessageType_NAK, DHCPMessageType_ACK,
      DHCPMessage.messageType, DHCPMessage.setMessageType, initialReply] at h
  · simp only [Bool.and_eq_true] at c4
    exact c4.1
  · simp [REQUEST_finish, messageType_setMessageType, DHCPMessageType_NAK, DHCPMessageType_ACK,
      DHCPMessage.messageType, DHCPMessage.setMessageType, initialReply] at h
  · simp [REQUEST_finish, messageType_initialReply, DHCPMessageType_NAK, DHCPMessageType_ACK]
      at h

/-- An ACK is sent by the `switch` only in the REQUEST case and only for a client
identifier that matches a table entry. -/
theorem dispatch_ack (fuel : Nat) (cfg : ServerConfig) (st : ServerState) (pbData : List Nat)
    (iOptionsSize dhcpmtMessageType : Nat) (cid : List Nat) (bLocalAlloc bPushBack : Bool)
    (st1 : ServerState) (d : SentDatagram)
    (h : dispatch fuel cfg st pbData iOptionsSize dhcpmtMessageType cid bLocalAlloc bPushBack
      = some (st1, some d))
    (hack : d.msg.messageType = DHCPMessageType_ACK) :
    dhcpmtMessageType = DHCPMessageType_REQUEST ∧ seenClientBefore st cid = true := by
  unfold dispatch at h
  simp only [] at h
  split_ifs at h with h1 h2
  · cases hd : caseDISCOVER fuel cfg st (seenClientBefore st cid) (clientPreviousOfferAddr st cid)
        cid (initialReply cfg pbData) bLocalAlloc bPushBack with
    | none => rw [hd] at h; simp at h
    | some x =>
      obtain ⟨s2, r, b⟩ := x
      rw [hd] at h
      simp only [Option.some.injEq, Prod.mk.injEq] at h
      rcases caseDISCOVER_outcome _ _ _ _ _ _ _ _ _ _ _ _ hd with ⟨hb, -⟩ | ⟨hb, o, hr, -⟩
      · subst hb; simp at h
      · subst hb hr
        simp only [if_true, Option.some.injEq] at h
        rw [← h.2] at hack
        have := messageType_sendReplyTo pbData (replyOFFER cfg pbData (DWValuetoIP o))
        unfold sendReplyTo at this
        rw [this, (messageType_replies cfg pbData _).1] at hack
        exact absurd hack (by decide)
  · refine ⟨h2, ?_⟩
    cases hd : caseREQUEST fuel cfg (List.drop sizeofDHCPMessage pbData) iOptionsSize
        (readDWORD pbData 12) (seenClientBefore st cid) (clientPreviousOfferAddr st cid)
        (initialReply cfg pbData) with
    | none => rw [hd] at h; simp at h
    | some x =>
      obtain ⟨r, b⟩ := x
      rw [hd] at h
      simp only [Option.some.injEq, Prod.mk.injEq] at h
      cases b with
      | false => simp at h
      | true =>
        simp only [if_true, Option.some.injEq] at h
        rw [← h.2] at hack
        have := messageType_sendReplyTo pbData r
        unfold sendReplyTo at this
        rw [this] at hack
        unfold caseREQUEST at hd
        split at hd
        · simp at hd
        · split at hd
          · simp at hd
          · rename_i x1 f50 e1 x2 f54 e2
            simp only [Option.some.injEq] at hd
            have hr : r = (REQUEST_reply cfg (List.drop sizeofDHCPMessage pbData) f50 f54
                (readDWORD pbData 12) (seenClientBefore st cid) (clientPreviousOfferAddr st cid)
                (initialReply cfg pbData)).1 := by rw [hd]
            rw [hr] at hack
            exact REQUEST_reply_ack_seen _ _ _ _ _ _ _ _ hack
  · simp at h

/-- A client identifier that matches an entry after the `switch` matched one before
it, or is the identifier of the DISCOVER just answered with an OFFER. -/
theorem dispatch_seen (fuel : Nat) (cfg : ServerConfig) (st : ServerState) (pbData : List Nat)
    (iOptionsSize dhcpmtMessageType : Nat) (cid : List Nat) (bLocalAlloc bPushBack : Bool)
    (st1 : ServerState) (sent : Option SentDatagram) (cid1 : List Nat)
    (h : dispatch fuel cfg st pbData iOptionsSize dhcpmtMessageType cid bLocalAlloc bPushBack
      = some (st1, sent))
    (hseen : seenClientBefore st1 cid1 = true) :
    seenClientBefore st cid1 = true
      ∨ (dhcpmtMessageType = DHCPMessageType_DISCOVER ∧ cid1 = cid
          ∧ ∃ d : SentDatagram, sent = some d ∧ d.msg.messageType = DHCPMessageType_OFFER) := by
  unfold dispatch at h
  simp only [] at h
  split_ifs at h with h1 h2
  · cases hd : caseDISCOVER fuel cfg st (seenClientBefore st cid) (clientPreviousOfferAddr st cid)
        cid (initialReply cfg pbData) bLocalAlloc bPushBack with
    | none => rw [hd] at h; simp at h
    | some x =>
      obtain ⟨s2, r, b⟩ := x
      rw [hd] at h
      simp only [Option.some.injEq, Prod.mk.injEq] at h
      obtain ⟨hs, hsent⟩ := h
      subst hs
      rcases caseDISCOVER_outcome _ _ _ _ _ _ _ _ _ _ _ _ hd with
        ⟨-, ht⟩ | ⟨hb, o, hr, -, ⟨-, ht⟩ | ⟨-, ht⟩⟩
      · left
        unfold seenClientBefore at hseen ⊢
        rw [ht] at hseen; exact hseen
      · left
        unfold seenClientBefore at hseen ⊢
        rw [ht] at hseen; exact hseen
      · by_cases hold : seenClientBefore st cid1 = true
        · left; exact hold
        · right
          subst hb hr
          simp only [if_true] at hsent
          refine ⟨h1, ?_, _, hsent.symm, ?_⟩
          · have hn : FindIndexOf st.vAddressesInUse
                (AddressInUseInformationClientIdentifierFilter cid1) = none := by
              unfold seenClientBefore at hold
              cases hf : FindIndexOf st.vAddressesInUse
                  (AddressInUseInformationClientIdentifierFilter cid1)
              · rfl
              · rw [hf] at hold; simp at hold
            by_contra hne
            have hx : AddressInUseInformationClientIdentifierFilter cid1
                { dwAddrValue := o, pbClientIdentifier := cid } = false := by
              simp only [AddressInUseInformationClientIdentifierFilter, Bool.and_eq_false_iff]
              right
              simpa using hne
            have hall : ∀ a ∈ s2.vAddressesInUse,
                AddressInUseInformationClientIdentifierFilter cid1 a = false := by
              rw [ht]
              intro a ha
              rcases List.mem_append.mp ha with ha | ha
              · exact (FindIndexOf_eq_none _ _).mp hn a ha
              · rw [List.mem_singleton] at ha; subst ha; exact hx
            have := (FindIndexOf_eq_none _ _).mpr hall
            unfold seenClientBefore at hseen
            rw [this] at hseen
            simp at hseen
          · have := messageType_sendReplyTo pbData (replyOFFER cfg pbData (DWValuetoIP o))
            unfold sendReplyTo at this
            rw [this]
            exact (messageType_replies cfg pbData _).1
  · left
    split at h
    · simp at h
    · simp only [Option.some.injEq, Prod.mk.injEq] at h
      rw [h.1]; exact hseen
  · left
    simp only [Option.some.injEq, Prod.mk.injEq] at h
    rw [h.1]; exact hseen

/-- Extending the log at the front keeps the answered DISCOVERs in it. -/
theorem offeredIn_cons (cid : List Nat) (p : Dispatched × Option SentDatagram)
    (log : List (Dispatched × Option SentDatagram)) (h : offeredIn cid log) :
    offeredIn cid (p :: log) := by
  obtain ⟨q, hq, hrest⟩ := h
  exact ⟨q, List.mem_cons_of_mem _ hq, hrest⟩

/-- In a run of the `switch` from any state: a client identifier that matches an
entry at the end matched one at the start or is that of a DISCOVER answered with an
OFFER during the run, and an ACK is sent only for a REQUEST whose client identifier
matched an entry at the start or is that of a DISCOVER answered with an OFFER
earlier in the run. -/
theorem dispatchAll_ack (fuel : Nat) (cfg : ServerConfig) :
    ∀ (evs : List Dispatched) (st0 st : ServerState)
      (log : List (Dispatched × Option SentDatagram)),
      dispatchAll fuel cfg st0 evs = some (st, log) →
      (∀ cid : List Nat, seenClientBefore st cid = true →
          seenClientBefore st0 cid = true ∨ offeredIn cid log)
      ∧ (∀ (pre post : List (Dispatched × Option SentDatagram)) (e : Dispatched)
            (d : SentDatagram),
          log = pre ++ (e, some d) :: post → d.msg.messageType = DHCPMessageType_ACK →
          e.dhcpmtMessageType = DHCPMessageType_REQUEST
            ∧ (seenClientBefore st0 e.cid = true ∨ offeredIn e.cid pre)) := by
  intro evs
  induction evs with
  | nil =>
    intro st0 st log h
    simp only [dispatchAll, Option.some.injEq, Prod.mk.injEq] at h
    obtain ⟨hs, hl⟩ := h
    subst hs hl
    refine ⟨fun cid hc => Or.inl hc, ?_⟩
    intro pre post e d hlog
    simp at hlog
  | cons ev rest ih =>
    intro st0 st log h
    rw [dispatchAll] at h
    cases hd : dispatch fuel cfg st0 ev.pbData ev.iOptionsSize ev.dhcpmtMessageType ev.cid
        ev.bLocalAlloc ev.bPushBack with
    | none => rw [hd] at h; simp at h
    | some x =>
      obtain ⟨s1, sent1⟩ := x
      rw [hd] at h
      simp only [] at h
      cases hr : dispatchAll fuel cfg s1 rest with
      | none => rw [hr] at h; simp at h
      | some y =>
        obtain ⟨s2, log1⟩ := y
        rw [hr] at h
        simp only [Option.some.injEq, Prod.mk.injEq] at h
        obtain ⟨hs, hl⟩ := h
        subst hs hl
        obtain ⟨ih1, ih2⟩ := ih s1 s2 log1 hr
        have step : ∀ cid : List Nat, seenClientBefore s1 cid = true →
            seenClientBefore st0 cid = true ∨ offeredIn cid [(ev, sent1)] := by
          intro cid hc
          rcases dispatch_seen _ _ _ _ _ _ _ _ _ _ _ cid hd hc with h0 | ⟨ht, hcid, d, hsent, hoff⟩
          · exact Or.inl h0
          · exact Or.inr ⟨(ev, sent1), List.mem_singleton.mpr rfl, ht, hcid.symm, d, hsent, hoff⟩
        constructor
        · intro cid hc
          rcases ih1 cid hc with h1 | h1
          · rcases step cid h1 with h0 | ⟨q, hq, hrest⟩
            · exact Or.inl h0
            · rw [List.mem_singleton] at hq
              exact Or.inr ⟨q, by rw [hq]; exact List.mem_cons_self _ _, hrest⟩
          · exact Or.inr (offeredIn_cons cid _ _ h1)
        · intro pre post e d hlog hack
          cases pre with
          | nil =>
            simp only [List.nil_append, List.cons.injEq, Prod.mk.injEq] at hlog
            obtain ⟨⟨he, hsent⟩, -⟩ := hlog
            subst he
            rw [hsent] at hd
            obtain ⟨ht, hseen⟩ := dispatch_ack _ _ _ _ _ _ _ _ _ _ _ hd hack
            exact ⟨ht, Or.inl hseen⟩
          | cons p pre1 =>
            simp only [List.cons_append, List.cons.injEq] at hlog
            obtain ⟨hp, hlog1⟩ := hlog
            obtain ⟨ht, hor⟩ := ih2 pre1 post e d hlog1 hack
            refine ⟨ht, ?_⟩
            rcases hor with h1 | h1
            · rcases step e.cid h1 with h0 | ⟨q, hq, hrest⟩
              · exact Or.inl h0
              · rw [List.mem_singleton] at hq
                exact Or.inr ⟨q, by rw [hq, hp]; exact List.mem_cons_self _ _, hrest⟩
            · exact Or.inr (offeredIn_cons e.cid _ _ h1)

/-- Claim C12.  In a run of the `switch` of `ProcessDHCPClientRequest` over any
sequence of datagrams from the initial state, an ACK is sent only for a REQUEST
whose client identifier is that of an earlier DISCOVER of the run that was answered
with an OFFER.  The server entry of the initial table matches no client identifier,
the empty one included.  And `ReadDHCPClientRequests`, run from the initial state
over any sequence of datagrams, sends no ACK. -/
theorem C12_no_ack_without_offer (fuel : Nat) (cfg : ServerConfig) (evs : List Dispatched)
    (st : ServerState) (log : List (Dispatched × Option SentDatagram))
    (h : dispatchAll fuel cfg (initialState cfg) evs = some (st, log)) :
    (∀ (pre post : List (Dispatched × Option SentDatagram)) (e : Dispatched)
          (d : SentDatagram),
        log = pre ++ (e, some d) :: post → d.msg.messageType = DHCPMessageType_ACK →
        e.dhcpmtMessageType = DHCPMessageType_REQUEST ∧ offeredIn e.cid pre)
    ∧ (∀ cid : List Nat, seenClientBefore (initialState cfg) cid = false)
    ∧ (∀ (rs : List Received) (st1 : ServerState) (sent : List SentDatagram),
        ReadDHCPClientRequests fuel cfg (initialState cfg) rs = some (st1, sent) →
        ∀ d ∈ sent, d.msg.messageType ≠ DHCPMessageType_ACK) := by
  refine ⟨?_, seenClientBefore_initialState cfg, ?_⟩
  · intro pre post e d hlog hack
    obtain ⟨ht, hor⟩ := (dispatchAll_ack fuel cfg evs _ _ _ h).2 pre post e d hlog hack
    refine ⟨ht, ?_⟩
    rcases hor with h0 | h0
    · rw [seenClientBefore_initialState] at h0
      simp at h0
    · exact h0
  · intro rs st1 sent hrun d hd
    rcases ReadDHCPClientRequests_outcome fuel cfg (initialState cfg) rs with h0 | h0
    · rw [h0] at hrun; simp at hrun
    · rw [h0] at hrun
      simp only [Option.some.injEq, Prod.mk.injEq] at hrun
      rw [← hrun.2] at hd
      simp at hd

/-- The hypothesis of C12 holds for a DISCOVER followed by a REQUEST of the same
client: the ACK for the REQUEST comes after the OFFER for the DISCOVER. -/
theorem C12_witness :
    exampleDispatchedREQUEST.dhcpmtMessageType = DHCPMessageType_REQUEST
    ∧ offeredIn exampleDispatchedREQUEST.cid
        [(exampleDispatchedDISCOVER,
          some (sendReplyTo (exampleDISCOVER [99, 130, 83, 99]) exampleOFFER))] :=
  (C12_no_ack_without_offer 2 exampleConfig
    [exampleDispatchedDISCOVER, exampleDispatchedREQUEST] exampleBoundState exampleLog
    (by rfl)).1
    [(exampleDispatchedDISCOVER,
      some (sendReplyTo (exampleDISCOVER [99, 130, 83, 99]) exampleOFFER))]
    [] exampleDispatchedREQUEST
    (sendReplyTo exampleBareREQUEST
      (replyACK exampleConfig exampleBareREQUEST (readDWORD [192, 168, 1, 2] 0)))
    rfl (by decide)

/-! ## The first offer and the address scan -/

/-- The bytes of a `DWORD` given by its four bytes. -/
theorem DWIP_of_bytes (b0 b1 b2 b3 : Nat) (h0 : b0 < 256) (h1 : b1 < 256) (h2 : b2 < 256)
    (h3 : b3 < 256) :
    DWIP0 (b0 + 256 * b1 + 65536 * b2 + 16777216 * b3) = b0
      ∧ DWIP1 (b0 + 256 * b1 + 65536 * b2 + 16777216 * b3) = b1
      ∧ DWIP2 (b0 + 256 * b1 + 65536 * b2 + 16777216 * b3) = b2
      ∧ DWIP3 (b0 + 256 * b1 + 65536 * b2 + 16777216 * b3) = b3 := by
  unfold DWIP0 DWIP1 DWIP2 DWIP3
  norm_num
  refine ⟨by omega, by omega, by omega, by omega⟩

/-- A `DWORD` is given by its four bytes. -/
theorem DWORD_eq_bytes (dw : Nat) (h : dw < 2 ^ 32) :
    dw = DWIP0 dw + 256 * DWIP1 dw + 65536 * DWIP2 dw + 16777216 * DWIP3 dw := by
  unfold DWIP0 DWIP1 DWIP2 DWIP3
  norm_num
  have e2 : dw / 65536 = dw / 256 / 256 := by rw [Nat.div_div_eq_div_mul]
  have e3 : dw / 16777216 = dw / 256 / 256 / 256 := by
    rw [Nat.div_div_eq_div_mul, Nat.div_div_eq_div_mul]
  rw [e3, e2]
  omega

/-- Swapping the bytes of a `DWORD` twice gives the `DWORD` back. -/
theorem DWValuetoIP_DWIPtoValue (dw : Nat) (h : dw < 2 ^ 32) :
    DWValuetoIP (DWIPtoValue dw) = dw := by
  have hb : DWIP0 dw < 256 ∧ DWIP1 dw < 256 ∧ DWIP2 dw < 256 ∧ DWIP3 dw < 256 := by
    unfold DWIP0 DWIP1 DWIP2 DWIP3
    refine ⟨Nat.mod_lt _ (by norm_num), Nat.mod_lt _ (by norm_num), Nat.mod_lt _ (by norm_num),
      Nat.mod_lt _ (by norm_num)⟩
  have hv : DWIPtoValue dw
      = DWIP3 dw + 256 * DWIP2 dw + 65536 * DWIP1 dw + 16777216 * DWIP0 dw := by
    unfold DWIPtoValue
    norm_num
    ring
  obtain ⟨e0, e1, e2, e3⟩ := DWIP_of_bytes (DWIP3 dw) (DWIP2 dw) (DWIP1 dw) (DWIP0 dw)
    hb.2.2.2 hb.2.2.1 hb.2.1 hb.1
  have hd := DWORD_eq_bytes dw h
  unfold DWValuetoIP
  rw [hv, e0, e1, e2, e3]
  norm_num
  omega

/-- The value of a `DWORD` with its bytes swapped is a `DWORD`. -/
theorem DWIPtoValue_lt (dw : Nat) : DWIPtoValue dw < 2 ^ 32 := by
  have hb : DWIP0 dw < 256 ∧ DWIP1 dw < 256 ∧ DWIP2 dw < 256 ∧ DWIP3 dw < 256 := by
    unfold DWIP0 DWIP1 DWIP2 DWIP3
    refine ⟨Nat.mod_lt _ (by norm_num), Nat.mod_lt _ (by norm_num), Nat.mod_lt _ (by norm_num),
      Nat.mod_lt _ (by norm_num)⟩
  unfold DWIPtoValue
  norm_num
  omega

/-- In the initial state the address search that starts one past the upper bound
ends at once on the lower bound, when that is not the server address. -/
theorem DISCOVER_loop_initialState (cfg : ServerConfig) (fuel : Nat)
    (hsrv : DWIPtoValue cfg.dwServerAddr ≠ DWIPtoValue cfg.dwMinAddr) :
    DISCOVER_loop (initialState cfg).vAddressesInUse (DWIPtoValue cfg.dwMinAddr)
        (DWIPtoValue cfg.dwMaxAddr) (DWIPtoValue cfg.dwMaxAddr + 1) (fuel + 1)
        (DWIPtoValue cfg.dwMaxAddr + 1) false false
      = some (DWIPtoValue cfg.dwMinAddr, true) := by
  have hne : (DWIPtoValue cfg.dwMinAddr == DWIPtoValue cfg.dwServerAddr) = false := by
    simp only [beq_eq_false_iff_ne, ne_eq]
    exact fun e => hsrv e.symm
  rw [DISCOVER_loop]
  simp [initialState, FindIndexOf, AddressInUseInformationAddrValueFilter, hne]

/-- When the DISCOVER case is entered in the initial state
(table holding only the server entry, cursor at the upper bound) for any client,
with the allocations succeeding, the reply sent is an OFFER whose `yiaddr` is the
lower bound `dwMinAddr` of the range, provided the server address is not that lower
bound (and the upper bound is not 255.255.255.255); the lower bound is then bound
to the client and becomes the cursor. -/
theorem dispatch_first_offer (fuel : Nat) (cfg : ServerConfig) (pbData : List Nat)
    (iOptionsSize : Nat) (cid : List Nat)
    (hmin : cfg.dwMinAddr < 2 ^ 32)
    (hmax : DWIPtoValue cfg.dwMaxAddr ≠ 0xffffffff)
    (hsrv : DWIPtoValue cfg.dwServerAddr ≠ DWIPtoValue cfg.dwMinAddr) :
    dispatch (fuel + 1) cfg (initialState cfg) pbData iOptionsSize DHCPMessageType_DISCOVER cid
        true true
      = some ({ vAddressesInUse := (initialState cfg).vAddressesInUse ++
                  [{ dwAddrValue := DWIPtoValue cfg.dwMinAddr, pbClientIdentifier := cid }]
                dwServerLastOfferAddrValue := some (DWIPtoValue cfg.dwMinAddr) },
          some (sendReplyTo pbData (replyOFFER cfg pbData cfg.dwMinAddr)))
    ∧ (sendReplyTo pbData (replyOFFER cfg pbData cfg.dwMinAddr)).msg.messageType
        = DHCPMessageType_OFFER
    ∧ (sendReplyTo pbData (replyOFFER cfg pbData cfg.dwMinAddr)).msg.yiaddr = cfg.dwMinAddr := by
  have hlt := DWIPtoValue_lt cfg.dwMaxAddr
  have hmod : (DWIPtoValue cfg.dwMaxAddr + 1) % 2 ^ 32 = DWIPtoValue cfg.dwMaxAddr + 1 := by
    apply Nat.mod_eq_of_lt
    norm_num at hlt hmax ⊢
    omega
  refine ⟨?_, ?_, ?_⟩
  · unfold dispatch
    simp only [if_true, seenClientBefore_initialState]
    unfold caseDISCOVER
    have hcur : (initialState cfg).dwServerLastOfferAddrValue = none := rfl
    simp only [hcur, Option.getD_none, Bool.false_eq_true, if_false, hmod,
      DISCOVER_loop_initialState cfg fuel hsrv, if_true,
      DWValuetoIP_DWIPtoValue cfg.dwMinAddr hmin]
    rfl
  · rw [messageType_sendReplyTo]
    exact (messageType_replies cfg pbData _).1
  · unfold sendReplyTo sendReply
    split_ifs <;> simp [replyOFFER, DHCPMessage.setMessageType]

/-- Claim C19.  In the state with the cursor at 192.168.1.3 and 192.168.1.4 in use,
a DISCOVER of the client AA:BB:CC:DD:EE:FF, which is not in the table, triggers no
address scan: `ProcessDHCPClientRequest` returns with nothing sent and the state,
cursor included, unchanged, whether or not the frame carries the magic cookie.  The
DISCOVER case itself, entered for this client, selects 192.168.1.5, the first
address after the cursor that is not in the table, offers it, binds it and moves
the cursor to it. -/
theorem C19_discover_triggers_no_scan :
    seenClientBefore exampleScanState exampleChaddr = false
    ∧ (∀ (fuel : Nat) (bLocalAlloc bPushBack : Bool),
        ProcessDHCPClientRequest fuel exampleConfig exampleScanState
          (exampleDISCOVER [99, 130, 83, 99]) 247 bLocalAlloc bPushBack
          = some (exampleScanState, none))
    ∧ (∀ (fuel : Nat) (bLocalAlloc bPushBack : Bool),
        ProcessDHCPClientRequest (fuel + 1) exampleConfig exampleScanState
          (exampleDISCOVER [99, 130, 83, 98]) 247 bLocalAlloc bPushBack
          = some (exampleScanState, none))
    ∧ (dispatch 3 exampleConfig exampleScanState (exampleDISCOVER [99, 130, 83, 99]) 7
        DHCPMessageType_DISCOVER exampleChaddr true true).map
          (fun x => (x.1.vAddressesInUse, x.1.dwServerLastOfferAddrValue,
            x.2.map (fun d => (d.msg.messageType, d.msg.yiaddr))))
      = some (exampleScanState.vAddressesInUse ++
            [{ dwAddrValue := DWIPtoValue (readDWORD [192, 168, 1, 5] 0),
               pbClientIdentifier := exampleChaddr }],
          some (DWIPtoValue (readDWORD [192, 168, 1, 5] 0)),
          some (DHCPMessageType_OFFER, readDWORD [192, 168, 1, 5] 0)) := by
  refine ⟨by decide, fun fuel b1 b2 => exampleDISCOVER_magic fuel _ _ b1 b2,
    fun fuel b1 b2 => exampleDISCOVER_other fuel _ _ b1 b2, by decide⟩

/-! ## The host-name filters -/

/-- Claim C20.  Once the lookup of the host-name option has returned, with the
option not found, or found with length 0, or found with the bytes of the server's
own host name, the rest of `ProcessDHCPClientRequest` returns with nothing sent and
the state (table and cursor) unchanged, whatever the message type.  And whatever the
request, a call of `ProcessDHCPClientRequest` either does not return or returns with
nothing sent and the state unchanged. -/
theorem C20_hostname_filters (fuel : Nat) (cfg : ServerConfig) (st : ServerState)
    (pbData : List Nat) (iDataSize dhcpmtMessageType : Nat) (foundHostName : Option (Nat × Nat))
    (bLocalAlloc bPushBack : Bool)
    (hname : ∀ off size : Nat, foundHostName = some (off, size) →
      size = 0 ∨ readBytes (pbData.drop sizeofDHCPMessage) off size = cfg.pcsServerHostName) :
    afterHostNameLookup fuel cfg st pbData iDataSize dhcpmtMessageType foundHostName
        bLocalAlloc bPushBack = some (st, none)
    ∧ (ProcessDHCPClientRequest fuel cfg st pbData iDataSize bLocalAlloc bPushBack = none
        ∨ ProcessDHCPClientRequest fuel cfg st pbData iDataSize bLocalAlloc bPushBack
            = some (st, none)) := by
  refine ⟨?_, ProcessDHCPClientRequest_outcome fuel cfg st pbData iDataSize bLocalAlloc bPushBack⟩
  unfold afterHostNameLookup
  cases foundHostName with
  | none => simp
  | some p =>
    obtain ⟨off, size⟩ := p
    rcases hname off size rfl with h0 | h0
    · subst h0
      simp [readBytes]
    · simp only [h0]
      split_ifs <;> rfl

/-- The hypothesis of C20 holds for `exampleOwnNameREQUEST`, whose host name is that
of `exampleConfig`. -/
theorem C20_witness :
    readBytes (exampleOwnNameREQUEST.drop sizeofDHCPMessage) 5 3 = exampleConfig.pcsServerHostName
    ∧ afterHostNameLookup 1 exampleConfig exampleBoundState exampleOwnNameREQUEST 249
        DHCPMessageType_REQUEST (some (5, 3)) true true = some (exampleBoundState, none) :=
  ⟨by decide,
    (C20_hostname_filters 1 exampleConfig exampleBoundState exampleOwnNameREQUEST 249
      DHCPMessageType_REQUEST (some (5, 3)) true true
      (fun off size h => by cases h; exact Or.inr (by decide))).1⟩

/-! ## Which datagrams are answered, and what they do to the table -/

/-- The `yiaddr` of the datagram sent is that of the reply buffer. -/
theorem yiaddr_sendReplyTo (pbData : List Nat) (r : DHCPMessage) :
    (sendReplyTo pbData r).msg.yiaddr = r.yiaddr := by
  unfold sendReplyTo sendReply
  split_ifs <;> rfl

/-- The `yiaddr` of an OFFER is the address offered. -/
theorem yiaddr_replyOFFER (cfg : ServerConfig) (pbData : List Nat) (a : Nat) :
    (replyOFFER cfg pbData a).yiaddr = a := by
  simp [replyOFFER, DHCPMessage.setMessageType]

/-- The outcomes of the `switch` by message type.  A DISCOVER is answered with an
OFFER or not at all, and the table grows by the offered address and the client
identifier exactly when an OFFER goes to a client not seen before; a REQUEST is
answered with an ACK, a NAK or not at all and leaves the state as it is; any other
message type is not answered and leaves the state as it is. -/
theorem dispatch_outcome (fuel : Nat) (cfg : ServerConfig) (st : ServerState)
    (pbData : List Nat) (iOptionsSize dhcpmtMessageType : Nat) (cid : List Nat)
    (bLocalAlloc bPushBack : Bool) (st1 : ServerState) (sent : Option SentDatagram)
    (h : dispatch fuel cfg st pbData iOptionsSize dhcpmtMessageType cid bLocalAlloc bPushBack
      = some (st1, sent)) :
    (dhcpmtMessageType = DHCPMessageType_DISCOVER
        ∧ ((sent = none ∧ st1.vAddressesInUse = st.vAddressesInUse)
          ∨ ∃ o : Nat,
              sent = some (sendReplyTo pbData (replyOFFER cfg pbData (DWValuetoIP o)))
              ∧ ((seenClientBefore st cid = true
                    ∧ st1.vAddressesInUse = st.vAddressesInUse)
                ∨ (seenClientBefore st cid = false
                    ∧ st1.vAddressesInUse = st.vAddressesInUse ++
                        [{ dwAddrValue := o, pbClientIdentifier := cid }]))))
      ∨ (dhcpmtMessageType = DHCPMessageType_REQUEST ∧ st1 = st
        ∧ (sent = none
          ∨ (∃ a : Nat, sent = some (sendReplyTo pbData (replyACK cfg pbData a)))
          ∨ sent = some (sendReplyTo pbData (replyNAK cfg pbData))))
      ∨ (dhcpmtMessageType ≠ DHCPMessageType_DISCOVER
        ∧ dhcpmtMessageType ≠ DHCPMessageType_REQUEST ∧ st1 = st ∧ sent = none) := by
  unfold dispatch at h
  simp only [] at h
  split_ifs at h with h1 h2
  · left
    refine ⟨h1, ?_⟩
    cases hd : caseDISCOVER fuel cfg st (seenClientBefore st cid) (clientPreviousOfferAddr st cid)
        cid (initialReply cfg pbData) bLocalAlloc bPushBack with
    | none => rw [hd] at h; simp at h
    | some x =>
      obtain ⟨s2, r, b⟩ := x
      rw [hd] at h
      simp only [Option.some.injEq, Prod.mk.injEq] at h
      obtain ⟨hs, hsent⟩ := h
      subst hs
      rcases caseDISCOVER_outcome _ _ _ _ _ _ _ _ _ _ _ _ hd with ⟨hb, ht⟩ | ⟨hb, o, hr, -, ht⟩
      · left
        subst hb
        exact ⟨by simpa using hsent.symm, ht⟩
      · right
        subst hb hr
        refine ⟨o, ?_, ht⟩
        rw [← hsent]
        rfl
  · right; left
    refine ⟨h2, ?_⟩
    cases hd : caseREQUEST fuel cfg (List.drop sizeofDHCPMessage pbData) iOptionsSize
        (readDWORD pbData 12) (seenClientBefore st cid) (clientPreviousOfferAddr st cid)
        (initialReply cfg pbData) with
    | none => rw [hd] at h; simp at h
    | some x =>
      obtain ⟨r, b⟩ := x
      rw [hd] at h
      simp only [Option.some.injEq, Prod.mk.injEq] at h
      obtain ⟨hs, hsent⟩ := h
      refine ⟨hs.symm, ?_⟩
      cases b with
      | false => left; simpa using hsent.symm
      | true =>
        right
        simp only [if_true] at hsent
        subst hsent
        unfold caseREQUEST at hd
        split at hd
        · simp at hd
        · split at hd
          · simp at hd
          · simp only [Option.some.injEq] at hd
            unfold REQUEST_reply REQUEST_decide at hd
            split_ifs at hd with c1 c2 c3 c4
            all_goals simp only [REQUEST_finish, messageType_setMessageType,
              messageType_initialReply] at hd
            all_goals simp [DHCPMessageType_ACK, DHCPMessageType_NAK] at hd
            all_goals first
              | exact Or.inl ⟨_, by rw [← hd]; rfl⟩
              | exact Or.inr (by rw [← hd]; rfl)
  · right; right
    simp only [Option.some.injEq, Prod.mk.injEq] at h
    exact ⟨h1, h2, h.1.symm, h.2.symm⟩

/-- Claim C21.  A reply leaves the `switch` of `ProcessDHCPClientRequest` only when
the message type is DISCOVER, and then it is an OFFER, or REQUEST, and then it is an
ACK or a NAK.  Every datagram shorter than 240 bytes or with `op` other than 1 makes
`ProcessDHCPClientRequest` return without a reply and with the state unchanged;
every message of a type other than DISCOVER and REQUEST (DECLINE, RELEASE, INFORM,
OFFER, ACK, NAK among them) leaves the `switch` without a reply and with the state
unchanged; and whenever `ProcessDHCPClientRequest` returns, no reply has been
sent. -/
theorem C21_reply_only_for_discover_or_request :
    (∀ (fuel : Nat) (cfg : ServerConfig) (st : ServerState) (pbData : List Nat)
        (iOptionsSize dhcpmtMessageType : Nat) (cid : List Nat) (bLocalAlloc bPushBack : Bool)
        (st1 : ServerState) (d : SentDatagram),
        dispatch fuel cfg st pbData iOptionsSize dhcpmtMessageType cid bLocalAlloc bPushBack
          = some (st1, some d) →
        (dhcpmtMessageType = DHCPMessageType_DISCOVER
            ∧ d.msg.messageType = DHCPMessageType_OFFER)
          ∨ (dhcpmtMessageType = DHCPMessageType_REQUEST
            ∧ (d.msg.messageType = DHCPMessageType_ACK
              ∨ d.msg.messageType = DHCPMessageType_NAK)))
      ∧ (∀ (fuel : Nat) (cfg : ServerConfig) (st : ServerState) (pbData : List Nat)
          (iDataSize : Nat) (bLocalAlloc bPushBack : Bool),
          iDataSize < 240 ∨ readBYTE pbData 0 ≠ 1 →
          ProcessDHCPClientRequest fuel cfg st pbData iDataSize bLocalAlloc bPushBack
            = some (st, none))
      ∧ (∀ (fuel : Nat) (cfg : ServerConfig) (st : ServerState) (pbData : List Nat)
          (iOptionsSize t : Nat) (cid : List Nat) (bLocalAlloc bPushBack : Bool),
          t ≠ DHCPMessageType_DISCOVER → t ≠ DHCPMessageType_REQUEST →
          dispatch fuel cfg st pbData iOptionsSize t cid bLocalAlloc bPushBack
            = some (st, none))
      ∧ (∀ (fuel : Nat) (cfg : ServerConfig) (st : ServerState) (pbData : List Nat)
          (iDataSize : Nat) (bLocalAlloc bPushBack : Bool) (st2 : ServerState)
          (sent : Option SentDatagram),
          ProcessDHCPClientRequest fuel cfg st pbData iDataSize bLocalAlloc bPushBack
            = some (st2, sent) → sent = none) := by
  refine ⟨?_, ?_, ?_, ?_⟩
  · intro fuel cfg st pbData iOptionsSize dhcpmtMessageType cid bLocalAlloc bPushBack st1 d h
    rcases dispatch_outcome _ _ _ _ _ _ _ _ _ _ _ h with
      ⟨ht, hs⟩ | ⟨ht, -, hs⟩ | ⟨-, -, -, hs⟩
    · left
      refine ⟨ht, ?_⟩
      rcases hs with ⟨hs, -⟩ | ⟨o, hs, -⟩
      · simp at hs
      · simp only [Option.some.injEq] at hs
        rw [hs, messageType_sendReplyTo]
        exact (messageType_replies cfg pbData _).1
    · right
      refine ⟨ht, ?_⟩
      rcases hs with hs | ⟨a, hs⟩ | hs
      · simp at hs
      · left
        simp only [Option.some.injEq] at hs
        rw [hs, messageType_sendReplyTo]
        exact (messageType_replies cfg pbData a).2.1
      · right
        simp only [Option.some.injEq] at hs
        rw [hs, messageType_sendReplyTo]
        exact (messageType_replies cfg pbData 0).2.2
    · simp at hs
  · intro fuel cfg st pbData iDataSize bLocalAlloc bPushBack hc
    apply ProcessDHCPClientRequest_rejects
    unfold passesInitialChecks
    rcases hc with hc | hc
    · rw [if_pos (by simpa [sizeofDHCPMessage] using hc)]
    · by_cases h0 : sizeofDHCPMessage > iDataSize
      · rw [if_pos h0]
      · rw [if_neg h0, if_pos (by simpa [op_BOOTREQUEST] using hc)]
  · intro fuel cfg st pbData iOptionsSize t cid bLocalAlloc bPushBack h1 h2
    unfold dispatch
    simp only []
    rw [if_neg h1, if_neg h2]
  · intro fuel cfg st pbData iDataSize bLocalAlloc bPushBack st2 sent hp
    rcases ProcessDHCPClientRequest_outcome fuel cfg st pbData iDataSize bLocalAlloc
      bPushBack with h0 | h0
    · rw [h0] at hp; simp at hp
    · rw [h0] at hp
      simp only [Option.some.injEq, Prod.mk.injEq] at hp
      exact hp.2.symm

/-- The first part of C21 applies to `exampleDISCOVER` entering the `switch` as a
DISCOVER in the initial state of `exampleConfig`, where the reply is an OFFER; the
second to the frame of 200 zero bytes, which `ProcessDHCPClientRequest` drops; the
third to `exampleBareREQUEST` entering the `switch` as a RELEASE. -/
theorem C21_witness :
    ((DHCPMessageType_DISCOVER = DHCPMessageType_DISCOVER
        ∧ (sendReplyTo (exampleDISCOVER [99, 130, 83, 99]) exampleOFFER).msg.messageType
          = DHCPMessageType_OFFER)
      ∨ (DHCPMessageType_DISCOVER = DHCPMessageType_REQUEST
        ∧ ((sendReplyTo (exampleDISCOVER [99, 130, 83, 99]) exampleOFFER).msg.messageType
            = DHCPMessageType_ACK
          ∨ (sendReplyTo (exampleDISCOVER [99, 130, 83, 99]) exampleOFFER).msg.messageType
            = DHCPMessageType_NAK)))
    ∧ ProcessDHCPClientRequest 1 exampleConfig exampleBoundState (List.replicate 200 0) 200
        false false = some (exampleBoundState, none)
    ∧ dispatch 1 exampleConfig exampleBoundState exampleBareREQUEST 1 DHCPMessageType_RELEASE
        exampleChaddr true true = some (exampleBoundState, none) :=
  ⟨C21_reply_only_for_discover_or_request.1 2 exampleConfig (initialState exampleConfig)
      (exampleDISCOVER [99, 130, 83, 99]) 7 DHCPMessageType_DISCOVER exampleChaddr true true
      exampleBoundState (sendReplyTo (exampleDISCOVER [99, 130, 83, 99]) exampleOFFER)
      (by decide),
    C21_reply_only_for_discover_or_request.2.1 1 exampleConfig exampleBoundState
      (List.replicate 200 0) 200 false false (Or.inl (by decide)),
    C21_reply_only_for_discover_or_request.2.2.1 1 exampleConfig exampleBoundState
      exampleBareREQUEST 1 DHCPMessageType_RELEASE exampleChaddr true true (by decide)
      (by decide)⟩

/-- Claim C22.  The `switch` of `ProcessDHCPClientRequest` leaves the table of
addresses in use as it was, or as it was with one entry appended; the entry is
appended only for a DISCOVER of a client identifier that no entry matched, answered
with an OFFER, and it holds the offered address and that client identifier.  Any
other message type, and any datagram that is not answered, leaves the table as it
was; so does every call of `ProcessDHCPClientRequest` that returns. -/
theorem C22_bindings_are_append_only (fuel : Nat) (cfg : ServerConfig) (st : ServerState)
    (pbData : List Nat) (iOptionsSize dhcpmtMessageType : Nat) (cid : List Nat)
    (bLocalAlloc bPushBack : Bool) (st1 : ServerState) (sent : Option SentDatagram)
    (h : dispatch fuel cfg st pbData iOptionsSize dhcpmtMessageType cid bLocalAlloc bPushBack
      = some (st1, sent)) :
    (st1.vAddressesInUse = st.vAddressesInUse
        ∨ (dhcpmtMessageType = DHCPMessageType_DISCOVER ∧ seenClientBefore st cid = false
          ∧ ∃ (o : Nat) (d : SentDatagram), sent = some d
            ∧ d.msg.messageType = DHCPMessageType_OFFER ∧ d.msg.yiaddr = DWValuetoIP o
            ∧ st1.vAddressesInUse = st.vAddressesInUse ++
                [{ dwAddrValue := o, pbClientIdentifier := cid }]))
      ∧ (dhcpmtMessageType ≠ DHCPMessageType_DISCOVER →
          st1.vAddressesInUse = st.vAddressesInUse)
      ∧ (sent = none → st1.vAddressesInUse = st.vAddressesInUse)
      ∧ (∀ (iDataSize : Nat) (st2 : ServerState) (sent2 : Option SentDatagram),
          ProcessDHCPClientRequest fuel cfg st pbData iDataSize bLocalAlloc bPushBack
            = some (st2, sent2) → st2.vAddressesInUse = st.vAddressesInUse) := by
  have ho := dispatch_outcome _ _ _ _ _ _ _ _ _ _ _ h
  refine ⟨?_, ?_, ?_, ?_⟩
  · rcases ho with ⟨ht, hs⟩ | ⟨-, hs, -⟩ | ⟨-, -, hs, -⟩
    · rcases hs with ⟨-, hs⟩ | ⟨o, hs, ⟨-, hv⟩ | ⟨hn, hv⟩⟩
      · left; exact hs
      · left; exact hv
      · right
        refine ⟨ht, hn, o, _, hs, ?_, ?_, hv⟩
        · rw [messageType_sendReplyTo]
          exact (messageType_replies cfg pbData _).1
        · rw [yiaddr_sendReplyTo, yiaddr_replyOFFER]
    · left; rw [hs]
    · left; rw [hs]
  · intro hne
    rcases ho with ⟨ht, -⟩ | ⟨-, hs, -⟩ | ⟨-, -, hs, -⟩
    · exact absurd ht hne
    · rw [hs]
    · rw [hs]
  · intro hn
    rcases ho with ⟨-, hs⟩ | ⟨-, hs, -⟩ | ⟨-, -, hs, -⟩
    · rcases hs with ⟨-, hs⟩ | ⟨o, hs, -⟩
      · exact hs
      · rw [hn] at hs; simp at hs
    · rw [hs]
    · rw [hs]
  · intro iDataSize st2 sent2 hp
    rcases ProcessDHCPClientRequest_outcome fuel cfg st pbData iDataSize bLocalAlloc
      bPushBack with h0 | h0
    · rw [h0] at hp; simp at hp
    · rw [h0] at hp
      simp only [Option.some.injEq, Prod.mk.injEq] at hp
      rw [← hp.1]

/-- The hypothesis of C22 holds for `exampleDISCOVER` entering the `switch` as a
DISCOVER in the initial state of `exampleConfig`: the table grows by the entry of
192.168.1.2 and the client AA:BB:CC:DD:EE:FF. -/
theorem C22_witness :
    exampleBoundState.vAddressesInUse = (initialState exampleConfig).vAddressesInUse
      ∨ (DHCPMessageType_DISCOVER = DHCPMessageType_DISCOVER
        ∧ seenClientBefore (initialState exampleConfig) exampleChaddr = false
        ∧ ∃ (o : Nat) (d : SentDatagram),
          some (sendReplyTo (exampleDISCOVER [99, 130, 83, 99]) exampleOFFER) = some d
          ∧ d.msg.messageType = DHCPMessageType_OFFER ∧ d.msg.yiaddr = DWValuetoIP o
          ∧ exampleBoundState.vAddressesInUse
            = (initialState exampleConfig).vAddressesInUse ++
                [{ dwAddrValue := o, pbClientIdentifier := exampleChaddr }]) :=
  (C22_bindings_are_append_only 2 exampleConfig (initialState exampleConfig)
    (exampleDISCOVER [99, 130, 83, 99]) 7 DHCPMessageType_DISCOVER exampleChaddr true true
    exampleBoundState (some (sendReplyTo (exampleDISCOVER [99, 130, 83, 99]) exampleOFFER))
    (by decide)).1

/-! ## Termination and bounds of the option lookup -/

/-- Claim C23.  `FindOptionData` does not terminate on every input.  On the
well-formed options MSG_TYPE 3, HOSTNAME "a", END the lookup of the host name never
returns: the loop body leaves the position at the message-type option unchanged,
and the lookup is still running after any number of iterations.  The same holds
for every options area that starts with a tag other than PAD, END and the tag
sought. -/
theorem C23_lookup_does_not_terminate :
    FindOptionData_body option_HOSTNAME [53, 1, 3, 12, 1, 97, 255] 7 0 = OptionStep.next 0
    ∧ (∀ fuel : Nat, FindOptionData fuel option_HOSTNAME [53, 1, 3, 12, 1, 97, 255] 7 = none)
    ∧ (∀ (bOption t : Nat) (rest : List Nat) (n : Nat),
        t % 256 ≠ option_PAD → t % 256 ≠ option_END → bOption ≠ t % 256 →
        FindOptionData_body bOption (t :: rest) (n + 1) 0 = OptionStep.next 0
        ∧ ∀ fuel : Nat, FindOptionData fuel bOption (t :: rest) (n + 1) = none) := by
  refine ⟨by decide, ?_, ?_⟩
  · intro fuel
    exact FindOptionData_loop_stuck option_HOSTNAME [53, 1, 3, 12, 1, 97, 255] 7 0 (by decide)
      (by decide) fuel
  · intro bOption t rest n h0 h255 hb
    have hr : readBYTE (t :: rest) 0 = t % 256 := by simp [readBYTE]
    have e : FindOptionData_body bOption (t :: rest) (n + 1) 0 = OptionStep.next 0 := by
      simp only [FindOptionData_body, hr, if_neg h0, if_neg h255, if_neg hb,
        if_neg (show ¬ 0 ≥ n + 1 by omega)]
    exact ⟨e, fun fuel =>
      FindOptionData_loop_stuck bOption (t :: rest) (n + 1) 0 (by omega) e fuel⟩

/-- Claim C24.  `FindOptionData` reports options that do not lie inside the options
region.  With the tag 53 as the only byte of a region of size 1, it reports the
option as found, with the length and the value taken from the bytes that follow the
region: length 0 when they are zero, and length 1 and value 3 when they are 1, 3,
from which `GetDHCPMessageType` takes the message type 3.  With the host-name
option 12 of declared length 200 in a region of size 4, it reports the option as
found with length 200.  In each case the value offset plus the length exceeds the
size of the region.  In general, an option with the tag sought at the start of a
region of any size `n + 1` is reported as found with whatever length the next byte
declares: neither is compared with the size of the region. -/
theorem C24_found_option_lies_outside_the_region :
    FindOptionData 1 option_DHCPMESSAGETYPE [53] 1 = some (some (2, 0))
    ∧ ¬ (2 + 0 ≤ 1)
    ∧ FindOptionData 1 option_DHCPMESSAGETYPE [53, 1, 3] 1 = some (some (2, 1))
    ∧ ¬ (2 + 1 ≤ 1)
    ∧ GetDHCPMessageType 1 [53, 1, 3] 1 = some (some 3)
    ∧ FindOptionData 1 option_HOSTNAME [12, 200, 97, 255] 4 = some (some (2, 200))
    ∧ ¬ (2 + 200 ≤ 4)
    ∧ (∀ (fuel t len : Nat) (rest : List Nat) (n : Nat),
        t % 256 ≠ option_PAD → t % 256 ≠ option_END →
        FindOptionData (fuel + 1) (t % 256) (t :: len :: rest) (n + 1)
          = some (some (2, len % 256))) := by
  refine ⟨by decide, by decide, by decide, by decide, by decide, by decide, by decide, ?_⟩
  intro fuel t len rest n h0 h255
  have hr : readBYTE (t :: len :: rest) 0 = t % 256 := by simp [readBYTE]
  have hl : readBYTE (t :: len :: rest) (0 + 1) = len % 256 := by simp [readBYTE]
  have e : FindOptionData_body (t % 256) (t :: len :: rest) (n + 1) 0
      = OptionStep.done (some (2, len % 256)) := by
    simp only [FindOptionData_body, hr, hl, if_neg h0, if_neg h255,
      if_neg (show ¬ 0 ≥ n + 1 by omega), if_true, sizeofDHCPOptionsData]
  unfold FindOptionData
  rw [FindOptionData_loop, if_pos (by omega), e]

/-! ## The range of addresses -/

/-- The bits of the mask with `k` host bits: bit `i` is set when `k ≤ i < 32`. -/
theorem testBit_prefixMask (k i : Nat) (hk : k ≤ 32) :
    (2 ^ 32 - 2 ^ k).testBit i = (decide (k ≤ i) && decide (i < 32)) := by
  have hp : 2 ^ k ≤ 2 ^ 32 := Nat.pow_le_pow_right (by decide) hk
  have hpos : 0 < 2 ^ k := Nat.two_pow_pos k
  have e : 2 ^ 32 - 2 ^ k = 2 ^ 32 - ((2 ^ k - 1) + 1) := by omega
  rw [e, Nat.testBit_two_pow_sub_succ (by omega), Nat.testBit_two_pow_sub_one]
  by_cases h1 : i < k
  · have h3 : ¬ k ≤ i := by omega
    simp [h1, h3]
  · have h3 : k ≤ i := by omega
    simp [h1, h3]

/-- A `DWORD` has no bit at position 32 or above. -/
theorem testBit_DWORD (a i : Nat) (ha : a < 2 ^ 32) (hi : 32 ≤ i) : a.testBit i = false :=
  Nat.testBit_lt_two_pow (Nat.lt_of_lt_of_le ha (Nat.pow_le_pow_right (by decide) hi))

/-- Masking a `DWORD` with the mask of `k` host bits clears its `k` low bits. -/
theorem and_prefixMask (a k : Nat) (ha : a < 2 ^ 32) (hk : k ≤ 32) :
    a &&& (2 ^ 32 - 2 ^ k) = 2 ^ k * (a / 2 ^ k) := by
  apply Nat.eq_of_testBit_eq
  intro i
  rw [Nat.testBit_and, testBit_prefixMask k i hk, Nat.testBit_mul_pow_two,
    ← Nat.shiftRight_eq_div_pow, Nat.testBit_shiftRight]
  by_cases h1 : k ≤ i
  · by_cases h2 : i < 32
    · simp [h1, h2, Nat.add_sub_cancel' h1]
    · simp [h1, h2, Nat.add_sub_cancel' h1, testBit_DWORD a i ha (by omega)]
  · simp [h1]

/-- Setting the `k` low bits of a number. -/
theorem or_hostMask (a k : Nat) :
    a ||| (2 ^ k - 1) = 2 ^ k * (a / 2 ^ k) + (2 ^ k - 1) := by
  apply Nat.eq_of_testBit_eq
  intro i
  have hpos : 0 < 2 ^ k := Nat.two_pow_pos k
  rw [Nat.testBit_or, Nat.testBit_two_pow_sub_one,
    Nat.testBit_mul_pow_two_add _ (by omega : 2 ^ k - 1 < 2 ^ k), Nat.testBit_two_pow_sub_one,
    ← Nat.shiftRight_eq_div_pow, Nat.testBit_shiftRight]
  by_cases h1 : i < k
  · simp [h1]
  · simp [h1, Nat.add_sub_cancel' (Nat.le_of_not_lt h1)]

/-- The range bounds for a mask with `k ≥ 2` host bits, in arithmetic: with `n` the
network address, a multiple of `2 ^ k`, the bounds are `n + 2` and `n + 2 ^ k - 2`,
and the broadcast address is `n + 2 ^ k - 1`, below `2 ^ 32`. -/
theorem range_prefixMask (a k : Nat) (ha : a < 2 ^ 32) (hk2 : 2 ≤ k) (hk : k ≤ 32) :
    GetIPAddressInformation_dwMinAddrValue a (2 ^ 32 - 2 ^ k) = 2 ^ k * (a / 2 ^ k) + 2
      ∧ GetIPAddressInformation_dwMaxAddrValue a (2 ^ 32 - 2 ^ k)
          = 2 ^ k * (a / 2 ^ k) + (2 ^ k - 2)
      ∧ a ||| DWORD_not (2 ^ 32 - 2 ^ k) = 2 ^ k * (a / 2 ^ k) + (2 ^ k - 1)
      ∧ 2 ^ k * (a / 2 ^ k) + 2 ^ k ≤ 2 ^ 32
      ∧ 4 ≤ 2 ^ k := by
  have hp : 2 ^ k ≤ 2 ^ 32 := Nat.pow_le_pow_right (by decide) hk
  have h4 : 2 ^ 2 ≤ 2 ^ k := Nat.pow_le_pow_right (by decide) hk2
  have hsplit : 2 ^ 32 = 2 ^ k * 2 ^ (32 - k) := by
    rw [← Nat.pow_add, Nat.add_sub_cancel' hk]
  have hq : a / 2 ^ k < 2 ^ (32 - k) := by
    apply Nat.div_lt_of_lt_mul
    rw [← hsplit]; exact ha
  have hle : 2 ^ k * (a / 2 ^ k) + 2 ^ k ≤ 2 ^ 32 := by
    have : 2 ^ k * (a / 2 ^ k + 1) ≤ 2 ^ k * 2 ^ (32 - k) := Nat.mul_le_mul_left _ hq
    rw [← hsplit, Nat.mul_add, Nat.mul_one] at this
    exact this
  have hm1 : (2 ^ 32 - 2 ^ k) ||| 1 = 2 ^ 32 - 2 ^ k + 1 := by
    have e : 2 ^ 32 - 2 ^ k = 2 ^ k * (2 ^ (32 - k) - 1) := by
      rw [Nat.mul_sub, Nat.mul_one, ← hsplit]
    rw [e, ← Nat.mul_add_lt_is_or (by omega : 1 < 2 ^ k)]
  refine ⟨?_, ?_, ?_, hle, h4⟩
  · unfold GetIPAddressInformation_dwMinAddrValue
    rw [and_prefixMask a k ha hk, ← Nat.mul_add_lt_is_or (by omega : 2 < 2 ^ k)]
  · unfold GetIPAddressInformation_dwMaxAddrValue
    have hn : DWORD_not (2 ^ 32 - 2 ^ k ||| 1) = 2 ^ k - 2 := by
      rw [hm1]
      unfold DWORD_not
      omega
    rw [hn, and_prefixMask a k ha hk, ← Nat.mul_add_lt_is_or (by omega : 2 ^ k - 2 < 2 ^ k)]
  · have hn : DWORD_not (2 ^ 32 - 2 ^ k) = 2 ^ k - 1 := by
      unfold DWORD_not
      omega
    rw [hn, or_hostMask]

/-- The range that `GetIPAddressInformation` derives for the server 192.168.1.3 with
the mask 255.255.255.248 is the range 192.168.1.2 .. 192.168.1.6 of
`exampleConfig`. -/
theorem GetIPAddressInformation_exampleConfig :
    GetIPAddressInformation exampleConfig.dwServerAddr exampleConfig.dwMask
      = some (exampleConfig.dwServerAddr, exampleConfig.dwMask, exampleConfig.dwMinAddr,
          exampleConfig.dwMaxAddr) := by
  decide

/-- Counterexample to C25.  For the server 192.168.1.2 with the 31-bit mask
255.255.255.254 the bounds satisfy `min ≤ max` and the range is the single address
192.168.1.2, the network address of the subnet; `GetIPAddressInformation` succeeds
with it.  For the same server with the 32-bit mask 255.255.255.255 the range is
again the single address 192.168.1.2, which is both the network address and the
broadcast address of the subnet. -/
theorem C25_range_of_a_31_bit_mask_holds_the_network_address :
    DWIPtoValue (readDWORD [255, 255, 255, 254] 0) = 2 ^ 32 - 2 ^ 1
    ∧ GetIPAddressInformation_dwMinAddrValue (DWIPtoValue (readDWORD [192, 168, 1, 2] 0))
        (DWIPtoValue (readDWORD [255, 255, 255, 254] 0))
      ≤ GetIPAddressInformation_dwMaxAddrValue (DWIPtoValue (readDWORD [192, 168, 1, 2] 0))
        (DWIPtoValue (readDWORD [255, 255, 255, 254] 0))
    ∧ GetIPAddressInformation_dwMinAddrValue (DWIPtoValue (readDWORD [192, 168, 1, 2] 0))
        (DWIPtoValue (readDWORD [255, 255, 255, 254] 0))
      = DWIPtoValue (readDWORD [192, 168, 1, 2] 0)
          &&& DWIPtoValue (readDWORD [255, 255, 255, 254] 0)
    ∧ GetIPAddressInformation (readDWORD [192, 168, 1, 2] 0) (readDWORD [255, 255, 255, 254] 0)
      = some (readDWORD [192, 168, 1, 2] 0, readDWORD [255, 255, 255, 254] 0,
          readDWORD [192, 168, 1, 2] 0, readDWORD [192, 168, 1, 2] 0)
    ∧ DWIPtoValue (readDWORD [255, 255, 255, 255] 0) = 2 ^ 32 - 2 ^ 0
    ∧ GetIPAddressInformation_dwMinAddrValue (DWIPtoValue (readDWORD [192, 168, 1, 2] 0))
        (DWIPtoValue (readDWORD [255, 255, 255, 255] 0))
      ≤ GetIPAddressInformation_dwMaxAddrValue (DWIPtoValue (readDWORD [192, 168, 1, 2] 0))
        (DWIPtoValue (readDWORD [255, 255, 255, 255] 0))
    ∧ GetIPAddressInformation_dwMinAddrValue (DWIPtoValue (readDWORD [192, 168, 1, 2] 0))
        (DWIPtoValue (readDWORD [255, 255, 255, 255] 0))
      = DWIPtoValue (readDWORD [192, 168, 1, 2] 0)
          &&& DWIPtoValue (readDWORD [255, 255, 255, 255] 0)
    ∧ GetIPAddressInformation_dwMinAddrValue (DWIPtoValue (readDWORD [192, 168, 1, 2] 0))
        (DWIPtoValue (readDWORD [255, 255, 255, 255] 0))
      = DWIPtoValue (readDWORD [192, 168, 1, 2] 0)
          ||| DWORD_not (DWIPtoValue (readDWORD [255, 255, 255, 255] 0)) := by
  decide

/-- Claim C25, for masks of at most 30 bits.  For every server address and every
mask that is a prefix with `k ≥ 2` host bits, the bounds that
`GetIPAddressInformation` computes on the host-order values satisfy `min ≤ max`,
the function succeeds with them when the address is not 0, and every value in
`[min, max]` lies in the subnet of the server and is neither the network address,
nor the network address plus 1, nor the broadcast address of the subnet. -/
theorem C25_range_derivation (dwAddr dwMask k : Nat) (hk2 : 2 ≤ k) (hk : k ≤ 32)
    (hm : DWIPtoValue dwMask = 2 ^ 32 - 2 ^ k) :
    GetIPAddressInformation_dwMinAddrValue (DWIPtoValue dwAddr) (DWIPtoValue dwMask)
        ≤ GetIPAddressInformation_dwMaxAddrValue (DWIPtoValue dwAddr) (DWIPtoValue dwMask)
      ∧ (0 ≠ dwAddr → GetIPAddressInformation dwAddr dwMask
          = some (dwAddr, dwMask,
              DWValuetoIP (GetIPAddressInformation_dwMinAddrValue (DWIPtoValue dwAddr)
                (DWIPtoValue dwMask)),
              DWValuetoIP (GetIPAddressInformation_dwMaxAddrValue (DWIPtoValue dwAddr)
                (DWIPtoValue dwMask))))
      ∧ ∀ a : Nat,
          GetIPAddressInformation_dwMinAddrValue (DWIPtoValue dwAddr) (DWIPtoValue dwMask) ≤ a →
          a ≤ GetIPAddressInformation_dwMaxAddrValue (DWIPtoValue dwAddr) (DWIPtoValue dwMask) →
          a &&& DWIPtoValue dwMask = DWIPtoValue dwAddr &&& DWIPtoValue dwMask
            ∧ a ≠ DWIPtoValue dwAddr &&& DWIPtoValue dwMask
            ∧ a ≠ (DWIPtoValue dwAddr &&& DWIPtoValue dwMask) + 1
            ∧ a ≠ DWIPtoValue dwAddr ||| DWORD_not (DWIPtoValue dwMask) := by
  have hlt := DWIPtoValue_lt dwAddr
  obtain ⟨hmin, hmax, hbc, hle, h4⟩ := range_prefixMask (DWIPtoValue dwAddr) k hlt hk2 hk
  have hnet := and_prefixMask (DWIPtoValue dwAddr) k hlt hk
  rw [hm]
  rw [hmin, hmax, hbc, hnet]
  have hmm : 2 ^ k * (DWIPtoValue dwAddr / 2 ^ k) + 2
      ≤ 2 ^ k * (DWIPtoValue dwAddr / 2 ^ k) + (2 ^ k - 2) := by omega
  refine ⟨hmm, ?_, ?_⟩
  · intro h0
    unfold GetIPAddressInformation
    simp only [hm, hmin, hmax, if_pos h0, if_pos hmm]
  · intro a h1 h2
    have ha : a < 2 ^ 32 := by omega
    have hq : a / 2 ^ k = DWIPtoValue dwAddr / 2 ^ k := by
      apply Nat.div_eq_of_lt_le
      · rw [Nat.mul_comm]; omega
      · rw [Nat.succ_mul, Nat.mul_comm]; omega
    rw [and_prefixMask a k ha hk, hq]
    refine ⟨rfl, ?_, ?_, ?_⟩ <;> omega

/-- The hypotheses of C25 hold for the server 192.168.1.3 with the mask
255.255.255.248, which has 3 host bits: `GetIPAddressInformation` succeeds. -/
theorem C25_witness :
    GetIPAddressInformation (readDWORD [192, 168, 1, 3] 0) (readDWORD [255, 255, 255, 248] 0)
      = some (readDWORD [192, 168, 1, 3] 0, readDWORD [255, 255, 255, 248] 0,
          DWValuetoIP (GetIPAddressInformation_dwMinAddrValue
            (DWIPtoValue (readDWORD [192, 168, 1, 3] 0))
            (DWIPtoValue (readDWORD [255, 255, 255, 248] 0))),
          DWValuetoIP (GetIPAddressInformation_dwMaxAddrValue
            (DWIPtoValue (readDWORD [192, 168, 1, 3] 0))
            (DWIPtoValue (readDWORD [255, 255, 255, 248] 0)))) :=
  (C25_range_derivation (readDWORD [192, 168, 1, 3] 0) (readDWORD [255, 255, 255, 248] 0) 3
    (by decide) (by decide) (by decide)).2.1 (by decide)

/-! ## The destination of a reply -/

/-- The destination of a reply sent for a request is not 0. -/
theorem s_addr_sendReplyTo (cfg : ServerConfig) (pbData : List Nat) (r : DHCPMessage)
    (hr : (∃ a : Nat, r = replyOFFER cfg pbData a) ∨ (∃ a : Nat, r = replyACK cfg pbData a)
      ∨ r = replyNAK cfg pbData) :
    (sendReplyTo pbData r).s_addr ≠ 0 := by
  have ht : r.messageType = DHCPMessageType_OFFER ∨ r.messageType = DHCPMessageType_ACK
      ∨ r.messageType = DHCPMessageType_NAK := by
    rcases hr with ⟨a, hr⟩ | ⟨a, hr⟩ | hr
    · rw [hr]; exact Or.inl (messageType_replies cfg pbData a).1
    · rw [hr]; exact Or.inr (Or.inl (messageType_replies cfg pbData a).2.1)
    · rw [hr]; exact Or.inr (Or.inr (messageType_replies cfg pbData 0).2.2)
  unfold sendReplyTo sendReply
  split_ifs with h1 h2 h3 h4 h5 h6
  all_goals simp only [INADDR_BROADCAST]
  all_goals first
    | decide
    | (intro h0; simp_all)

/-- The destination of every reply the `switch` sends is not 0, and it is the value
`INADDR_LOOPBACK` only when the `giaddr`, the `ciaddr` or the `yiaddr` of the
request is that value. -/
theorem dispatch_destination (fuel : Nat) (cfg : ServerConfig) (st : ServerState)
    (pbData : List Nat) (iOptionsSize dhcpmtMessageType : Nat) (cid : List Nat)
    (bLocalAlloc bPushBack : Bool) (st1 : ServerState) (d : SentDatagram)
    (h : dispatch fuel cfg st pbData iOptionsSize dhcpmtMessageType cid bLocalAlloc bPushBack
      = some (st1, some d)) :
    d.s_addr ≠ 0
      ∧ (d.s_addr = INADDR_LOOPBACK →
          readDWORD pbData 24 = INADDR_LOOPBACK ∨ readDWORD pbData 12 = INADDR_LOOPBACK
            ∨ readDWORD pbData 16 = INADDR_LOOPBACK) := by
  obtain ⟨r, hd, hr⟩ := dispatch_sent _ _ _ _ _ _ _ _ _ _ _ h
  have ht : r.messageType = DHCPMessageType_OFFER ∨ r.messageType = DHCPMessageType_ACK
      ∨ r.messageType = DHCPMessageType_NAK := by
    rcases hr with ⟨a, hr⟩ | ⟨a, hr⟩ | hr
    · rw [hr]; exact Or.inl (messageType_replies cfg pbData a).1
    · rw [hr]; exact Or.inr (Or.inl (messageType_replies cfg pbData a).2.1)
    · rw [hr]; exact Or.inr (Or.inr (messageType_replies cfg pbData 0).2.2)
  refine ⟨by rw [hd]; exact s_addr_sendReplyTo cfg pbData r hr, ?_⟩
  rw [hd]
  unfold sendReplyTo sendReply
  split_ifs with h1 h2 h3 h4 h5 h6
  all_goals simp only [INADDR_BROADCAST, INADDR_LOOPBACK]
  all_goals first
    | (intro h0; exact absurd h0 (by decide))
    | (intro h0; exact Or.inl h0)
    | (intro h0; exact Or.inr (Or.inl h0))
    | (intro h0; exact Or.inr (Or.inr h0))
    | (intro h0; rcases ht with ht | ht | ht <;> simp_all)

/-- The destination is the value `INADDR_LOOPBACK` when the `giaddr` of the request
is that value, and for an OFFER when `giaddr` is 0 and the `ciaddr` of the request is
that value. -/
theorem sendReply_loopback (cfg : ServerConfig) (pbData : List Nat)
    (ciaddr yiaddr flags a : Nat) (r : DHCPMessage) :
    (sendReply INADDR_LOOPBACK ciaddr yiaddr flags r).s_addr = INADDR_LOOPBACK
      ∧ (sendReply 0 INADDR_LOOPBACK yiaddr flags (replyOFFER cfg pbData a)).s_addr
          = INADDR_LOOPBACK := by
  constructor
  · simp [sendReply, INADDR_LOOPBACK]
  · have ht := (messageType_replies cfg pbData a).1
    simp [sendReply, ht, INADDR_LOOPBACK]

/-! ## The first DISCOVER -/

/-- Claim C18.  The first DISCOVER of a client in the initial state is not answered,
for any configuration: with the magic cookie `ProcessDHCPClientRequest` drops the
frame at the cookie test, with another cookie `GetDHCPMessageType` refuses the
message type 1; in both cases it returns with nothing sent and the initial state
unchanged.  For `exampleConfig`, whose range 192.168.1.2 .. 192.168.1.6 is the one
`GetIPAddressInformation` derives, no OFFER of 192.168.1.2 is sent.  The DISCOVER
case itself, entered for this frame, offers 192.168.1.2. -/
theorem C18_first_discover_is_not_answered :
    (∀ (fuel : Nat) (cfg : ServerConfig) (bLocalAlloc bPushBack : Bool),
        ProcessDHCPClientRequest fuel cfg (initialState cfg)
          (exampleDISCOVER [99, 130, 83, 99]) 247 bLocalAlloc bPushBack
          = some (initialState cfg, none))
    ∧ (∀ (fuel : Nat) (cfg : ServerConfig) (bLocalAlloc bPushBack : Bool),
        ProcessDHCPClientRequest (fuel + 1) cfg (initialState cfg)
          (exampleDISCOVER [99, 130, 83, 98]) 247 bLocalAlloc bPushBack
          = some (initialState cfg, none))
    ∧ GetIPAddressInformation exampleConfig.dwServerAddr exampleConfig.dwMask
        = some (exampleConfig.dwServerAddr, exampleConfig.dwMask, exampleConfig.dwMinAddr,
            exampleConfig.dwMaxAddr)
    ∧ exampleConfig.dwMinAddr = readDWORD [192, 168, 1, 2] 0
    ∧ (dispatch 1 exampleConfig (initialState exampleConfig) (exampleDISCOVER [99, 130, 83, 98])
        7 DHCPMessageType_DISCOVER exampleChaddr true true).map
          (fun x => x.2.map (fun d => (d.msg.messageType, d.msg.yiaddr)))
      = some (some (DHCPMessageType_OFFER, exampleConfig.dwMinAddr)) := by
  refine ⟨fun fuel cfg b1 b2 => exampleDISCOVER_magic fuel cfg _ b1 b2,
    fun fuel cfg b1 b2 => exampleDISCOVER_other fuel cfg _ b1 b2, by decide, by decide,
    by decide⟩

end DHCPLite
